import Mathlib

/-!
# Stellar Defender: the simulation engine of `src/index.jsx`

A shallow embedding of the game engine classes of `src/index.jsx`
(`StellarDefenderGame`, `Player`, `Projectile`, `Enemy` and its subclasses,
`PowerUp`, `Particle`) and theorems about them.

Conventions of the embedding.

* JavaScript numbers are modelled by the rationals `ℚ`; the integer counters
  `score`, `lives` and `wave` are modelled by `ℤ`.  Arithmetic is exact, except
  for the two count-downs of `Player.update` (the invincibility timer and the
  power-up durations): these subtract the frame delta many times over and compare
  the result with 0, so every difference is rounded to the nearest IEEE 754
  double, as the code computes it.
* A JavaScript array is a `List`; `push` appends at the end, `splice(i, 1)` is
  `List.eraseIdx`, an index read is `l[i]?` (`none` for `undefined`).
* The object `Player.powerUps` is a map from property names to numbers, modelled
  as a function `String → Option ℚ` that gives the own properties of the object
  (`none`: the property is absent).  The one name that an assignment does not
  turn into an own property, `__proto__`, is treated apart in `applyPowerUp`.
* What the browser supplies during one frame is collected in `Env`: the canvas
  size, the input state, the successive results of `Math.random()` and
  `Date.now()`, and the functions `Math.sqrt`, `Math.sin`, `Math.cos`.  The game
  state counts how many results of each stream the current frame has consumed.
* The callbacks `onScoreUpdate`, `onLivesUpdate`, `onGameOver` and `playSound`
  are modelled by a log of events, newest first.
* Rendering and the star field of the background are not modelled: they read the
  state described here and write none of it.
-/

namespace StellarDefender

/-! ## The environment of one frame -/

/-- Device classes of `getDeviceBoundaries` and `createExplosion`. -/
inductive DeviceType where
  | mobile
  | tablet
  | desktop
  deriving DecidableEq

/-- What the browser supplies while one frame (or one call from outside) runs. -/
structure Env where
  /-- The value of `canvas.width / window.devicePixelRatio`. -/
  canvasWidth : ℚ
  /-- The value of `canvas.height / window.devicePixelRatio`. -/
  canvasHeight : ℚ
  /-- The successive results of `Math.random()`. -/
  random : Nat → ℚ
  /-- The successive results of `Date.now()`. -/
  now : Nat → ℚ
  /-- The result of `performance.now()`. -/
  performanceNow : ℚ
  /-- Left key: `keys['arrowleft'] || keys['a'] || playerMovement.left`. -/
  left : Bool
  /-- Right key: `keys['arrowright'] || keys['d'] || playerMovement.right`. -/
  right : Bool
  /-- Up key: `keys['arrowup'] || keys['w'] || playerMovement.up`. -/
  up : Bool
  /-- Down key: `keys['arrowdown'] || keys['s'] || playerMovement.down`. -/
  down : Bool
  /-- The flag `isTouching`. -/
  isTouching : Bool
  /-- The field `mousePos.x`. -/
  mouseX : ℚ
  /-- The field `mousePos.y`. -/
  mouseY : ℚ
  /-- The function `Math.sqrt`. -/
  sqrt : ℚ → ℚ
  /-- The function `Math.sin`. -/
  sin : ℚ → ℚ
  /-- The function `Math.cos`. -/
  cos : ℚ → ℚ
  /-- The constant `Math.PI`. -/
  PI : ℚ

/-! ## Doubles -/

/-- The power `2 ^ k` for an integer exponent. -/
def pow2 (k : ℤ) : ℚ :=
  if 0 ≤ k then ((2 ^ k.toNat : ℕ) : ℚ) else 1 / ((2 ^ (-k).toNat : ℕ) : ℚ)

/-- The number of halvings that bring `n` below 2, at most `fuel` of them. -/
def halvings : Nat → Nat → Nat
  | 0, _ => 0
  | fuel + 1, n => if 2 ≤ n then halvings fuel (n / 2) + 1 else 0

/-- The binary logarithm `⌊log2 n⌋` of a natural number (0 for 0). -/
def log2 (n : Nat) : Nat := halvings n n

/-- The binary exponent of a rational: `⌊log2 |q|⌋` for `q ≠ 0`. -/
def Double.exponent (q : ℚ) : ℤ :=
  let k : ℤ := (log2 q.num.natAbs : ℤ) - (log2 q.den : ℤ)
  if pow2 k ≤ |q| then k else k - 1

/-- Rounding to the nearest integer, ties to the even one. -/
def Double.roundInt (s : ℚ) : ℤ :=
  let f := ⌊s⌋
  let r := s - f
  if r < 1 / 2 then f else if 1 / 2 < r then f + 1 else if f % 2 = 0 then f else f + 1

/-- The IEEE 754 binary64 value nearest to `q` (ties to even): 53 significant
bits, and no bit below `2 ^ -1074`.  Overflow is not modelled: beyond the largest
finite double, where the operation gives an infinity, the model gives a number of
the same sign. -/
def Double.round (q : ℚ) : ℚ :=
  if q = 0 then 0
  else
    let e := max (Double.exponent q - 52) (-1074)
    (Double.roundInt (q / pow2 e) : ℚ) * pow2 e

/-- The JavaScript subtraction `a - b` of two numbers: the exact difference,
rounded to a double. -/
def Double.sub (a b : ℚ) : ℚ := Double.round (a - b)

/-! ## Circles and the collision test -/

/-- The part of an entity that `checkCollision` reads. -/
structure Circle where
  x : ℚ
  y : ℚ
  radius : ℚ

/-- `StellarDefenderGame.checkCollision(obj1, obj2)`, lines 724-728. -/
def checkCollision (obj1 obj2 : Circle) : Bool :=
  let dx := obj1.x - obj2.x
  let dy := obj1.y - obj2.y
  decide (dx * dx + dy * dy < (obj1.radius + obj2.radius) * (obj1.radius + obj2.radius))

/-! ## Projectile -/

/-- Class `Projectile`, lines 995-1006. -/
structure Projectile where
  x : ℚ
  y : ℚ
  vx : ℚ
  vy : ℚ
  damage : ℚ
  isPlayerProjectile : Bool
  radius : ℚ

/-- The constructor of `Projectile`: the radius is always 4. -/
def Projectile.new (x y vx vy damage : ℚ) (isPlayerProjectile : Bool) : Projectile :=
  { x := x, y := y, vx := vx, vy := vy, damage := damage,
    isPlayerProjectile := isPlayerProjectile, radius := 4 }

/-- `Projectile.update(deltaTime)`; the method always returns `true`. -/
def Projectile.update (p : Projectile) (deltaTime : ℚ) : Projectile :=
  let factor := deltaTime / 1000
  { p with x := p.x + p.vx * factor, y := p.y + p.vy * factor }

/-- The circle of a projectile. -/
def Projectile.circle (p : Projectile) : Circle := ⟨p.x, p.y, p.radius⟩

/-! ## Player -/

/-- JavaScript truthiness of a property read `obj.key` whose value, when present,
is a number: absent (`undefined`) and `0` are falsy. -/
def truthy (v : Option ℚ) : Bool :=
  match v with
  | none => false
  | some n => decide (n ≠ 0)

/-- Class `Player`, lines 810-899: the fields that are assigned after
construction.  The fields `radius`, `speed`, `maxHealth`, `fireRate` and
`damage` are set once by the constructor and never assigned again; they are the
constants below. -/
structure Player where
  x : ℚ
  y : ℚ
  health : ℚ
  lastFire : ℚ
  isInvincible : Bool
  invincibleTimer : ℚ
  powerUps : String → Option ℚ

/-- The field `radius` of the player. -/
def Player.radius : ℚ := 25

/-- The field `speed` of the player, in px/s. -/
def Player.speed : ℚ := 350

/-- The field `maxHealth` of the player. -/
def Player.maxHealth : ℚ := 100

/-- The field `fireRate` of the player, in ms. -/
def Player.fireRate : ℚ := 200

/-- The field `damage` of the player: the damage of an unboosted projectile. -/
def Player.damage : ℚ := 25

/-- `Player.spawn(x, y)`, lines 821-828. -/
def Player.spawn (p : Player) (x y : ℚ) : Player :=
  { p with x := x, y := y, health := Player.maxHealth, lastFire := 0,
           isInvincible := true, invincibleTimer := 3000 }

/-- The constructor of `Player`, lines 811-819: `spawn`, then an empty
`powerUps` object. -/
def Player.new (x y : ℚ) : Player :=
  { x := x, y := y, health := Player.maxHealth, lastFire := 0,
    isInvincible := true, invincibleTimer := 3000, powerUps := fun _ => none }

/-- `Player.update(deltaTime, canvasWidth, playAreaTop, playAreaBottom)`,
lines 830-845.  The `forEach` over `Object.keys(this.powerUps)` treats every
key on its own: the value is decreased and the key deleted when the new value is
`<= 0`.  The two subtractions `-=` of lines 832 and 838 give doubles. -/
def Player.update (p : Player) (deltaTime canvasWidth playAreaTop playAreaBottom : ℚ) :
    Player :=
  let p :=
    if p.isInvincible then
      let p := { p with invincibleTimer := Double.sub p.invincibleTimer deltaTime }
      if p.invincibleTimer ≤ 0 then { p with isInvincible := false } else p
    else p
  let p := { p with powerUps := fun key =>
    match p.powerUps key with
    | none => none
    | some v =>
      if Double.sub v deltaTime ≤ 0 then none else some (Double.sub v deltaTime) }
  { p with
    x := max Player.radius (min p.x (canvasWidth - Player.radius)),
    y := max (playAreaTop + Player.radius) (min p.y (playAreaBottom - Player.radius)) }

/-- The expression `this.speed * (this.powerUps.speedBoost ? 1.5 : 1)`. -/
def Player.currentSpeed (p : Player) : ℚ :=
  Player.speed * (if truthy (p.powerUps "speedBoost") then 1.5 else 1)

/-- `Player.move(dx, dy, deltaTime)`, lines 847-853; `|| 1` replaces a zero
magnitude by 1. -/
def Player.move (E : Env) (p : Player) (dx dy deltaTime : ℚ) : Player :=
  let moveSpeed := p.currentSpeed * deltaTime / 1000
  let root := E.sqrt (dx * dx + dy * dy)
  let mag := if root ≠ 0 then root else 1
  { p with x := p.x + (dx / mag) * moveSpeed, y := p.y + (dy / mag) * moveSpeed }

/-- `Player.moveTowards(targetX, targetY, deltaTime)`, lines 855-865. -/
def Player.moveTowards (E : Env) (p : Player) (targetX targetY deltaTime : ℚ) : Player :=
  let dx := targetX - p.x
  let dy := targetY - p.y
  let dist := E.sqrt (dx * dx + dy * dy)
  if dist > 5 then
    let moveSpeed := p.currentSpeed * deltaTime / 1000
    { p with x := p.x + (dx / dist) * moveSpeed, y := p.y + (dy / dist) * moveSpeed }
  else p

/-- `Player.canFire()`, line 867, with `now` the result of `Date.now()`. -/
def Player.canFire (p : Player) (now : ℚ) : Bool :=
  decide (now - p.lastFire > Player.fireRate)

/-- `Player.fire()`, lines 869-882, with `now` the result of `Date.now()`: the
player with `lastFire` set, and the projectiles returned. -/
def Player.fire (p : Player) (now : ℚ) : Player × List Projectile :=
  let damage := Player.damage * (if truthy (p.powerUps "damageBoost") then 1.5 else 1)
  let projectiles :=
    if truthy (p.powerUps "multiShot") then
      [Projectile.new (p.x - 10) (p.y - 20) 0 (-500) damage true,
       Projectile.new p.x (p.y - 20) 0 (-500) damage true,
       Projectile.new (p.x + 10) (p.y - 20) 0 (-500) damage true]
    else if truthy (p.powerUps "spreadShot") then
      [Projectile.new p.x (p.y - 20) (-100) (-500) damage true,
       Projectile.new p.x (p.y - 20) 0 (-500) damage true,
       Projectile.new p.x (p.y - 20) 100 (-500) damage true]
    else
      [Projectile.new p.x (p.y - 20) 0 (-500) damage true]
  ({ p with lastFire := now }, projectiles)

/-- `Player.takeDamage(damage)`, lines 884-892: the value returned and the
player afterwards. -/
def Player.takeDamage (p : Player) (damage : ℚ) : Bool × Player :=
  if p.isInvincible then (false, p)
  else if truthy (p.powerUps "shield") then
    (false, { p with powerUps := fun key => if key = "shield" then none else p.powerUps key })
  else
    let p := { p with health := p.health - damage }
    (decide (p.health ≤ 0), p)

/-- `Player.applyPowerUp(type)`, lines 894-899.  The object `powerUps` is a plain
object (`{}`, line 818): the assignment `this.powerUps[type] = 10000` creates or
overwrites the own property `type`, except for the name `__proto__`, where it
goes to the setter inherited from `Object.prototype`, which ignores a number and
creates no property. -/
def Player.applyPowerUp (p : Player) (type : String) : Player :=
  if type = "__proto__" then p
  else
    let p := { p with powerUps := fun key => if key = type then some 10000 else p.powerUps key }
    if type = "shield" then
      { p with powerUps := fun key => if key = type then some 15000 else p.powerUps key }
    else p

/-- The circle of the player. -/
def Player.circle (p : Player) : Circle := ⟨p.x, p.y, Player.radius⟩

/-! ## Enemies -/

/-- The subclass of an enemy with the fields the subclass adds: `Meteor`
(lines 1046-1058), `AlienShip` (lines 1071-1083), `Boss` (lines 1131-1160). -/
inductive EnemyKind where
  | meteor (rotation rotationSpeed : ℚ)
  | alienShip (zigzag : ℚ)
  | boss (phase : ℤ) (phaseTimer : ℚ)

/-- Class `Enemy`, lines 1023-1036, with the subclass in `kind`. -/
structure Enemy where
  x : ℚ
  y : ℚ
  health : ℚ
  maxHealth : ℚ
  points : ℚ
  damage : ℚ
  radius : ℚ
  speed : ℚ
  fireRate : ℚ
  lastFire : ℚ
  kind : EnemyKind

/-- `new Meteor(x, y)`: `now` is the `Date.now()` read by the base constructor,
`r1`, `r2`, `r3` the three `Math.random()` results, in the order drawn. -/
def Meteor.new (now x y r1 r2 r3 : ℚ) : Enemy :=
  { x := x, y := y, health := 50, maxHealth := 50, points := 50, damage := 25,
    radius := 20 + r1 * 10, speed := 100 + r2 * 100, fireRate := 1000, lastFire := now,
    kind := .meteor 0 (r3 * 2 - 1) }

/-- `new AlienShip(x, y)`: `r1` is the one `Math.random()` result drawn. -/
def AlienShip.new (E : Env) (now x y r1 : ℚ) : Enemy :=
  { x := x, y := y, health := 75, maxHealth := 75, points := 100, damage := 25,
    radius := 18, speed := 120, fireRate := 1200, lastFire := now,
    kind := .alienShip (r1 * E.PI * 2) }

/-- `new Boss(x, y)`. -/
def Boss.new (now x y : ℚ) : Enemy :=
  { x := x, y := y, health := 500, maxHealth := 500, points := 1000, damage := 25,
    radius := 40, speed := 80, fireRate := 400, lastFire := now,
    kind := .boss 0 0 }

/-- How many `Date.now()` results `update` of this enemy reads: `Boss.update`
reads one in phase 0 and in phase 1 (after the phase change of this call). -/
def Enemy.updateClockReads (e : Enemy) (deltaTime : ℚ) : Nat :=
  match e.kind with
  | .boss phase phaseTimer =>
    let phase := if phaseTimer + deltaTime > 5000 then (phase + 1) % 3 else phase
    if phase = 0 ∨ phase = 1 then 1 else 0
  | _ => 0

/-- The method `update(deltaTime)` of the enemy classes, dispatched on the
subclass; `now` is the `Date.now()` result that `Boss.update` reads. -/
def Enemy.update (E : Env) (e : Enemy) (deltaTime now : ℚ) : Enemy :=
  let e := { e with y := e.y + e.speed * deltaTime / 1000 }
  match e.kind with
  | .meteor rotation rotationSpeed =>
    { e with kind := .meteor (rotation + rotationSpeed * deltaTime / 1000) rotationSpeed }
  | .alienShip zigzag =>
    let zigzag := zigzag + deltaTime / 1000 * 2
    { e with kind := .alienShip zigzag, x := e.x + E.sin zigzag * 60 * deltaTime / 1000 }
  | .boss phase phaseTimer =>
    let phaseTimer := phaseTimer + deltaTime
    let phase' := if phaseTimer > 5000 then (phase + 1) % 3 else phase
    let phaseTimer := if phaseTimer > 5000 then 0 else phaseTimer
    let e := { e with kind := .boss phase' phaseTimer }
    if phase' = 0 then { e with x := e.x + E.sin (now / 1000) * 100 * deltaTime / 1000 }
    else if phase' = 1 then { e with x := e.x + E.cos (now / 1000) * 80 * deltaTime / 1000 }
    else { e with speed := 150 }

/-- Whether `canFire()` of this enemy reads `Date.now()`: `Meteor.canFire` does
not. -/
def Enemy.canFireReadsClock (e : Enemy) : Bool :=
  match e.kind with
  | .meteor _ _ => false
  | _ => true

/-- The method `canFire()`, with `now` the result of `Date.now()`; a meteor never
fires. -/
def Enemy.canFire (e : Enemy) (now : ℚ) : Bool :=
  match e.kind with
  | .meteor _ _ => false
  | _ => decide (now - e.lastFire > e.fireRate)

/-- How many `Math.random()` results `fire()` of this enemy draws: three for a
boss in phase 2. -/
def Enemy.fireRandomDraws (e : Enemy) : Nat :=
  match e.kind with
  | .boss phase _ => if phase = 2 then 3 else 0
  | _ => 0

/-- The method `fire()`: `Enemy.fire` (lines 1033-1036) and `Boss.fire`
(lines 1145-1160); `now` is the result of `Date.now()`, `r i` the i-th
`Math.random()` result drawn by the call. -/
def Enemy.fire (E : Env) (e : Enemy) (now : ℚ) (r : Nat → ℚ) : Enemy × List Projectile :=
  let e := { e with lastFire := now }
  match e.kind with
  | .boss phase _ =>
    if phase = 2 then
      (e, (List.range 3).map fun i =>
        Projectile.new e.x (e.y + e.radius) ((r i - 0.5) * 400) 300 e.damage false)
    else
      (e, (List.range 5).map fun i =>
        let angle := (E.PI / 4) * ((i : ℚ) - 2)
        Projectile.new e.x (e.y + e.radius) (E.sin angle * 200) (E.cos angle * 200)
          e.damage false)
  | _ => (e, [Projectile.new e.x (e.y + e.radius) 0 300 e.damage false])

/-- The circle of an enemy. -/
def Enemy.circle (e : Enemy) : Circle := ⟨e.x, e.y, e.radius⟩

/-! ## Power-ups, particles and score labels -/

/-- Class `PowerUp`, lines 1217-1223; `type` is `none` for `undefined`. -/
structure PowerUp where
  x : ℚ
  y : ℚ
  radius : ℚ
  speed : ℚ
  type : Option String
  pulse : ℚ

/-- The array of kinds in the constructor of `PowerUp`. -/
def PowerUp.kinds : List String :=
  ["multiShot", "spreadShot", "shield", "speedBoost", "damageBoost"]

/-- `new PowerUp(x, y)`: `r` is the `Math.random()` result drawn. -/
def PowerUp.new (x y r : ℚ) : PowerUp :=
  { x := x, y := y, radius := 12, speed := 100,
    type := if 0 ≤ ⌊r * 5⌋ then PowerUp.kinds[(⌊r * 5⌋).toNat]? else none,
    pulse := 0 }

/-- `PowerUp.update(deltaTime)`; the method always returns `true`. -/
def PowerUp.update (p : PowerUp) (deltaTime : ℚ) : PowerUp :=
  { p with y := p.y + p.speed * deltaTime / 1000, pulse := p.pulse + deltaTime / 1000 * 5 }

/-- The circle of a power-up. -/
def PowerUp.circle (p : PowerUp) : Circle := ⟨p.x, p.y, p.radius⟩

/-- The property name that `this.powerUps[type]` uses for a power-up type:
`undefined` is converted to the string `"undefined"`. -/
def PowerUp.key (type : Option String) : String := type.getD "undefined"

/-- Class `Particle`, lines 1248-1264; `color` is `none` for `undefined`. -/
structure Particle where
  x : ℚ
  y : ℚ
  vx : ℚ
  vy : ℚ
  color : Option String
  size : ℚ
  life : ℚ
  decay : ℚ

/-- `new Particle(x, y, color)`: `r1` .. `r4` are the `Math.random()` results
drawn by the constructor, in order. -/
def Particle.new (E : Env) (x y : ℚ) (color : Option String) (r1 r2 r3 r4 : ℚ) : Particle :=
  let angle := r1 * E.PI * 2
  let speed := r2 * 150 + 50
  { x := x, y := y, vx := E.cos angle * speed, vy := E.sin angle * speed, color := color,
    size := r3 * 4 + 2, life := 1, decay := r4 * 0.02 + 0.01 }

/-- `Particle.update(deltaTime)`; the method returns `this.life > 0`. -/
def Particle.update (p : Particle) (deltaTime : ℚ) : Particle :=
  let factor := deltaTime / 1000
  { p with x := p.x + p.vx * factor, y := p.y + p.vy * factor,
           life := p.life - p.decay, size := p.size * 0.98 }

/-- The objects pushed by `addScoreText`, lines 571-579. -/
structure ScoreText where
  x : ℚ
  y : ℚ
  text : String
  life : ℚ
  decay : ℚ

/-! ## The game -/

/-- A call of one of the callbacks handed to the constructor. -/
inductive Event where
  | scoreUpdate (score : ℤ)
  | livesUpdate (lives : ℤ)
  | gameOver
  | sound (name : String)
  deriving DecidableEq

/-- Class `StellarDefenderGame`, lines 388-764.  The last four fields belong to
the embedding: `events` logs the callback calls (newest first), `frameRequests`
counts the calls of `requestAnimationFrame`, `randomCalls` and `clockCalls` count
the `Math.random()` and `Date.now()` results read from the streams of `Env`. -/
structure StellarDefenderGame where
  deviceType : DeviceType
  topHUDHeight : ℚ
  bottomControlsHeight : ℚ
  isRunning : Bool
  isPaused : Bool
  player : Player
  enemies : List Enemy
  projectiles : List Projectile
  particles : List Particle
  powerUps : List PowerUp
  scoreTexts : List ScoreText
  wave : ℤ
  score : ℤ
  lives : ℤ
  enemySpawnTimer : ℚ
  waveTimer : ℚ
  /-- The field `lastTime`; `none` stands for a value that is not a number. -/
  lastTime : Option ℚ
  events : List Event
  frameRequests : Nat
  randomCalls : Nat
  clockCalls : Nat

namespace StellarDefenderGame

/-- The constructor, lines 389-426, with `getDeviceBoundaries`, lines 428-445;
`isTouchDevice` is the test on `window` and `navigator` made there. -/
def new (deviceType : DeviceType) (isTouchDevice : Bool) : StellarDefenderGame :=
  { deviceType := deviceType,
    topHUDHeight :=
      match deviceType with
      | .mobile => 60
      | .tablet => 90
      | .desktop => 100,
    bottomControlsHeight :=
      match deviceType with
      | .mobile => if isTouchDevice then 220 else 0
      | .tablet => if isTouchDevice then 320 else 0
      | .desktop => 0,
    isRunning := false, isPaused := false,
    player := Player.new 0 0,
    enemies := [], projectiles := [], particles := [], powerUps := [], scoreTexts := [],
    wave := 1, score := 0, lives := 3, enemySpawnTimer := 0, waveTimer := 0,
    lastTime := some 0, events := [], frameRequests := 0, randomCalls := 0, clockCalls := 0 }

/-- `start()`, lines 531-553. -/
def start (E : Env) (g : StellarDefenderGame) : StellarDefenderGame :=
  let g := { g with isRunning := true, isPaused := false, score := 0, wave := 1, lives := 3,
                    enemies := [], projectiles := [], particles := [], powerUps := [],
                    scoreTexts := [] }
  let canvasWidth := E.canvasWidth
  let canvasHeight := E.canvasHeight
  let playAreaBottom := canvasHeight - g.bottomControlsHeight
  let g := { g with player := g.player.spawn (canvasWidth / 2) (playAreaBottom - 100) }
  let g := { g with events := Event.livesUpdate g.lives :: g.events }
  { g with lastTime := some E.performanceNow, frameRequests := g.frameRequests + 1 }

/-- `pause()`, lines 555-557. -/
def pause (g : StellarDefenderGame) : StellarDefenderGame :=
  { g with isPaused := true }

/-- `resume()`, lines 559-563. -/
def resume (E : Env) (g : StellarDefenderGame) : StellarDefenderGame :=
  { g with isPaused := false, lastTime := some E.performanceNow,
           frameRequests := g.frameRequests + 1 }

/-- `stop()`, lines 565-568. -/
def stop (g : StellarDefenderGame) : StellarDefenderGame :=
  { g with isRunning := false, isPaused := true }

/-- `addScoreText(x, y, points)`, lines 571-579. -/
def addScoreText (x y : ℚ) (points : ℤ) (g : StellarDefenderGame) : StellarDefenderGame :=
  { g with scoreTexts := g.scoreTexts ++
      [{ x := x, y := y, text := "+" ++ toString points, life := 1.0, decay := 0.02 }] }

/-- The array `colors` of `createExplosion`. -/
def colors : List String := ["#ff6b35", "#f7931e", "#ffd700", "#ff4757"]

/-- The loop of `createExplosion`, lines 737-739: `n` more particles are pushed;
each takes five `Math.random()` results, the first for the colour. -/
def pushParticles (E : Env) (x y : ℚ) : Nat → StellarDefenderGame → StellarDefenderGame
  | 0, g => g
  | n + 1, g =>
    let k := g.randomCalls
    let index := ⌊E.random k * (colors.length : ℚ)⌋
    let color := if 0 ≤ index then colors[index.toNat]? else none
    let particle := Particle.new E x y color (E.random (k + 1)) (E.random (k + 2))
      (E.random (k + 3)) (E.random (k + 4))
    pushParticles E x y n
      { g with particles := g.particles ++ [particle], randomCalls := k + 5 }

/-- `createExplosion(x, y, size)`, lines 730-740. -/
def createExplosion (E : Env) (x y : ℚ) (size : String) (g : StellarDefenderGame) :
    StellarDefenderGame :=
  let pCount : Nat :=
    if size = "large" then
      (match g.deviceType with
        | .mobile => 10
        | .tablet => 15
        | .desktop => 25)
    else
      (match g.deviceType with
        | .mobile => 3
        | .tablet => 5
        | .desktop => 10)
  pushParticles E x y pCount g

/-- `gameOver()`, lines 761-764. -/
def gameOver (g : StellarDefenderGame) : StellarDefenderGame :=
  { g with isRunning := false, events := Event.gameOver :: g.events }

/-- `playerDied()`, lines 658-671. -/
def playerDied (E : Env) (g : StellarDefenderGame) : StellarDefenderGame :=
  let g := { g with lives := g.lives - 1 }
  let g := { g with events := Event.livesUpdate g.lives :: g.events }
  let g := createExplosion E g.player.x g.player.y "large" g
  if g.lives > 0 then
    let canvasWidth := E.canvasWidth
    let canvasHeight := E.canvasHeight
    let playAreaBottom := canvasHeight - g.bottomControlsHeight
    { g with player := g.player.spawn (canvasWidth / 2) (playAreaBottom - 100) }
  else
    gameOver g

/-- The inner loop of `checkCollisions`, lines 678-694, for the player
projectile `p` read at index `i`: the enemies at the indices below `j` are
tried from the highest down, and the first that collides is resolved, which
ends the loop (`break`). -/
def hitEnemies (E : Env) (i : Nat) (p : Projectile) :
    Nat → StellarDefenderGame → StellarDefenderGame
  | 0, g => g
  | j + 1, g =>
    match g.enemies[j]? with
    | none => hitEnemies E i p j g
    | some e =>
      if checkCollision p.circle e.circle then
        let e := { e with health := e.health - p.damage }
        let g := { g with enemies := g.enemies.set j e }
        let g := createExplosion E p.x p.y "small" g
        let g := if i < g.projectiles.length then
            { g with projectiles := g.projectiles.eraseIdx i } else g
        if e.health ≤ 0 then
          let g := createExplosion E e.x e.y "large" g
          let g := { g with score := g.score + 3 }
          let g := addScoreText e.x e.y 3 g
          let g :=
            if E.random g.randomCalls < 0.15 then
              { g with powerUps := g.powerUps ++
                         [PowerUp.new e.x e.y (E.random (g.randomCalls + 1))],
                       randomCalls := g.randomCalls + 2 }
            else { g with randomCalls := g.randomCalls + 1 }
          if j < g.enemies.length then { g with enemies := g.enemies.eraseIdx j } else g
        else g
      else hitEnemies E i p j g

/-- The first loop of `checkCollisions`, lines 674-702: the projectiles at the
indices below `i`, from the highest down. -/
def projectileLoop (E : Env) : Nat → StellarDefenderGame → StellarDefenderGame
  | 0, g => g
  | i + 1, g =>
    match g.projectiles[i]? with
    | none => projectileLoop E i g
    | some p =>
      if p.isPlayerProjectile then
        projectileLoop E i (hitEnemies E i p g.enemies.length g)
      else if checkCollision p.circle g.player.circle then
        let hit := g.player.takeDamage p.damage
        let g := { g with player := hit.2 }
        let g := if hit.1 then playerDied E g else g
        let g := createExplosion E p.x p.y "small" g
        let g := if i < g.projectiles.length then
            { g with projectiles := g.projectiles.eraseIdx i } else g
        projectileLoop E i g
      else projectileLoop E i g

/-- The second loop of `checkCollisions`, lines 704-712: the enemies at the
indices below `i`, from the highest down, against the player. -/
def contactLoop (E : Env) : Nat → StellarDefenderGame → StellarDefenderGame
  | 0, g => g
  | i + 1, g =>
    match g.enemies[i]? with
    | none => contactLoop E i g
    | some e =>
      if checkCollision g.player.circle e.circle then
        let hit := g.player.takeDamage e.damage
        let g := { g with player := hit.2 }
        let g := if hit.1 then playerDied E g else g
        let g := createExplosion E e.x e.y "large" g
        let g := if i < g.enemies.length then
            { g with enemies := g.enemies.eraseIdx i } else g
        contactLoop E i g
      else contactLoop E i g

/-- The third loop of `checkCollisions`, lines 714-721: the power-ups at the
indices below `i`, from the highest down, against the player. -/
def pickupLoop : Nat → StellarDefenderGame → StellarDefenderGame
  | 0, g => g
  | i + 1, g =>
    match g.powerUps[i]? with
    | none => pickupLoop i g
    | some pu =>
      if checkCollision g.player.circle pu.circle then
        let g := { g with player := g.player.applyPowerUp (PowerUp.key pu.type) }
        let g := if i < g.powerUps.length then
            { g with powerUps := g.powerUps.eraseIdx i } else g
        pickupLoop i g
      else pickupLoop i g

/-- `checkCollisions()`, lines 673-722. -/
def checkCollisions (E : Env) (g : StellarDefenderGame) : StellarDefenderGame :=
  let g := projectileLoop E g.projectiles.length g
  let g := contactLoop E g.enemies.length g
  pickupLoop g.powerUps.length g

/-- `spawnEnemies(deltaTime)`, lines 742-754. -/
def spawnEnemies (E : Env) (deltaTime : ℚ) (g : StellarDefenderGame) : StellarDefenderGame :=
  let canvasWidth := E.canvasWidth
  let g := { g with enemySpawnTimer := g.enemySpawnTimer + deltaTime }
  let spawnRate : ℚ := max (1200 - (g.wave : ℚ) * 50) 400
  if g.enemySpawnTimer > spawnRate then
    let g := { g with enemySpawnTimer := 0 }
    let r := E.random g.randomCalls
    let randomX := E.random (g.randomCalls + 1) * canvasWidth
    let k := g.randomCalls + 2
    let now := E.now g.clockCalls
    let g := { g with clockCalls := g.clockCalls + 1 }
    if g.wave > 3 ∧ r > 0.95 then
      { g with enemies := g.enemies ++ [Boss.new now randomX (-100)], randomCalls := k }
    else if r > 0.5 then
      { g with enemies := g.enemies ++ [AlienShip.new E now randomX (-50) (E.random k)],
               randomCalls := k + 1 }
    else
      { g with enemies := g.enemies ++
                 [Meteor.new now randomX (-50) (E.random k) (E.random (k + 1))
                    (E.random (k + 2))],
               randomCalls := k + 3 }
  else g

/-- `updateWave(deltaTime)`, lines 756-759. -/
def updateWave (deltaTime : ℚ) (g : StellarDefenderGame) : StellarDefenderGame :=
  let g := { g with waveTimer := g.waveTimer + deltaTime }
  if g.waveTimer > 30000 then { g with wave := g.wave + 1, waveTimer := 0 } else g

/-- The body of the `forEach` over the enemies in `update`, lines 631-634, for
one enemy: the enemy afterwards, and the game with the projectiles it fired. -/
def stepEnemy (E : Env) (deltaTime : ℚ) (e : Enemy) (g : StellarDefenderGame) :
    Enemy × StellarDefenderGame :=
  let reads := e.updateClockReads deltaTime
  let e := e.update E deltaTime (E.now g.clockCalls)
  let g := { g with clockCalls := g.clockCalls + reads }
  if e.canFireReadsClock then
    let can := e.canFire (E.now g.clockCalls)
    let g := { g with clockCalls := g.clockCalls + 1 }
    if can then
      let r := E.random g.randomCalls
      let g := { g with randomCalls := g.randomCalls + 1 }
      if r < 0.02 then
        let fired := e.fire E (E.now g.clockCalls) (fun i => E.random (g.randomCalls + i))
        (fired.1, { g with projectiles := g.projectiles ++ fired.2,
                           clockCalls := g.clockCalls + 1,
                           randomCalls := g.randomCalls + e.fireRandomDraws })
      else (e, g)
    else (e, g)
  else (e, g)

/-- The `forEach` over the enemies in `update`, lines 631-634: the enemies
afterwards, in the same order, and the game with the projectiles fired. -/
def stepEnemies (E : Env) (deltaTime : ℚ) :
    List Enemy → StellarDefenderGame → List Enemy × StellarDefenderGame
  | [], g => ([], g)
  | e :: rest, g =>
    let first := stepEnemy E deltaTime e g
    let others := stepEnemies E deltaTime rest first.2
    (first.1 :: others.1, others.2)

/-- The first part of `update`, lines 597-622: the player is moved by the input
and `Player.update` is called with the safe play area. -/
def movePlayer (E : Env) (deltaTime : ℚ) (g : StellarDefenderGame) : StellarDefenderGame :=
  let canvasWidth := E.canvasWidth
  let canvasHeight := E.canvasHeight
  let playAreaTop := g.topHUDHeight
  let playAreaBottom := canvasHeight - g.bottomControlsHeight
  let dx : ℚ := if E.right then 1 else if E.left then -1 else 0
  let dy : ℚ := if E.down then 1 else if E.up then -1 else 0
  let player :=
    if E.isTouching then
      g.player.moveTowards E
        (max Player.radius (min E.mouseX (canvasWidth - Player.radius)))
        (max (playAreaTop + Player.radius) (min E.mouseY (playAreaBottom - Player.radius)))
        deltaTime
    else if dx ≠ 0 ∨ dy ≠ 0 then g.player.move E dx dy deltaTime
    else g.player
  { g with player := player.update deltaTime canvasWidth playAreaTop playAreaBottom }

/-- Lines 624-627 of `update`: the player fires when `canFire()` allows it. -/
def firePlayer (E : Env) (g : StellarDefenderGame) : StellarDefenderGame :=
  if g.player.canFire (E.now g.clockCalls) then
    let fired := g.player.fire (E.now (g.clockCalls + 1))
    { g with player := fired.1, projectiles := g.projectiles ++ fired.2,
             clockCalls := g.clockCalls + 2, events := Event.sound "shoot" :: g.events }
  else { g with clockCalls := g.clockCalls + 1 }

/-- Line 629 of `update`: the projectiles move, and those that left the vertical
range are dropped. -/
def moveProjectiles (E : Env) (deltaTime : ℚ) (g : StellarDefenderGame) :
    StellarDefenderGame :=
  let moved := g.projectiles.map (fun p => p.update deltaTime)
  { g with projectiles :=
             moved.filter (fun p => decide (p.y > -50 ∧ p.y < E.canvasHeight + 50)) }

/-- Lines 631-635 of `update`: the enemies move and may fire; those below the
canvas or without health are dropped. -/
def moveEnemies (E : Env) (deltaTime : ℚ) (g : StellarDefenderGame) : StellarDefenderGame :=
  let stepped := stepEnemies E deltaTime g.enemies g
  { stepped.2 with enemies :=
      stepped.1.filter (fun e => decide (e.y < E.canvasHeight + 50 ∧ e.health > 0)) }

/-- Lines 637-644 of `update`: particles, power-ups and score labels. -/
def moveEffects (E : Env) (deltaTime : ℚ) (g : StellarDefenderGame) : StellarDefenderGame :=
  let faded := g.particles.map (fun p => p.update deltaTime)
  let fallen := g.powerUps.map (fun p => p.update deltaTime)
  let labels := g.scoreTexts.map (fun st =>
    { st with life := st.life - st.decay, y := st.y - 30 * deltaTime / 1000 })
  { g with particles := faded.filter (fun p => decide (p.life > 0)),
           powerUps := fallen.filter (fun p => decide (p.y < E.canvasHeight + 50)),
           scoreTexts := labels.filter (fun st => decide (st.life > 0)) }

/-- Line 655 of `update`: the score is reported. -/
def reportScore (g : StellarDefenderGame) : StellarDefenderGame :=
  { g with events := Event.scoreUpdate g.score :: g.events }

/-- `update(deltaTime)`, lines 596-656.  The frame reads the streams of `E` from
their beginning. -/
def update (E : Env) (deltaTime : ℚ) (g : StellarDefenderGame) : StellarDefenderGame :=
  let g := { g with randomCalls := 0, clockCalls := 0 }
  let g := movePlayer E deltaTime g
  let g := firePlayer E g
  let g := moveProjectiles E deltaTime g
  let g := moveEnemies E deltaTime g
  let g := moveEffects E deltaTime g
  let g := checkCollisions E g
  let g := spawnEnemies E deltaTime g
  let g := updateWave deltaTime g
  reportScore g

/-- `gameLoop(currentTime)`, lines 581-594; a `currentTime` of `none` stands for
an argument that is not a number, which makes the difference `NaN`. -/
def gameLoop (E : Env) (currentTime : Option ℚ) (g : StellarDefenderGame) :
    StellarDefenderGame :=
  if !g.isRunning || g.isPaused then g
  else
    let raw : Option ℚ :=
      match currentTime, g.lastTime with
      | some c, some l => some (c - l)
      | _, _ => none
    let g := { g with lastTime := currentTime }
    let deltaTime : ℚ :=
      match raw with
      | none => 16.67
      | some d => if d > 50 then 16.67 else d
    let g := update E deltaTime g
    { g with frameRequests := g.frameRequests + 1 }

end StellarDefenderGame

/-! ## Sequences of calls -/

/-- The arguments of one call of `Player.update`. -/
structure UpdateCall where
  deltaTime : ℚ
  canvasWidth : ℚ
  playAreaTop : ℚ
  playAreaBottom : ℚ

/-- A sequence of `Player.update` calls, the first call of the list first. -/
def Player.updates (p : Player) (calls : List UpdateCall) : Player :=
  calls.foldl
    (fun q c => q.update c.deltaTime c.canvasWidth c.playAreaTop c.playAreaBottom) p

/-- The simulated time that a sequence of `Player.update` calls advances. -/
def elapsed (calls : List UpdateCall) : ℚ :=
  (calls.map (fun c => c.deltaTime)).sum

/-- The count-down that `Player.update` applies to the invincibility timer and to
every power-up duration, lines 832-834 and 838-839, run from the value `t` over
the deltas of successive calls: each call subtracts its delta, in doubles, and the
count-down is over (`none`) as soon as a difference is `<= 0`. -/
def countDown : ℚ → List ℚ → Option ℚ
  | t, [] => some t
  | t, d :: ds => if Double.sub t d ≤ 0 then none else countDown (Double.sub t d) ds

/-- A player whose invincibility has lapsed, at full health, without power-ups. -/
def Player.vulnerable : Player :=
  { Player.new 0 0 with isInvincible := false, invincibleTimer := 0 }

namespace StellarDefenderGame

/-- A sequence of `update` steps: each frame comes with its environment and its
delta; the first frame of the list runs first. -/
def updates (g : StellarDefenderGame) (frames : List (Env × ℚ)) : StellarDefenderGame :=
  frames.foldl (fun s f => s.update f.1 f.2) g

/-- The simulated time that a sequence of `update` steps advances. -/
def simulated (frames : List (Env × ℚ)) : ℚ :=
  (frames.map (fun f => f.2)).sum

/-- A contact collision forced on the game: the enemy `e` alone is put in the
enemy collection, no projectile and no power-up is around, and `checkCollisions`
runs. -/
def forceContact (E : Env) (e : Enemy) (g : StellarDefenderGame) : StellarDefenderGame :=
  checkCollisions E { g with enemies := [e], projectiles := [], powerUps := [] }

/-- What the claims on invincibility watch: the invincibility flag and timer and
the health of the player, and the lives. -/
def vitals (g : StellarDefenderGame) : Bool × ℚ × ℚ × ℤ :=
  (g.player.isInvincible, g.player.invincibleTimer, g.player.health, g.lives)

end StellarDefenderGame

/-! ## Parts of the code that the claims name, and accounts of a pass -/

namespace StellarDefenderGame

/-- The constant `spawnRate` of `spawnEnemies`, line 745, as a function of the
wave counter. -/
def spawnRate (wave : ℤ) : ℚ := max (1200 - (wave : ℚ) * 50) 400

/-- The delta of `gameLoop`, lines 584-588, as a function of the timestamp of the
frame and of the field `lastTime`; `none` stands for a value that is not a
number. -/
def frameDelta (currentTime lastTime : Option ℚ) : ℚ :=
  match currentTime, lastTime with
  | some c, some l => if c - l > 50 then 16.67 else c - l
  | _, _ => 16.67

/-- The state in which `update` calls `checkCollisions`: lines 597-649 have run,
line 651 has not. -/
def beforeCollisions (E : Env) (deltaTime : ℚ) (g : StellarDefenderGame) :
    StellarDefenderGame :=
  moveEffects E deltaTime (moveEnemies E deltaTime (moveProjectiles E deltaTime
    (firePlayer E (movePlayer E deltaTime { g with randomCalls := 0, clockCalls := 0 }))))

/-- The score label that `addScoreText(e.x, e.y, 3)` pushes for the enemy `e`. -/
def killLabel (e : Enemy) : ScoreText :=
  { x := e.x, y := e.y, text := "+3", life := 1.0, decay := 0.02 }

/-- What resolving the hit of the player projectile `p` of index `i` on the enemy
`e` of index `j` changes in the game `g`, the result being `r`: the projectile is
spliced out; the enemy keeps its place with the health lowered while that stays
positive, and is spliced out for a score of 3 and a label otherwise. -/
structure HitResolved (i : Nat) (p : Projectile) (j : Nat) (e : Enemy)
    (g r : StellarDefenderGame) : Prop where
  projectiles : r.projectiles = g.projectiles.eraseIdx i
  player : r.player = g.player
  lives : r.lives = g.lives
  survived : 0 < e.health - p.damage →
    r.enemies = g.enemies.set j { e with health := e.health - p.damage } ∧
      r.score = g.score ∧ r.scoreTexts = g.scoreTexts
  destroyed : e.health - p.damage ≤ 0 →
    r.enemies = g.enemies.eraseIdx j ∧ r.score = g.score + 3 ∧
      r.scoreTexts = g.scoreTexts ++ [killLabel e]

end StellarDefenderGame

/-- The enemy `e` is the enemy `e0` with another health: position, radius, points,
damage and all the rest agree. -/
def Enemy.damagedFrom (e e0 : Enemy) : Prop :=
  ∃ h : ℚ, e = { e0 with health := h }

/-- The test `e instanceof Boss`. -/
def Enemy.isBoss (e : Enemy) : Bool :=
  match e.kind with
  | .boss _ _ => true
  | _ => false

/-- The test `e instanceof AlienShip`. -/
def Enemy.isAlienShip (e : Enemy) : Bool :=
  match e.kind with
  | .alienShip _ => true
  | _ => false

/-- The test `e instanceof Meteor`. -/
def Enemy.isMeteor (e : Enemy) : Bool :=
  match e.kind with
  | .meteor _ _ => true
  | _ => false

namespace StellarDefenderGame

/-- The account of the enemies that player projectiles destroy between the game
`g` and the later game `r`: `killed` lists them in the order of destruction, each
as it was when the last projectile hit it. -/
structure KillTally (g r : StellarDefenderGame) (killed : List Enemy) : Prop where
  score : r.score = g.score + 3 * (killed.length : ℤ)
  labels : r.scoreTexts = g.scoreTexts ++ killed.map killLabel
  count : r.enemies.length + killed.length = g.enemies.length
  cause : ∀ e ∈ killed, (∃ e0 ∈ g.enemies, e.damagedFrom e0) ∧
    ∃ p ∈ g.projectiles, p.isPlayerProjectile = true ∧
      checkCollision p.circle e.circle = true ∧ e.health - p.damage ≤ 0
  lineage : ∀ e ∈ r.enemies, ∃ e0 ∈ g.enemies, e.damagedFrom e0
  survivors : ∀ e ∈ r.enemies, 0 < e.health ∨ e ∈ g.enemies
  kept : ∀ p ∈ r.projectiles, p ∈ g.projectiles

end StellarDefenderGame

/-! ## A recorded session

A session on a touch phone: a canvas of 400 by 620 CSS pixels, frames 50 ms
apart, nobody touching the controls.  An enemy is spawned every 24th frame;
every one is a meteor of radius 20 that falls down the column `x = 230` beside
the player, who stays at `(200, 300)`. -/

namespace Session

/-- The `Math.random()` result that sets the speed of the meteor spawned in frame
`24 * i`. -/
def speedDraw (i : Nat) : ℚ :=
  if i = 1 then 18 / 25
  else if i = 6 ∨ i = 11 then 3 / 10
  else if i = 14 then 3 / 50
  else 4 / 5

/-- The `Math.random()` results of frame `k`.  In a frame that spawns an enemy
they are the draw for the kind (a meteor), for `randomX`, for the radius, for the
speed and for the rotation; in the other frames they are the draws of the
particles of explosions. -/
def draws (k : Nat) (i : Nat) : ℚ :=
  if k % 24 = 0 then
    (match i with
      | 0 => 0
      | 1 => 23 / 40
      | 2 => 0
      | 3 => speedDraw (k / 24)
      | _ => 1 / 2)
  else if i % 5 = 4 then 99 / 100 else 0

/-- The environment of frame `k`.  `Math.sin` and `Math.cos` are only ever called
at 0 in this session (the angle of every particle is `0 * Math.PI * 2`), where
they are 0 and 1; `Math.sqrt` is never called. -/
def env (k : Nat) : Env :=
  { canvasWidth := 400, canvasHeight := 620,
    random := draws k, now := fun _ => 1700000000000 + 50 * (k : ℚ),
    performanceNow := 1000,
    left := false, right := false, up := false, down := false,
    isTouching := false, mouseX := 0, mouseY := 0,
    sqrt := fun _ => 0, sin := fun _ => 0, cos := fun _ => 1, PI := 355 / 113 }

/-- The state after `start()` and `n` animation frames; frame `k` calls
`gameLoop` with the timestamp `1000 + 50 * k`. -/
def run : Nat → StellarDefenderGame
  | 0 => (StellarDefenderGame.new .mobile true).start (env 0)
  | n + 1 => (run n).gameLoop (env (n + 1)) (some (1000 + 50 * ((n : ℚ) + 1)))

/-- A meteor of radius 20 and contact damage 25 placed on the player of the
session. -/
def rock : Enemy := Meteor.new 1700000003000 200 300 0 0 0

/-- A game in which the player stands at `(200, 300)` at full health, with three
lives, without power-ups, the invincibility of the spawn having lapsed. -/
def arena : StellarDefenderGame :=
  { (StellarDefenderGame.new .mobile true).start (env 0) with
    player := { Player.new 200 300 with isInvincible := false, invincibleTimer := 0 } }

/-- The environment of a frame in which the pointer is down at `(6, 0)`.
`Math.sqrt` is only ever called at 36 with this environment and the player at the
origin, where it is 6. -/
def aimEnv : Env :=
  { env 1 with isTouching := true, mouseX := 6, mouseY := 0,
               sqrt := fun x => if x = 36 then 6 else 0 }

/-- A player projectile 20 pixels above the centre of the player of the session. -/
def shot : Projectile := Projectile.new 200 280 0 (-500) 25 true

/-- The game `arena` with two player projectiles in flight, both overlapping the
meteor `rock`, whose health of 50 they bring to 25 and to 0. -/
def range : StellarDefenderGame :=
  { arena with projectiles := [shot, shot], enemies := [rock] }

/-- The game `arena` one step before a spawn is due. -/
def dueSpawn : StellarDefenderGame :=
  { arena with enemySpawnTimer := 1150 }

/-- A meteor of radius 20 at `(200, 100)`, far above the player of the session. -/
def leftRock : Enemy := Meteor.new 1700000003000 200 100 0 0 0

/-- A meteor of radius 20 at `(210, 100)`, ten pixels to the right of `leftRock`. -/
def rightRock : Enemy := Meteor.new 1700000003000 210 100 0 0 0

/-- A player projectile at `(205, 100)`, inside both `leftRock` and `rightRock`. -/
def crossShot : Projectile := Projectile.new 205 100 0 (-500) 25 true

/-- The game `arena` with the player projectile `crossShot` in flight and the two
meteors that it overlaps, `leftRock` stored first. -/
def crossfire : StellarDefenderGame :=
  { arena with projectiles := [crossShot], enemies := [leftRock, rightRock] }

/-- The values of `Math.sin` at the multiples of `PI / 8` between `-PI / 2` and
`PI / 2` that the session uses, rounded to four decimals. -/
def sinTable (PI a : ℚ) : ℚ :=
  if a = -(PI / 2) then -1
  else if a = -(PI / 4) then -(7071 / 10000)
  else if a = -(PI / 8) then -(3827 / 10000)
  else if a = PI / 8 then 3827 / 10000
  else if a = PI / 4 then 7071 / 10000
  else if a = PI / 2 then 1
  else 0

/-- The values of `Math.cos` at the same angles, rounded to four decimals. -/
def cosTable (PI a : ℚ) : ℚ :=
  if a = 0 then 1
  else if a = PI / 8 ∨ a = -(PI / 8) then 9239 / 10000
  else if a = PI / 4 ∨ a = -(PI / 4) then 7071 / 10000
  else 0

/-- The environment of a frame in which a boss fires.  `Math.sin` and `Math.cos`
are only ever called at multiples of `PI / 8` between `-PI / 2` and `PI / 2` with
this environment. -/
def fanEnv : Env :=
  { env 1 with sin := sinTable (355 / 113), cos := cosTable (355 / 113) }

/-- A boss as `new Boss(200, 100)` makes it: in phase 0. -/
def flagship : Enemy := Boss.new 1700000003000 200 100

/-- The double nearest to 0.3. -/
def threeTenths : ℚ := 5404319552844595 / 2 ^ 54

/-- Three calls of `Player.update` on the canvas of the session, with the deltas
0.3, 0.3 and 2999.3999999999996 (as doubles): their exact sum is
`3000 - 3277 / 2 ^ 53`, less than 3000. -/
def nearMiss : List UpdateCall :=
  [⟨threeTenths, 400, 60, 400⟩, ⟨threeTenths, 400, 60, 400⟩,
    ⟨1648937588175667 / 2 ^ 39, 400, 60, 400⟩]

/-- Five calls of `Player.update` on the canvas of the session, with the deltas
`2 ^ -41` (four times) and `10000 - 2 ^ -39`, all doubles: their exact sum is
10000. -/
def slowStart : List UpdateCall :=
  [⟨1 / 2 ^ 41, 400, 60, 400⟩, ⟨1 / 2 ^ 41, 400, 60, 400⟩, ⟨1 / 2 ^ 41, 400, 60, 400⟩,
    ⟨1 / 2 ^ 41, 400, 60, 400⟩, ⟨10000 - 1 / 2 ^ 39, 400, 60, 400⟩]

/-- The same five calls with `15000 - 2 ^ -39` for the last delta: their exact sum
is 15000. -/
def slowShield : List UpdateCall :=
  [⟨1 / 2 ^ 41, 400, 60, 400⟩, ⟨1 / 2 ^ 41, 400, 60, 400⟩, ⟨1 / 2 ^ 41, 400, 60, 400⟩,
    ⟨1 / 2 ^ 41, 400, 60, 400⟩, ⟨15000 - 1 / 2 ^ 39, 400, 60, 400⟩]

/-- The double nearest to 0.7. -/
def sevenTenths : ℚ := 3152519739159347 / 2 ^ 52

/-- Three calls of `Player.update` on the canvas of the session, with the deltas
0.3, 0.7 (as doubles) and 9999: their exact sum is `10000 - 2 ^ -54`, less than
10000. -/
def earlyEnd : List UpdateCall :=
  [⟨threeTenths, 400, 60, 400⟩, ⟨sevenTenths, 400, 60, 400⟩, ⟨9999, 400, 60, 400⟩]

/-- The frames of a session of 62 `update` steps: 59 steps of 50 ms with the
environments of the recorded session, then three steps with the deltas 0.3, 0.7
(as doubles) and 49.  No delta is above 50, and their exact sum is
`3000 - 2 ^ -54`, less than 3000. -/
def lateFrames : List (Env × ℚ) :=
  (List.range 59).map (fun k => (env (k + 1), 50))
    ++ [(env 60, threeTenths), (env 61, sevenTenths), (env 62, 49)]

/-- The meteor `leftRock` after a first hit, which has left it a health of 25. -/
def crackedRock : Enemy := { leftRock with health := 25 }

/-- The game `arena` with the player projectile `crossShot` in flight, of damage
25, and the one meteor `crackedRock`, which it overlaps. -/
def finisher : StellarDefenderGame :=
  { arena with projectiles := [crossShot], enemies := [crackedRock] }

/-- The player of the session with 25 health left and a `multiShot` power-up that
has 7000 ms to run. -/
def veteran : Player :=
  { Player.new 200 300 with
    isInvincible := false, invincibleTimer := 0, health := 25,
    powerUps := fun key => if key = "multiShot" then some 7000 else none }

end Session

/-! ## Lemmas on doubles -/

theorem pow2_eq (k : ℤ) : pow2 k = (2 : ℚ) ^ k := by
  unfold pow2
  split_ifs with h
  · lift k to ℕ using h
    simp
  · have hk : 0 ≤ -k := by omega
    obtain ⟨n, hn⟩ := Int.eq_ofNat_of_zero_le hk
    have hkn : k = -(n : ℤ) := by omega
    rw [hn, hkn]
    simp

theorem pow2_pos (k : ℤ) : 0 < pow2 k := by
  rw [pow2_eq]
  exact zpow_pos (by norm_num) k

theorem pow2_le_pow2 {k l : ℤ} (h : k ≤ l) : pow2 k ≤ pow2 l := by
  rw [pow2_eq, pow2_eq]
  exact zpow_le_zpow_right₀ (by norm_num) h

theorem pow2_add (k l : ℤ) : pow2 (k + l) = pow2 k * pow2 l := by
  rw [pow2_eq, pow2_eq, pow2_eq]
  exact zpow_add₀ (by norm_num) k l

theorem lt_of_pow2_lt_pow2 {k l : ℤ} (h : pow2 k < pow2 l) : k < l := by
  rw [pow2_eq, pow2_eq] at h
  exact (zpow_lt_zpow_iff_right₀ (by norm_num)).mp h

theorem halvings_spec : ∀ fuel n : Nat, n ≤ fuel →
    (n ≠ 0 → 2 ^ halvings fuel n ≤ n) ∧ n < 2 ^ (halvings fuel n + 1) := by
  intro fuel
  induction fuel with
  | zero =>
    intro n hn
    have : n = 0 := by omega
    subst this
    exact ⟨fun h => absurd rfl h, by simp [halvings]⟩
  | succ fuel ih =>
    intro n hn
    unfold halvings
    split_ifs with h2
    · have hhalf : n / 2 ≤ fuel := by omega
      have hne : n / 2 ≠ 0 := by omega
      obtain ⟨h1, h3⟩ := ih (n / 2) hhalf
      constructor
      · intro _
        have := h1 hne
        rw [pow_succ]
        omega
      · rw [pow_succ]
        omega
    · constructor
      · intro h0
        simp
        omega
      · simp
        omega

theorem pow_log2_le {n : Nat} (h : n ≠ 0) : 2 ^ log2 n ≤ n :=
  (halvings_spec n n le_rfl).1 h

theorem lt_pow_log2_succ (n : Nat) : n < 2 ^ (log2 n + 1) :=
  (halvings_spec n n le_rfl).2

theorem abs_eq_natAbs_div_den (q : ℚ) : |q| = (q.num.natAbs : ℚ) / (q.den : ℚ) := by
  have hden : (0 : ℚ) < q.den := by exact_mod_cast q.den_pos
  conv_lhs => rw [← Rat.num_div_den q]
  rw [abs_div, abs_of_pos hden, Nat.cast_natAbs]
  simp

/-- The binary exponent is at most `log2 |q|`. -/
theorem Double.pow2_exponent_le {q : ℚ} (hq : q ≠ 0) : pow2 (Double.exponent q) ≤ |q| := by
  unfold Double.exponent
  simp only []
  split_ifs with h
  · exact h
  · have hnum : q.num.natAbs ≠ 0 := by
      simpa using Rat.num_ne_zero.mpr hq
    have hden : (0 : ℚ) < q.den := by exact_mod_cast q.den_pos
    have h1 : ((2 ^ log2 q.num.natAbs : ℕ) : ℚ) ≤ (q.num.natAbs : ℚ) := by
      exact_mod_cast pow_log2_le hnum
    have h2 : (q.den : ℚ) ≤ ((2 ^ (log2 q.den + 1) : ℕ) : ℚ) := by
      exact_mod_cast le_of_lt (lt_pow_log2_succ q.den)
    rw [abs_eq_natAbs_div_den, pow2_eq]
    have e : ((log2 q.num.natAbs : ℤ) - (log2 q.den : ℤ) - 1)
        = (log2 q.num.natAbs : ℤ) - ((log2 q.den + 1 : ℕ) : ℤ) := by push_cast; ring
    rw [e, zpow_sub₀ (by norm_num), zpow_natCast, zpow_natCast]
    push_cast at h1 h2
    have hpos : (0 : ℚ) < 2 ^ (log2 q.den + 1) := by positivity
    calc (2 : ℚ) ^ log2 q.num.natAbs / 2 ^ (log2 q.den + 1)
        ≤ (q.num.natAbs : ℚ) / 2 ^ (log2 q.den + 1) := by
          apply div_le_div_of_nonneg_right h1 (le_of_lt hpos)
      _ ≤ (q.num.natAbs : ℚ) / q.den := by
          apply div_le_div_of_nonneg_left (by positivity) hden h2

/-- The binary exponent is more than `log2 |q| - 1`. -/
theorem Double.lt_pow2_exponent_succ (q : ℚ) : |q| < pow2 (Double.exponent q + 1) := by
  unfold Double.exponent
  simp only []
  split_ifs with h
  · have hden : (0 : ℚ) < q.den := by exact_mod_cast q.den_pos
    have hdne : q.den ≠ 0 := q.den_nz
    have h1 : (q.num.natAbs : ℚ) < ((2 ^ (log2 q.num.natAbs + 1) : ℕ) : ℚ) := by
      exact_mod_cast lt_pow_log2_succ q.num.natAbs
    have h2 : ((2 ^ log2 q.den : ℕ) : ℚ) ≤ (q.den : ℚ) := by
      exact_mod_cast pow_log2_le hdne
    rw [abs_eq_natAbs_div_den, pow2_eq]
    have e : ((log2 q.num.natAbs : ℤ) - (log2 q.den : ℤ) + 1)
        = ((log2 q.num.natAbs + 1 : ℕ) : ℤ) - (log2 q.den : ℤ) := by push_cast; ring
    rw [e, zpow_sub₀ (by norm_num), zpow_natCast, zpow_natCast]
    push_cast at h1 h2
    have hpos : (0 : ℚ) < 2 ^ log2 q.den := by positivity
    calc (q.num.natAbs : ℚ) / q.den
        ≤ (q.num.natAbs : ℚ) / 2 ^ log2 q.den := by
          apply div_le_div_of_nonneg_left (by positivity) hpos h2
      _ < (2 : ℚ) ^ (log2 q.num.natAbs + 1) / 2 ^ log2 q.den := by
          apply div_lt_div_of_pos_right h1 hpos
  · have : (↑(log2 q.num.natAbs) : ℤ) - ↑(log2 q.den) - 1 + 1
        = ↑(log2 q.num.natAbs) - ↑(log2 q.den) := by ring
    rw [this]
    exact not_le.mp h

theorem Double.exponent_lt {q : ℚ} {E : ℤ} (hq : q ≠ 0) (h : |q| < pow2 E) :
    Double.exponent q < E :=
  lt_of_pow2_lt_pow2 (lt_of_le_of_lt (Double.pow2_exponent_le hq) h)


theorem Double.roundInt_intCast (n : ℤ) : Double.roundInt (n : ℚ) = n := by
  unfold Double.roundInt
  simp

theorem Double.floor_le_roundInt (s : ℚ) : ⌊s⌋ ≤ Double.roundInt s := by
  unfold Double.roundInt
  simp only []
  split_ifs <;> omega

theorem Double.roundInt_le {s : ℚ} {N : ℤ} (h : s ≤ N) : Double.roundInt s ≤ N := by
  have hf : ⌊s⌋ ≤ N := by
    have : ((⌊s⌋ : ℤ) : ℚ) ≤ N := le_trans (Int.floor_le s) h
    exact_mod_cast this
  have hstep : 0 < s - ⌊s⌋ → ⌊s⌋ + 1 ≤ N := by
    intro hr
    have : ((⌊s⌋ : ℤ) : ℚ) < N := by linarith
    have : ⌊s⌋ < N := by exact_mod_cast this
    omega
  unfold Double.roundInt
  simp only []
  split_ifs with h1 h2 h3
  · exact hf
  · exact hstep (by linarith)
  · exact hf
  · exact hstep (by linarith)

theorem Double.le_roundInt {s : ℚ} {N : ℤ} (h : (N : ℚ) ≤ s) : N ≤ Double.roundInt s :=
  le_trans (Int.le_floor.mpr h) (Double.floor_le_roundInt s)

theorem Double.abs_roundInt_sub_le (s : ℚ) : |(Double.roundInt s : ℚ) - s| ≤ 1 / 2 := by
  have h1 := Int.floor_le s
  have h2 := Int.lt_floor_add_one s
  unfold Double.roundInt
  simp only []
  rw [abs_le]
  split_ifs with h3 h4 h5
  · constructor <;> linarith
  · push_cast
    constructor <;> linarith
  · constructor <;> linarith
  · push_cast
    constructor <;> linarith

theorem Double.round_zero : Double.round 0 = 0 := by
  simp [Double.round]

theorem Double.round_def {q : ℚ} (hq : q ≠ 0) :
    Double.round q =
      (Double.roundInt (q / pow2 (max (Double.exponent q - 52) (-1074))) : ℚ) *
        pow2 (max (Double.exponent q - 52) (-1074)) := by
  unfold Double.round
  rw [if_neg hq]

/-- Rounding does not change the sign. -/
theorem Double.round_nonpos {q : ℚ} (h : q ≤ 0) : Double.round q ≤ 0 := by
  by_cases hq : q = 0
  · rw [hq, Double.round_zero]
  · rw [Double.round_def hq]
    have hp := pow2_pos (max (Double.exponent q - 52) (-1074))
    have hs : q / pow2 (max (Double.exponent q - 52) (-1074)) ≤ ((0 : ℤ) : ℚ) := by
      rw [Int.cast_zero]
      exact div_nonpos_of_nonpos_of_nonneg h (le_of_lt hp)
    have hr : (Double.roundInt (q / pow2 (max (Double.exponent q - 52) (-1074))) : ℚ) ≤ 0 := by
      exact_mod_cast Double.roundInt_le hs
    exact mul_nonpos_of_nonpos_of_nonneg hr (le_of_lt hp)

theorem Double.round_nonneg {q : ℚ} (h : 0 ≤ q) : 0 ≤ Double.round q := by
  by_cases hq : q = 0
  · rw [hq, Double.round_zero]
  · rw [Double.round_def hq]
    have hp := pow2_pos (max (Double.exponent q - 52) (-1074))
    have hs : ((0 : ℤ) : ℚ) ≤ q / pow2 (max (Double.exponent q - 52) (-1074)) := by
      rw [Int.cast_zero]
      exact div_nonneg h (le_of_lt hp)
    have hr : (0 : ℚ) ≤ (Double.roundInt (q / pow2 (max (Double.exponent q - 52) (-1074))) : ℚ) := by
      exact_mod_cast Double.le_roundInt hs
    exact mul_nonneg hr (le_of_lt hp)

/-- A number with at most 53 significant bits and no bit below `2 ^ -1074` is a
double: rounding leaves it as it is. -/
theorem Double.round_exact (m : ℤ) (k : ℕ) (hm : |m| < 2 ^ 53) (hk : k ≤ 1074) :
    Double.round ((m : ℚ) / 2 ^ k) = (m : ℚ) / 2 ^ k := by
  by_cases hm0 : m = 0
  · subst hm0
    simp [Double.round_zero]
  have hq : (m : ℚ) / 2 ^ k ≠ 0 := by
    apply div_ne_zero
    · exact_mod_cast hm0
    · positivity
  rw [Double.round_def hq]
  generalize he : max (Double.exponent ((m : ℚ) / 2 ^ k) - 52) (-1074) = e
  have hle : e ≤ -(k : ℤ) := by
    rw [← he]
    apply max_le
    · have habs : |(m : ℚ) / 2 ^ k| < pow2 (53 - (k : ℤ)) := by
        rw [pow2_eq, zpow_sub₀ (by norm_num), zpow_natCast, abs_div,
          abs_of_pos (by positivity : (0 : ℚ) < 2 ^ k)]
        apply div_lt_div_of_pos_right _ (by positivity)
        have : ((|m| : ℤ) : ℚ) < ((2 ^ 53 : ℤ) : ℚ) := by exact_mod_cast hm
        rw [Int.cast_abs, Int.cast_pow, Int.cast_ofNat] at this
        rw [zpow_ofNat]
        exact this
      have := Double.exponent_lt hq habs
      omega
    · omega
  obtain ⟨n, hn⟩ := Int.eq_ofNat_of_zero_le (by omega : 0 ≤ -(k : ℤ) - e)
  have hscaled : (m : ℚ) / 2 ^ k / pow2 e = ((m * 2 ^ n : ℤ) : ℚ) := by
    have hek : e = -(k : ℤ) - n := by omega
    rw [hek, pow2_eq, zpow_sub₀ (by norm_num), zpow_neg, zpow_natCast, zpow_natCast]
    push_cast
    field_simp
    ring
  rw [hscaled, Double.roundInt_intCast, ← hscaled]
  have hp := pow2_pos e
  field_simp
  ring

/-- Rounding does not cross an integer, for an argument below `2 ^ 53` in absolute
value. -/
theorem Double.round_le_int {q : ℚ} {B : ℤ} (h : q ≤ B) (hq : |q| < 2 ^ 53) :
    Double.round q ≤ B := by
  by_cases hq0 : q = 0
  · rw [hq0, Double.round_zero]
    rw [hq0] at h
    exact h
  rw [Double.round_def hq0]
  generalize he : max (Double.exponent q - 52) (-1074) = e
  have hle : e ≤ 0 := by
    rw [← he]
    apply max_le
    · have habs : |q| < pow2 53 := by
        rw [pow2_eq]
        exact_mod_cast hq
      have := Double.exponent_lt hq0 habs
      omega
    · omega
  obtain ⟨n, hn⟩ := Int.eq_ofNat_of_zero_le (by omega : 0 ≤ -e)
  have hp := pow2_pos e
  have hpe : pow2 e = 1 / 2 ^ n := by
    have : e = -(n : ℤ) := by omega
    rw [this, pow2_eq, zpow_neg, zpow_natCast]
    simp
  have hs : q / pow2 e ≤ ((B * 2 ^ n : ℤ) : ℚ) := by
    rw [hpe]
    push_cast
    rw [div_div_eq_mul_div, div_one]
    exact mul_le_mul_of_nonneg_right h (by positivity)
  have hr : (Double.roundInt (q / pow2 e) : ℚ) ≤ ((B * 2 ^ n : ℤ) : ℚ) := by
    exact_mod_cast Double.roundInt_le hs
  calc (Double.roundInt (q / pow2 e) : ℚ) * pow2 e
      ≤ ((B * 2 ^ n : ℤ) : ℚ) * pow2 e := mul_le_mul_of_nonneg_right hr (le_of_lt hp)
    _ = B := by
      rw [hpe]
      push_cast
      field_simp

/-- The rounding error is at most half a unit in the last place: at most
`2 ^ (E - 54)` for an argument below `2 ^ E` in absolute value, while
`E >= -1021`. -/
theorem Double.abs_round_sub_le {q : ℚ} {E : ℤ} (hq : |q| < pow2 E) (hE : -1021 ≤ E) :
    |Double.round q - q| ≤ pow2 (E - 54) := by
  by_cases hq0 : q = 0
  · rw [hq0, Double.round_zero]
    simp
    exact le_of_lt (pow2_pos _)
  rw [Double.round_def hq0]
  generalize he : max (Double.exponent q - 52) (-1074) = e
  have hle : e ≤ E - 53 := by
    rw [← he]
    apply max_le
    · have := Double.exponent_lt hq0 hq
      omega
    · omega
  have hp := pow2_pos e
  have herr := Double.abs_roundInt_sub_le (q / pow2 e)
  have hsplit : (Double.roundInt (q / pow2 e) : ℚ) * pow2 e - q
      = ((Double.roundInt (q / pow2 e) : ℚ) - q / pow2 e) * pow2 e := by
    field_simp
  rw [hsplit, abs_mul, abs_of_pos hp]
  have h54 : pow2 (E - 54) = 1 / 2 * pow2 (E - 53) := by
    have : E - 53 = (E - 54) + 1 := by ring
    rw [this, pow2_add]
    have : pow2 1 = 2 := by decide!
    rw [this]
    ring
  rw [h54]
  exact mul_le_mul herr (pow2_le_pow2 hle) (le_of_lt hp) (by norm_num)

/-! ## Lemmas on the count-down -/

theorem countDown_nil (t : ℚ) : countDown t [] = some t := rfl

theorem countDown_cons (t d : ℚ) (ds : List ℚ) :
    countDown t (d :: ds) =
      if Double.sub t d ≤ 0 then none else countDown (Double.sub t d) ds := rfl

theorem sum_nonneg_of_nonneg (ds : List ℚ) (h : ∀ d ∈ ds, 0 ≤ d) : 0 ≤ ds.sum := by
  induction ds with
  | nil => simp
  | cons d rest ih =>
    rw [List.sum_cons]
    have h1 := h d (List.mem_cons_self d rest)
    have h2 := ih (fun x hx => h x (List.mem_cons_of_mem d hx))
    linarith

/-- A count-down whose start and deltas are multiples of `2 ^ -k`, the start being
below `2 ^ (53 - k)`: every difference is a double, so the count-down is exact,
and it is over exactly when the deltas have summed up to the start. -/
theorem countDown_exact (k : ℕ) (hk : k ≤ 1074) (ds : List ℚ) :
    ∀ t : ℚ, 0 < t → t * 2 ^ k < 2 ^ 53 → (∃ m : ℕ, t = m / 2 ^ k) →
      (∀ d ∈ ds, 0 ≤ d ∧ ∃ m : ℕ, d = m / 2 ^ k) →
      countDown t ds = if ds.sum < t then some (t - ds.sum) else none := by
  induction ds with
  | nil =>
    intro t ht _ _ _
    simp [countDown_nil, ht]
  | cons d rest ih =>
    intro t ht hbound hgrid hds
    obtain ⟨hd0, md, hmd⟩ := hds d (List.mem_cons_self d rest)
    obtain ⟨mt, hmt⟩ := hgrid
    have hrest : ∀ x ∈ rest, 0 ≤ x ∧ ∃ m : ℕ, x = m / 2 ^ k :=
      fun x hx => hds x (List.mem_cons_of_mem d hx)
    have hsum := sum_nonneg_of_nonneg rest (fun x hx => (hrest x hx).1)
    have hpk : (0 : ℚ) < 2 ^ k := by positivity
    rw [countDown_cons, List.sum_cons]
    by_cases hx : t - d ≤ 0
    · have hround : Double.sub t d ≤ 0 := Double.round_nonpos hx
      rw [if_pos hround, if_neg (by linarith)]
    · have hx' : 0 < t - d := not_le.mp hx
      have hlt : md < mt := by
        have : (md : ℚ) / 2 ^ k < (mt : ℚ) / 2 ^ k := by rw [← hmd, ← hmt]; linarith
        have := (div_lt_div_iff_of_pos_right hpk).mp this
        exact_mod_cast this
      have hval : t - d = (((mt - md : ℕ) : ℤ) : ℚ) / 2 ^ k := by
        rw [hmt, hmd]
        push_cast [Nat.cast_sub (le_of_lt hlt)]
        ring
      have hsmall : |((mt - md : ℕ) : ℤ)| < 2 ^ 53 := by
        rw [abs_of_nonneg (by positivity)]
        have h1 : ((mt : ℕ) : ℚ) < 2 ^ 53 := by
          have : (mt : ℚ) = t * 2 ^ k := by rw [hmt]; field_simp
          rw [this]
          exact hbound
        have h2 : mt < 2 ^ 53 := by exact_mod_cast h1
        have : mt - md < 2 ^ 53 := by omega
        exact_mod_cast this
      have hexact : Double.sub t d = t - d := by
        unfold Double.sub
        rw [hval]
        exact Double.round_exact _ k hsmall hk
      rw [hexact, if_neg hx]
      rw [ih (t - d) hx' (by nlinarith) ⟨mt - md, by rw [hval]; push_cast; rfl⟩ hrest]
      by_cases hs : rest.sum < t - d
      · rw [if_pos hs, if_pos (by linarith)]
        congr 1
        ring
      · rw [if_neg hs, if_neg (by linarith)]

/-- A count-down from a start of at most `B < 2 ^ E`, over non-negative deltas:
each of the `n` subtractions is off by at most `2 ^ (E - 54)`, so the count-down
is still running, with at least `t - sum - n * 2 ^ (E - 54)` left, when the deltas
sum to less than `t - n * 2 ^ (E - 54)`. -/
theorem countDown_running (E : ℤ) (hE : -1021 ≤ E) (hE53 : E ≤ 53) (B : ℤ)
    (hB : (B : ℚ) < pow2 E) (ds : List ℚ) :
    ∀ t : ℚ, t ≤ B → (∀ d ∈ ds, 0 ≤ d) → ds.sum + ds.length * pow2 (E - 54) < t →
      ∃ w, countDown t ds = some w ∧ t - ds.sum - ds.length * pow2 (E - 54) ≤ w ∧ w ≤ B := by
  induction ds with
  | nil =>
    intro t ht _ _
    exact ⟨t, rfl, by simp, ht⟩
  | cons d rest ih =>
    intro t ht hds hlt
    have hd0 := hds d (List.mem_cons_self d rest)
    have hrest : ∀ x ∈ rest, 0 ≤ x := fun x hx => hds x (List.mem_cons_of_mem d hx)
    have hsum := sum_nonneg_of_nonneg rest hrest
    have heps := pow2_pos (E - 54)
    have hn : (0 : ℚ) ≤ (rest.length : ℚ) * pow2 (E - 54) := by positivity
    rw [List.sum_cons, List.length_cons] at hlt
    push_cast at hlt
    have hx0 : 0 < t - d := by nlinarith
    have hxB : t - d ≤ B := by linarith
    have habs : |t - d| < pow2 E := by
      rw [abs_of_pos hx0]
      linarith
    have herr := Double.abs_round_sub_le habs hE
    rw [abs_le] at herr
    have h53 : |t - d| < 2 ^ 53 := by
      have : pow2 E ≤ pow2 53 := pow2_le_pow2 hE53
      have e53 : pow2 53 = 2 ^ 53 := by rw [pow2_eq]; norm_cast
      linarith
    have hup : Double.sub t d ≤ B := Double.round_le_int hxB h53
    have hlow : t - d - pow2 (E - 54) ≤ Double.sub t d := by
      unfold Double.sub
      linarith [herr.1]
    have hpos : ¬ Double.sub t d ≤ 0 := by
      apply not_le.mpr
      nlinarith
    obtain ⟨w, hw, hwl, hwu⟩ := ih (Double.sub t d) hup hrest (by nlinarith)
    refine ⟨w, ?_, ?_, hwu⟩
    · rw [countDown_cons, if_neg hpos, hw]
    · rw [List.sum_cons, List.length_cons]
      push_cast
      nlinarith

/-- A count-down from a positive start of at most `B < 2 ^ E`, over non-negative
deltas: what is left while it runs is positive and at most
`t - sum + n * 2 ^ (E - 54)`; so the count-down is over when the deltas sum to
`t + n * 2 ^ (E - 54)` or more. -/
theorem countDown_left (E : ℤ) (hE : -1021 ≤ E) (hE53 : E ≤ 53) (B : ℤ)
    (hB : (B : ℚ) < pow2 E) (ds : List ℚ) :
    ∀ t : ℚ, 0 < t → t ≤ B → (∀ d ∈ ds, 0 ≤ d) → ∀ w, countDown t ds = some w →
      0 < w ∧ w ≤ t - ds.sum + ds.length * pow2 (E - 54) ∧ w ≤ B := by
  induction ds with
  | nil =>
    intro t ht0 ht _ w hw
    rw [countDown_nil] at hw
    have : t = w := Option.some.inj hw
    subst this
    exact ⟨ht0, by simp, ht⟩
  | cons d rest ih =>
    intro t ht0 ht hds w hw
    have hd0 := hds d (List.mem_cons_self d rest)
    have hrest : ∀ x ∈ rest, 0 ≤ x := fun x hx => hds x (List.mem_cons_of_mem d hx)
    have heps := pow2_pos (E - 54)
    rw [countDown_cons] at hw
    by_cases hover : Double.sub t d ≤ 0
    · rw [if_pos hover] at hw
      exact absurd hw (by simp)
    · rw [if_neg hover] at hw
      have hx0 : 0 < t - d := by
        by_contra hcon
        exact hover (Double.round_nonpos (not_lt.mp hcon))
      have hxB : t - d ≤ B := by linarith
      have habs : |t - d| < pow2 E := by
        rw [abs_of_pos hx0]
        linarith
      have herr := Double.abs_round_sub_le habs hE
      rw [abs_le] at herr
      have h53 : |t - d| < 2 ^ 53 := by
        have : pow2 E ≤ pow2 53 := pow2_le_pow2 hE53
        have e53 : pow2 53 = 2 ^ 53 := by rw [pow2_eq]; norm_cast
        linarith
      have hup : Double.sub t d ≤ B := Double.round_le_int hxB h53
      have hhigh : Double.sub t d ≤ t - d + pow2 (E - 54) := by
        unfold Double.sub
        linarith [herr.2]
      obtain ⟨h1, h2, h3⟩ := ih (Double.sub t d) (not_le.mp hover) hup hrest w hw
      refine ⟨h1, ?_, h3⟩
      rw [List.sum_cons, List.length_cons]
      push_cast
      nlinarith

theorem countDown_over (E : ℤ) (hE : -1021 ≤ E) (hE53 : E ≤ 53) (B : ℤ)
    (hB : (B : ℚ) < pow2 E) (ds : List ℚ) (t : ℚ) (ht0 : 0 < t) (ht : t ≤ B)
    (hds : ∀ d ∈ ds, 0 ≤ d) (hsum : t + ds.length * pow2 (E - 54) ≤ ds.sum) :
    countDown t ds = none := by
  cases hc : countDown t ds with
  | none => rfl
  | some w =>
    obtain ⟨h1, h2, _⟩ := countDown_left E hE hE53 B hB ds t ht0 ht hds w hc
    linarith

/-! ## Lemmas on the player -/

theorem elapsed_nil : elapsed [] = 0 := rfl

theorem elapsed_cons (c : UpdateCall) (calls : List UpdateCall) :
    elapsed (c :: calls) = c.deltaTime + elapsed calls := by
  simp [elapsed]

theorem elapsed_nonneg (calls : List UpdateCall) (h : ∀ c ∈ calls, 0 ≤ c.deltaTime) :
    0 ≤ elapsed calls := by
  induction calls with
  | nil => simp [elapsed]
  | cons c rest ih =>
    rw [elapsed_cons]
    have h1 := h c (List.mem_cons_self c rest)
    have h2 := ih (fun d hd => h d (List.mem_cons_of_mem c hd))
    linarith

theorem Player.updates_nil (p : Player) : p.updates [] = p := rfl

theorem Player.updates_cons (p : Player) (c : UpdateCall) (calls : List UpdateCall) :
    p.updates (c :: calls) =
      (p.update c.deltaTime c.canvasWidth c.playAreaTop c.playAreaBottom).updates calls := rfl

theorem Player.update_isInvincible (p : Player) (dt w t b : ℚ) :
    (p.update dt w t b).isInvincible =
      (p.isInvincible && decide (0 < Double.sub p.invincibleTimer dt)) := by
  unfold Player.update
  by_cases hi : p.isInvincible = true
  · by_cases ht : Double.sub p.invincibleTimer dt ≤ 0
    · simp [hi, ht]
    · simp [hi, ht]
      linarith
  · simp [hi]

theorem Player.update_invincibleTimer (p : Player) (dt w t b : ℚ)
    (h : p.isInvincible = true) :
    (p.update dt w t b).invincibleTimer = Double.sub p.invincibleTimer dt := by
  unfold Player.update
  by_cases ht : Double.sub p.invincibleTimer dt ≤ 0 <;> simp [h, ht]

theorem Player.update_health (p : Player) (dt w t b : ℚ) :
    (p.update dt w t b).health = p.health := by
  unfold Player.update
  by_cases hi : p.isInvincible = true
  · by_cases ht : Double.sub p.invincibleTimer dt ≤ 0 <;> simp [hi, ht]
  · simp [hi]

theorem Player.update_powerUps (p : Player) (dt w t b : ℚ) (key : String) :
    (p.update dt w t b).powerUps key =
      match p.powerUps key with
      | none => none
      | some v => if Double.sub v dt ≤ 0 then none else some (Double.sub v dt) := by
  unfold Player.update
  by_cases hi : p.isInvincible = true
  · by_cases ht : Double.sub p.invincibleTimer dt ≤ 0 <;> simp [hi, ht]
  · simp [hi]

/-- The deltas of a sequence of `Player.update` calls. -/
theorem elapsed_eq_sum (calls : List UpdateCall) :
    elapsed calls = (calls.map (fun c => c.deltaTime)).sum := rfl

/-- A player that is not invincible stays so through updates. -/
theorem Player.updates_not_invincible (calls : List UpdateCall) :
    ∀ p : Player, p.isInvincible = false → (p.updates calls).isInvincible = false := by
  induction calls with
  | nil => intro p h; simpa [Player.updates_nil] using h
  | cons c rest ih =>
    intro p h
    rw [Player.updates_cons]
    apply ih
    rw [Player.update_isInvincible, h]
    rfl

/-- The invincibility of a player through a sequence of updates is the count-down of
its timer: the player is invincible afterwards exactly when the count-down is still
running, and the timer is then what is left of it. -/
theorem Player.updates_invincible (calls : List UpdateCall) :
    ∀ p : Player, p.isInvincible = true →
      (p.updates calls).isInvincible
          = (countDown p.invincibleTimer (calls.map (fun c => c.deltaTime))).isSome ∧
        (∀ w, countDown p.invincibleTimer (calls.map (fun c => c.deltaTime)) = some w →
          (p.updates calls).invincibleTimer = w) ∧
        (p.updates calls).health = p.health := by
  induction calls with
  | nil =>
    intro p h
    refine ⟨by simpa [Player.updates_nil, countDown_nil] using h, ?_, rfl⟩
    intro w hw
    simpa [countDown_nil] using hw
  | cons c rest ih =>
    intro p h
    rw [Player.updates_cons, List.map_cons, countDown_cons]
    have hhealth : ∀ q : Player, (q.updates rest).health = q.health := by
      intro q
      by_cases hq : q.isInvincible = true
      · exact (ih q hq).2.2
      · have hq' : q.isInvincible = false := by simpa using hq
        clear ih
        induction rest generalizing q with
        | nil => rfl
        | cons d more ihm =>
          rw [Player.updates_cons]
          rw [ihm _ (by rw [Player.update_isInvincible, hq']; simp)
            (by rw [Player.update_isInvincible, hq']; rfl), Player.update_health]
    by_cases hover : Double.sub p.invincibleTimer c.deltaTime ≤ 0
    · have hflag : (p.update c.deltaTime c.canvasWidth c.playAreaTop c.playAreaBottom).isInvincible
          = false := by
        rw [Player.update_isInvincible, h]
        simp [hover]
      rw [if_pos hover]
      refine ⟨?_, ?_, ?_⟩
      · rw [Player.updates_not_invincible rest _ hflag]
        rfl
      · intro w hw
        exact absurd hw (by simp)
      · rw [hhealth, Player.update_health]
    · have hflag : (p.update c.deltaTime c.canvasWidth c.playAreaTop c.playAreaBottom).isInvincible
          = true := by
        rw [Player.update_isInvincible, h]
        simp
        exact not_le.mp hover
      have htimer := Player.update_invincibleTimer p c.deltaTime c.canvasWidth c.playAreaTop
        c.playAreaBottom h
      have h3 := ih _ hflag
      rw [htimer] at h3
      rw [if_neg hover]
      exact ⟨h3.1, h3.2.1, by rw [h3.2.2, Player.update_health]⟩

/-- A key that is absent stays absent through updates. -/
theorem Player.updates_powerUps_none (calls : List UpdateCall) (key : String) :
    ∀ p : Player, p.powerUps key = none → (p.updates calls).powerUps key = none := by
  induction calls with
  | nil => intro p h; simpa [Player.updates_nil] using h
  | cons c rest ih =>
    intro p h
    rw [Player.updates_cons]
    apply ih
    rw [Player.update_powerUps, h]

/-- The remaining duration of a power-up through a sequence of updates is the
count-down of its duration: the entry is deleted when the count-down is over, and
holds what is left of it until then. -/
theorem Player.updates_powerUps_some (calls : List UpdateCall) (key : String) :
    ∀ (p : Player) (v : ℚ), p.powerUps key = some v →
      (p.updates calls).powerUps key = countDown v (calls.map (fun c => c.deltaTime)) := by
  induction calls with
  | nil =>
    intro p v h
    simpa [Player.updates_nil, countDown_nil] using h
  | cons c rest ih =>
    intro p v h
    rw [Player.updates_cons, List.map_cons, countDown_cons]
    by_cases hexp : Double.sub v c.deltaTime ≤ 0
    · have hgone : (p.update c.deltaTime c.canvasWidth c.playAreaTop c.playAreaBottom).powerUps
          key = none := by
        rw [Player.update_powerUps, h]; simp [hexp]
      rw [if_pos hexp]
      exact Player.updates_powerUps_none rest key _ hgone
    · have hkept : (p.update c.deltaTime c.canvasWidth c.playAreaTop c.playAreaBottom).powerUps
          key = some (Double.sub v c.deltaTime) := by
        rw [Player.update_powerUps, h]; simp [hexp]
      rw [if_neg hexp]
      exact ih _ _ hkept

theorem Player.applyPowerUp_powerUps (p : Player) (type key : String)
    (hproto : type ≠ "__proto__") :
    (p.applyPowerUp type).powerUps key =
      if key = type then (if type = "shield" then some 15000 else some 10000)
      else p.powerUps key := by
  unfold Player.applyPowerUp
  rw [if_neg hproto]
  by_cases hs : type = "shield"
  · subst hs
    by_cases hk : key = "shield" <;> simp [hk]
  · by_cases hk : key = type <;> simp [hs, hk]

namespace StellarDefenderGame

/-- The loop of `createExplosion` writes `particles` and `randomCalls` only. -/
theorem pushParticles_frame (E : Env) (x y : ℚ) (n : Nat) :
    ∀ g : StellarDefenderGame, pushParticles E x y n g =
      { g with particles := (pushParticles E x y n g).particles,
               randomCalls := (pushParticles E x y n g).randomCalls } := by
  induction n with
  | zero => intro g; rfl
  | succ n ih =>
    intro g
    simp only [pushParticles]
    conv_lhs => rw [ih]

/-- `createExplosion` writes `particles` and `randomCalls` only. -/
theorem createExplosion_frame (E : Env) (x y : ℚ) (size : String) (g : StellarDefenderGame) :
    createExplosion E x y size g =
      { g with particles := (createExplosion E x y size g).particles,
               randomCalls := (createExplosion E x y size g).randomCalls } := by
  unfold createExplosion
  exact pushParticles_frame E x y _ g

theorem createExplosion_player (E : Env) (x y : ℚ) (size : String) (g : StellarDefenderGame) :
    (createExplosion E x y size g).player = g.player := by
  rw [createExplosion_frame]

theorem createExplosion_lives (E : Env) (x y : ℚ) (size : String) (g : StellarDefenderGame) :
    (createExplosion E x y size g).lives = g.lives := by
  rw [createExplosion_frame]

theorem createExplosion_enemies (E : Env) (x y : ℚ) (size : String) (g : StellarDefenderGame) :
    (createExplosion E x y size g).enemies = g.enemies := by
  rw [createExplosion_frame]

theorem createExplosion_projectiles (E : Env) (x y : ℚ) (size : String)
    (g : StellarDefenderGame) :
    (createExplosion E x y size g).projectiles = g.projectiles := by
  rw [createExplosion_frame]

theorem createExplosion_powerUps (E : Env) (x y : ℚ) (size : String) (g : StellarDefenderGame) :
    (createExplosion E x y size g).powerUps = g.powerUps := by
  rw [createExplosion_frame]

theorem createExplosion_bottomControlsHeight (E : Env) (x y : ℚ) (size : String)
    (g : StellarDefenderGame) :
    (createExplosion E x y size g).bottomControlsHeight = g.bottomControlsHeight := by
  rw [createExplosion_frame]

theorem createExplosion_vitals (E : Env) (x y : ℚ) (size : String) (g : StellarDefenderGame) :
    (createExplosion E x y size g).vitals = g.vitals := by
  simp [vitals, createExplosion_player, createExplosion_lives]

theorem vitals_congr {a b : StellarDefenderGame} (h1 : a.player = b.player)
    (h2 : a.lives = b.lives) : a.vitals = b.vitals := by
  simp [vitals, h1, h2]

/-- Resolving a player projectile touches neither the player nor the lives. -/
theorem hitEnemies_player_lives (E : Env) (i : Nat) (p : Projectile) (j : Nat) :
    ∀ g : StellarDefenderGame,
      (hitEnemies E i p j g).player = g.player ∧ (hitEnemies E i p j g).lives = g.lives := by
  induction j with
  | zero => intro g; exact ⟨rfl, rfl⟩
  | succ j ih =>
    intro g
    unfold hitEnemies
    cases h : g.enemies[j]? with
    | none => exact ih g
    | some e =>
      simp only []
      split_ifs <;>
        simp [ih, addScoreText, createExplosion_player, createExplosion_lives]

/-- While the player is invincible, `takeDamage` changes nothing. -/
theorem takeDamage_invincible (p : Player) (d : ℚ) (h : p.isInvincible = true) :
    p.takeDamage d = (false, p) := by
  simp [Player.takeDamage, h]

/-- The projectile loop leaves the vitals of an invincible player alone. -/
theorem projectileLoop_vitals (E : Env) (i : Nat) :
    ∀ g : StellarDefenderGame, g.player.isInvincible = true →
      (projectileLoop E i g).vitals = g.vitals := by
  induction i with
  | zero => intro g _; rfl
  | succ i ih =>
    intro g hinv
    unfold projectileLoop
    cases h : g.projectiles[i]? with
    | none => exact ih g hinv
    | some p =>
      simp only [takeDamage_invincible g.player _ hinv, Bool.false_eq_true, if_false]
      split_ifs with h1 h2 h3
      · have hh := hitEnemies_player_lives E i p g.enemies.length g
        rw [ih _ (by rw [hh.1]; exact hinv)]
        exact vitals_congr hh.1 hh.2
      · rw [ih _ (by simp [createExplosion_player, hinv])]
        simp [vitals, createExplosion_player, createExplosion_lives]
      · rw [ih _ (by simp [createExplosion_player, hinv])]
        simp [vitals, createExplosion_player, createExplosion_lives]
      · exact ih g hinv

/-- The contact loop leaves the vitals of an invincible player alone. -/
theorem contactLoop_vitals (E : Env) (i : Nat) :
    ∀ g : StellarDefenderGame, g.player.isInvincible = true →
      (contactLoop E i g).vitals = g.vitals := by
  induction i with
  | zero => intro g _; rfl
  | succ i ih =>
    intro g hinv
    unfold contactLoop
    cases h : g.enemies[i]? with
    | none => exact ih g hinv
    | some e =>
      simp only [takeDamage_invincible g.player _ hinv, Bool.false_eq_true, if_false]
      split_ifs with h1 h2
      · rw [ih _ (by simp [createExplosion_player, hinv])]
        simp [vitals, createExplosion_player, createExplosion_lives]
      · rw [ih _ (by simp [createExplosion_player, hinv])]
        simp [vitals, createExplosion_player, createExplosion_lives]
      · exact ih g hinv

theorem applyPowerUp_vitals (p : Player) (type : String) :
    (p.applyPowerUp type).isInvincible = p.isInvincible ∧
      (p.applyPowerUp type).invincibleTimer = p.invincibleTimer ∧
      (p.applyPowerUp type).health = p.health := by
  unfold Player.applyPowerUp
  split_ifs <;> exact ⟨rfl, rfl, rfl⟩

/-- The pick-up loop never changes the vitals. -/
theorem pickupLoop_vitals (i : Nat) :
    ∀ g : StellarDefenderGame, (pickupLoop i g).vitals = g.vitals := by
  induction i with
  | zero => intro g; rfl
  | succ i ih =>
    intro g
    unfold pickupLoop
    cases h : g.powerUps[i]? with
    | none => exact ih g
    | some pu =>
      simp only []
      split_ifs with h1 h2
      · rw [ih]
        simp [vitals, applyPowerUp_vitals]
      · rw [ih]
        simp [vitals, applyPowerUp_vitals]
      · exact ih g

/-- While the player is invincible, `checkCollisions` changes neither the
invincibility, nor the health, nor the lives. -/
theorem checkCollisions_vitals (E : Env) (g : StellarDefenderGame)
    (hinv : g.player.isInvincible = true) : (checkCollisions E g).vitals = g.vitals := by
  unfold checkCollisions
  have h1 := projectileLoop_vitals E g.projectiles.length g hinv
  have hinv1 : (projectileLoop E g.projectiles.length g).player.isInvincible = true := by
    have := congrArg Prod.fst h1
    simpa [vitals, hinv] using this
  have h2 := contactLoop_vitals E (projectileLoop E g.projectiles.length g).enemies.length
    _ hinv1
  simp only []
  rw [pickupLoop_vitals, h2, h1]

theorem playerDied_lives (E : Env) (g : StellarDefenderGame) :
    (playerDied E g).lives = g.lives - 1 := by
  unfold playerDied
  simp only [createExplosion_lives]
  split_ifs <;> simp [gameOver, createExplosion_lives]

theorem playerDied_enemies (E : Env) (g : StellarDefenderGame) :
    (playerDied E g).enemies = g.enemies := by
  unfold playerDied
  simp only [createExplosion_lives]
  split_ifs <;> simp [gameOver, createExplosion_enemies]

theorem playerDied_powerUps (E : Env) (g : StellarDefenderGame) :
    (playerDied E g).powerUps = g.powerUps := by
  unfold playerDied
  simp only [createExplosion_lives]
  split_ifs <;> simp [gameOver, createExplosion_powerUps]

theorem playerDied_player (E : Env) (g : StellarDefenderGame) :
    (playerDied E g).player =
      if g.lives - 1 > 0 then
        g.player.spawn (E.canvasWidth / 2) (E.canvasHeight - g.bottomControlsHeight - 100)
      else g.player := by
  unfold playerDied
  simp only [createExplosion_lives]
  split_ifs <;>
    simp [gameOver, createExplosion_player, createExplosion_bottomControlsHeight]

/-- A forced contact collision, when the enemy does overlap the player: the
player takes the enemy's damage, dies if `takeDamage` says so, and the enemy is
removed. -/
theorem forceContact_eq (E : Env) (e : Enemy) (g : StellarDefenderGame)
    (hc : checkCollision g.player.circle e.circle = true) :
    forceContact E e g =
      { createExplosion E e.x e.y "large"
          (if (g.player.takeDamage e.damage).1 then
            playerDied E { g with enemies := [e], projectiles := [], powerUps := [],
                                  player := (g.player.takeDamage e.damage).2 }
           else { g with enemies := [e], projectiles := [], powerUps := [],
                         player := (g.player.takeDamage e.damage).2 })
        with enemies := [] } := by
  unfold forceContact checkCollisions
  simp only [List.length_nil, projectileLoop, List.length_singleton]
  unfold contactLoop
  simp only [List.getElem?_cons_zero, hc, if_true, contactLoop]
  have hen : (createExplosion E e.x e.y "large"
      (if (g.player.takeDamage e.damage).1 then
        playerDied E { g with enemies := [e], projectiles := [], powerUps := [],
                              player := (g.player.takeDamage e.damage).2 }
       else { g with enemies := [e], projectiles := [], powerUps := [],
                     player := (g.player.takeDamage e.damage).2 })).enemies = [e] := by
    rw [createExplosion_enemies]
    split_ifs <;> simp [playerDied_enemies]
  have hpu : (createExplosion E e.x e.y "large"
      (if (g.player.takeDamage e.damage).1 then
        playerDied E { g with enemies := [e], projectiles := [], powerUps := [],
                              player := (g.player.takeDamage e.damage).2 }
       else { g with enemies := [e], projectiles := [], powerUps := [],
                     player := (g.player.takeDamage e.damage).2 })).powerUps = [] := by
    rw [createExplosion_powerUps]
    split_ifs <;> simp [playerDied_powerUps]
  simp only [hen, hpu, List.length_singleton, Nat.zero_lt_one, if_true, List.eraseIdx_cons_zero,
    List.length_nil, pickupLoop]

theorem forceContact_player (E : Env) (e : Enemy) (g : StellarDefenderGame)
    (hc : checkCollision g.player.circle e.circle = true) :
    (forceContact E e g).player =
      if (g.player.takeDamage e.damage).1 then
        (if g.lives - 1 > 0 then
          (g.player.takeDamage e.damage).2.spawn (E.canvasWidth / 2)
            (E.canvasHeight - g.bottomControlsHeight - 100)
         else (g.player.takeDamage e.damage).2)
      else (g.player.takeDamage e.damage).2 := by
  rw [forceContact_eq E e g hc]
  simp only [createExplosion_player]
  split_ifs <;> simp_all [playerDied_player]

theorem forceContact_lives (E : Env) (e : Enemy) (g : StellarDefenderGame)
    (hc : checkCollision g.player.circle e.circle = true) :
    (forceContact E e g).lives =
      if (g.player.takeDamage e.damage).1 then g.lives - 1 else g.lives := by
  rw [forceContact_eq E e g hc]
  simp only [createExplosion_lives]
  split_ifs <;> simp [playerDied_lives]

/-- What `takeDamage` does to a player who is neither invincible nor shielded. -/
theorem takeDamage_vulnerable (p : Player) (d : ℚ) (hinv : p.isInvincible = false)
    (hshield : truthy (p.powerUps "shield") = false) :
    p.takeDamage d = (decide (p.health - d ≤ 0), { p with health := p.health - d }) := by
  simp [Player.takeDamage, hinv, hshield]

/-- A forced contact that the player survives: only the health changes. -/
theorem forceContact_survived (E : Env) (e : Enemy) (g : StellarDefenderGame)
    (hc : checkCollision g.player.circle e.circle = true)
    (hinv : g.player.isInvincible = false)
    (hshield : truthy (g.player.powerUps "shield") = false)
    (hleft : 0 < g.player.health - e.damage) :
    (forceContact E e g).player = { g.player with health := g.player.health - e.damage } ∧
      (forceContact E e g).lives = g.lives := by
  have hnot : ¬ (g.player.health - e.damage ≤ 0) := not_le.mpr hleft
  rw [forceContact_player E e g hc, forceContact_lives E e g hc,
    takeDamage_vulnerable _ _ hinv hshield]
  simp [hnot]

/-- A forced contact that kills the player while lives remain: one life is lost
and the player is respawned. -/
theorem forceContact_died (E : Env) (e : Enemy) (g : StellarDefenderGame)
    (hc : checkCollision g.player.circle e.circle = true)
    (hinv : g.player.isInvincible = false)
    (hshield : truthy (g.player.powerUps "shield") = false)
    (hdead : g.player.health - e.damage ≤ 0) (hlives : 2 ≤ g.lives) :
    (forceContact E e g).player =
        { g.player with health := g.player.health - e.damage }.spawn (E.canvasWidth / 2)
          (E.canvasHeight - g.bottomControlsHeight - 100) ∧
      (forceContact E e g).lives = g.lives - 1 := by
  have hpos : g.lives - 1 > 0 := by omega
  rw [forceContact_player E e g hc, forceContact_lives E e g hc,
    takeDamage_vulnerable _ _ hinv hshield]
  simp [hdead, hpos]

end StellarDefenderGame

theorem Player.move_vitals (E : Env) (p : Player) (dx dy dt : ℚ) :
    (p.move E dx dy dt).isInvincible = p.isInvincible ∧
      (p.move E dx dy dt).invincibleTimer = p.invincibleTimer ∧
      (p.move E dx dy dt).health = p.health :=
  ⟨rfl, rfl, rfl⟩

theorem Player.moveTowards_vitals (E : Env) (p : Player) (tx ty dt : ℚ) :
    (p.moveTowards E tx ty dt).isInvincible = p.isInvincible ∧
      (p.moveTowards E tx ty dt).invincibleTimer = p.invincibleTimer ∧
      (p.moveTowards E tx ty dt).health = p.health := by
  unfold Player.moveTowards
  simp only []
  split_ifs <;> exact ⟨rfl, rfl, rfl⟩

namespace StellarDefenderGame

/-- The first part of `update` on an invincible player whose timer outlasts the
frame: the timer decreases by the delta, in doubles, and nothing else of the vitals
changes. -/
theorem movePlayer_vitals (E : Env) (dt : ℚ) (g : StellarDefenderGame)
    (hinv : g.player.isInvincible = true)
    (hleft : 0 < Double.sub g.player.invincibleTimer dt) :
    (movePlayer E dt g).vitals =
      (true, Double.sub g.player.invincibleTimer dt, g.player.health, g.lives) := by
  have key : ∀ (q : Player) (w t b : ℚ), q.isInvincible = g.player.isInvincible →
      q.invincibleTimer = g.player.invincibleTimer → q.health = g.player.health →
      ((q.update dt w t b).isInvincible, (q.update dt w t b).invincibleTimer,
        (q.update dt w t b).health, g.lives) =
      (true, Double.sub g.player.invincibleTimer dt, g.player.health, g.lives) := by
    intro q w t b h1 h2 h3
    rw [Player.update_isInvincible, Player.update_invincibleTimer _ _ _ _ _ (h1.trans hinv),
      Player.update_health, h1, h2, h3, hinv]
    simp [hleft]
  unfold movePlayer
  simp only [vitals]
  apply key
  · split_ifs <;> first | rfl | exact (Player.moveTowards_vitals _ _ _ _ _).1
  · split_ifs <;> first | rfl | exact (Player.moveTowards_vitals _ _ _ _ _).2.1
  · split_ifs <;> first | rfl | exact (Player.moveTowards_vitals _ _ _ _ _).2.2

theorem firePlayer_vitals (E : Env) (g : StellarDefenderGame) :
    (firePlayer E g).vitals = g.vitals := by
  unfold firePlayer
  split_ifs <;> simp [vitals, Player.fire]

theorem stepEnemy_player_lives (E : Env) (dt : ℚ) (e : Enemy) (g : StellarDefenderGame) :
    (stepEnemy E dt e g).2.player = g.player ∧ (stepEnemy E dt e g).2.lives = g.lives := by
  unfold stepEnemy
  simp only []
  split_ifs <;> exact ⟨rfl, rfl⟩

theorem stepEnemies_player_lives (E : Env) (dt : ℚ) (es : List Enemy) :
    ∀ g : StellarDefenderGame,
      (stepEnemies E dt es g).2.player = g.player ∧ (stepEnemies E dt es g).2.lives = g.lives := by
  induction es with
  | nil => intro g; exact ⟨rfl, rfl⟩
  | cons e rest ih =>
    intro g
    unfold stepEnemies
    simp only []
    have h1 := stepEnemy_player_lives E dt e g
    have h2 := ih (stepEnemy E dt e g).2
    exact ⟨h2.1.trans h1.1, h2.2.trans h1.2⟩

theorem moveEnemies_vitals (E : Env) (dt : ℚ) (g : StellarDefenderGame) :
    (moveEnemies E dt g).vitals = g.vitals := by
  have h := stepEnemies_player_lives E dt g.enemies g
  unfold moveEnemies
  simp [vitals, h.1, h.2]

theorem spawnEnemies_vitals (E : Env) (dt : ℚ) (g : StellarDefenderGame) :
    (spawnEnemies E dt g).vitals = g.vitals := by
  unfold spawnEnemies
  simp only []
  split_ifs <;> rfl

theorem updateWave_vitals (dt : ℚ) (g : StellarDefenderGame) :
    (updateWave dt g).vitals = g.vitals := by
  unfold updateWave
  simp only []
  split_ifs <;> rfl

/-- One `update` step on an invincible player whose timer outlasts the frame: the
timer decreases by the delta, in doubles; health, lives and invincibility stay. -/
theorem update_vitals (E : Env) (dt : ℚ) (g : StellarDefenderGame) (t h : ℚ) (l : ℤ)
    (hg : g.vitals = (true, t, h, l)) (hleft : 0 < Double.sub t dt) :
    (update E dt g).vitals = (true, Double.sub t dt, h, l) := by
  simp only [vitals, Prod.mk.injEq] at hg
  obtain ⟨h1, h2, h3, h4⟩ := hg
  have hmove := movePlayer_vitals E dt { g with randomCalls := 0, clockCalls := 0 } h1
    (by simpa [h2] using hleft)
  have hcol : ∀ s : StellarDefenderGame, s.vitals = (true, Double.sub t dt, h, l) →
      (checkCollisions E s).vitals = (true, Double.sub t dt, h, l) := by
    intro s hs
    rw [checkCollisions_vitals E s (by simpa [vitals] using congrArg Prod.fst hs), hs]
  unfold update
  simp only []
  show (updateWave dt _).vitals = _
  rw [updateWave_vitals, spawnEnemies_vitals]
  apply hcol
  show (moveEnemies E dt _).vitals = _
  rw [moveEnemies_vitals]
  show (firePlayer E _).vitals = _
  rw [firePlayer_vitals, hmove]
  simp [h2, h3, h4]

theorem simulated_cons (f : Env × ℚ) (frames : List (Env × ℚ)) :
    simulated (f :: frames) = f.2 + simulated frames := by
  simp [simulated]

theorem simulated_nonneg (frames : List (Env × ℚ)) (h : ∀ f ∈ frames, 0 ≤ f.2) :
    0 ≤ simulated frames := by
  induction frames with
  | nil => simp [simulated]
  | cons f rest ih =>
    rw [simulated_cons]
    have h1 := h f (List.mem_cons_self f rest)
    have h2 := ih (fun d hd => h d (List.mem_cons_of_mem f hd))
    linarith

/-- A sequence of `update` steps during which the count-down of the invincibility
timer keeps running: the player stays invincible, the timer is what is left of the
count-down, and health and lives stay. -/
theorem updates_vitals (frames : List (Env × ℚ)) :
    ∀ (g : StellarDefenderGame) (t h : ℚ) (l : ℤ) (w : ℚ), g.vitals = (true, t, h, l) →
      countDown t (frames.map (fun f => f.2)) = some w →
      (g.updates frames).vitals = (true, w, h, l) := by
  induction frames with
  | nil =>
    intro g t h l w hg hw
    have : t = w := by simpa [countDown_nil] using hw
    subst this
    simpa [updates] using hg
  | cons f rest ih =>
    intro g t h l w hg hw
    rw [List.map_cons, countDown_cons] at hw
    by_cases hover : Double.sub t f.2 ≤ 0
    · rw [if_pos hover] at hw
      exact absurd hw (by simp)
    · rw [if_neg hover] at hw
      have h1 := update_vitals f.1 f.2 g t h l hg (not_le.mp hover)
      have : g.updates (f :: rest) = (g.update f.1 f.2).updates rest := rfl
      rw [this]
      exact ih (g.update f.1 f.2) (Double.sub t f.2) h l w h1 hw

theorem start_vitals (E : Env) (g : StellarDefenderGame) :
    (g.start E).vitals = (true, 3000, 100, 3) := by
  simp [start, vitals, Player.spawn, Player.maxHealth]

end StellarDefenderGame

/-! ## Lemmas on the collision loops and on the score -/

namespace StellarDefenderGame

theorem spawnEnemies_timer (E : Env) (dt : ℚ) (g : StellarDefenderGame) :
    (spawnEnemies E dt g).enemySpawnTimer =
      if g.enemySpawnTimer + dt > spawnRate g.wave then 0 else g.enemySpawnTimer + dt := by
  unfold spawnEnemies spawnRate
  simp only []
  split_ifs <;> rfl

theorem gameLoop_running (E : Env) (t : Option ℚ) (g : StellarDefenderGame)
    (hrun : g.isRunning = true) (hpause : g.isPaused = false) :
    gameLoop E t g =
      { update E (frameDelta t g.lastTime) { g with lastTime := t } with
        frameRequests := (update E (frameDelta t g.lastTime)
          { g with lastTime := t }).frameRequests + 1 } := by
  unfold gameLoop frameDelta
  simp only [hrun, hpause, Bool.not_true, Bool.or_self, Bool.false_eq_true, if_false]
  cases t <;> cases g.lastTime <;> rfl

theorem killLabel_text : ("+" ++ toString (3 : ℤ)) = "+3" := by decide

theorem createExplosion_score (E : Env) (x y : ℚ) (size : String) (g : StellarDefenderGame) :
    (createExplosion E x y size g).score = g.score := by
  rw [createExplosion_frame]

theorem createExplosion_scoreTexts (E : Env) (x y : ℚ) (size : String)
    (g : StellarDefenderGame) :
    (createExplosion E x y size g).scoreTexts = g.scoreTexts := by
  rw [createExplosion_frame]

theorem splice_projectile (s : StellarDefenderGame) (i : Nat) :
    (if i < s.projectiles.length then { s with projectiles := s.projectiles.eraseIdx i }
      else s) = { s with projectiles := s.projectiles.eraseIdx i } := by
  split_ifs with h
  · rfl
  · rw [List.eraseIdx_of_length_le (not_lt.mp h)]

theorem splice_enemy (s : StellarDefenderGame) (j : Nat) :
    (if j < s.enemies.length then { s with enemies := s.enemies.eraseIdx j }
      else s) = { s with enemies := s.enemies.eraseIdx j } := by
  split_ifs with h
  · rfl
  · rw [List.eraseIdx_of_length_le (not_lt.mp h)]

theorem eraseIdx_set_self {α : Type} (l : List α) (j : Nat) (a : α) :
    (l.set j a).eraseIdx j = l.eraseIdx j := by
  induction l generalizing j with
  | nil => rfl
  | cons b rest ih =>
    cases j with
    | zero => rfl
    | succ j => simp [List.set, List.eraseIdx, ih]

/-- The hit branch of the inner loop: the enemy `e` of index `j` overlaps the
projectile. -/
theorem hitEnemies_hit (E : Env) (i : Nat) (p : Projectile) (j : Nat) (e : Enemy)
    (g : StellarDefenderGame) (he : g.enemies[j]? = some e)
    (hc : checkCollision p.circle e.circle = true) :
    HitResolved i p j e g (hitEnemies E i p (j + 1) g) := by
  unfold hitEnemies
  simp only [he, hc, if_true, splice_projectile, splice_enemy]
  by_cases hd : e.health - p.damage ≤ 0
  · have hnot : ¬ (0 < e.health - p.damage) := not_lt.mpr hd
    simp only [hd, if_true]
    refine ⟨?_, ?_, ?_, fun h => absurd h hnot, fun _ => ⟨?_, ?_, ?_⟩⟩
    · simp only [apply_ite StellarDefenderGame.projectiles, addScoreText,
        createExplosion_projectiles, ite_self]
    · simp only [apply_ite StellarDefenderGame.player, addScoreText,
        createExplosion_player, ite_self]
    · simp only [apply_ite StellarDefenderGame.lives, addScoreText,
        createExplosion_lives, ite_self]
    · simp only [apply_ite StellarDefenderGame.enemies, addScoreText,
        createExplosion_enemies, ite_self, eraseIdx_set_self]
    · simp only [apply_ite StellarDefenderGame.score, addScoreText,
        createExplosion_score, ite_self]
    · simp only [apply_ite StellarDefenderGame.scoreTexts, addScoreText,
        createExplosion_scoreTexts, ite_self, killLabel, killLabel_text]
  · have hpos : 0 < e.health - p.damage := not_le.mp hd
    simp only [hd, if_false]
    refine ⟨?_, ?_, ?_, fun _ => ⟨?_, ?_, ?_⟩, fun h => absurd h hd⟩
    · simp only [createExplosion_projectiles]
    · simp only [createExplosion_player]
    · simp only [createExplosion_lives]
    · simp only [createExplosion_enemies]
    · simp only [createExplosion_score]
    · simp only [createExplosion_scoreTexts]

end StellarDefenderGame

theorem Enemy.damagedFrom_refl (e : Enemy) : e.damagedFrom e := ⟨e.health, rfl⟩

theorem Enemy.damagedFrom_trans {a b c : Enemy} (h1 : a.damagedFrom b) (h2 : b.damagedFrom c) :
    a.damagedFrom c := by
  obtain ⟨x, rfl⟩ := h1
  obtain ⟨y, rfl⟩ := h2
  exact ⟨x, rfl⟩

theorem Enemy.damagedFrom_circle {a b : Enemy} (h : a.damagedFrom b) : a.circle = b.circle := by
  obtain ⟨x, rfl⟩ := h
  rfl

namespace StellarDefenderGame

theorem hitEnemies_miss (E : Env) (i : Nat) (p : Projectile) (n : Nat) (g : StellarDefenderGame)
    (h : ∀ e, g.enemies[n]? = some e → checkCollision p.circle e.circle = false) :
    hitEnemies E i p (n + 1) g = hitEnemies E i p n g := by
  conv_lhs => unfold hitEnemies
  cases he : g.enemies[n]? with
  | none => rfl
  | some e => simp only [h e he, Bool.false_eq_true, if_false]

/-- What the inner loop does with the player projectile `p` of index `i`: either
no enemy below index `n` overlaps it and nothing changes, or the overlapping enemy
of the highest index below `n` is hit, and no other. -/
theorem hitEnemies_cases (E : Env) (i : Nat) (p : Projectile) (n : Nat)
    (g : StellarDefenderGame) :
    (hitEnemies E i p n g = g ∧
      ∀ k, k < n → ∀ e, g.enemies[k]? = some e → checkCollision p.circle e.circle = false) ∨
    ∃ j e, j < n ∧ g.enemies[j]? = some e ∧ checkCollision p.circle e.circle = true ∧
      (∀ k, j < k → k < n → ∀ e', g.enemies[k]? = some e' →
        checkCollision p.circle e'.circle = false) ∧
      HitResolved i p j e g (hitEnemies E i p n g) := by
  induction n with
  | zero => exact Or.inl ⟨rfl, fun k hk => absurd hk (Nat.not_lt_zero k)⟩
  | succ n ih =>
    by_cases hhit : ∃ e, g.enemies[n]? = some e ∧ checkCollision p.circle e.circle = true
    · obtain ⟨e, he, hc⟩ := hhit
      refine Or.inr ⟨n, e, Nat.lt_succ_self n, he, hc, ?_, hitEnemies_hit E i p n e g he hc⟩
      intro k h1 h2
      omega
    · have hmiss : ∀ e, g.enemies[n]? = some e → checkCollision p.circle e.circle = false := by
        intro e he
        cases hc : checkCollision p.circle e.circle
        · rfl
        · exact absurd ⟨e, he, hc⟩ hhit
      rw [hitEnemies_miss E i p n g hmiss]
      rcases ih with ⟨heq, hno⟩ | ⟨j, e, hj, he, hc, hno, hres⟩
      · refine Or.inl ⟨heq, ?_⟩
        intro k hk e he
        rcases Nat.lt_succ_iff_lt_or_eq.mp hk with h | h
        · exact hno k h e he
        · subst h; exact hmiss e he
      · refine Or.inr ⟨j, e, Nat.lt_succ_of_lt hj, he, hc, ?_, hres⟩
        intro k h1 h2 e' he'
        rcases Nat.lt_succ_iff_lt_or_eq.mp h2 with h | h
        · exact hno k h1 h e' he'
        · subst h; exact hmiss e' he'

theorem KillTally.refl (g : StellarDefenderGame) : KillTally g g [] where
  score := by simp
  labels := by simp
  count := by simp
  cause := by intro e he; simp at he
  lineage := fun e he => ⟨e, he, Enemy.damagedFrom_refl e⟩
  survivors := fun e he => Or.inr he
  kept := fun p hp => hp

theorem KillTally.trans {g s r : StellarDefenderGame} {k1 k2 : List Enemy}
    (h1 : KillTally g s k1) (h2 : KillTally s r k2) : KillTally g r (k1 ++ k2) where
  score := by
    rw [h2.score, h1.score, List.length_append]
    push_cast
    ring
  labels := by rw [h2.labels, h1.labels, List.map_append, List.append_assoc]
  count := by
    have a := h1.count
    have b := h2.count
    rw [List.length_append]
    omega
  cause := by
    intro e he
    rcases List.mem_append.mp he with h | h
    · exact h1.cause e h
    · obtain ⟨⟨e0, he0, hd⟩, p, hp, hrest⟩ := h2.cause e h
      obtain ⟨e00, he00, hd0⟩ := h1.lineage e0 he0
      exact ⟨⟨e00, he00, Enemy.damagedFrom_trans hd hd0⟩, p, h1.kept p hp, hrest⟩
  lineage := by
    intro e he
    obtain ⟨e0, he0, hd⟩ := h2.lineage e he
    obtain ⟨e00, he00, hd0⟩ := h1.lineage e0 he0
    exact ⟨e00, he00, Enemy.damagedFrom_trans hd hd0⟩
  survivors := by
    intro e he
    rcases h2.survivors e he with h | h
    · exact Or.inl h
    · exact h1.survivors e h
  kept := fun p hp => h1.kept p (h2.kept p hp)

/-- The account of one player projectile: it destroys one enemy or none. -/
theorem hitEnemies_tally (E : Env) (i : Nat) (p : Projectile) (g : StellarDefenderGame)
    (hp : g.projectiles[i]? = some p) (hplayer : p.isPlayerProjectile = true) :
    ∃ killed, KillTally g (hitEnemies E i p g.enemies.length g) killed := by
  rcases hitEnemies_cases E i p g.enemies.length g with ⟨heq, _⟩ | ⟨j, e, hj, he, hc, _, hres⟩
  · rw [heq]
    exact ⟨[], KillTally.refl g⟩
  · have hmem : e ∈ g.enemies := List.getElem?_mem he
    by_cases hd : e.health - p.damage ≤ 0
    · obtain ⟨h1, h2, h3⟩ := hres.destroyed hd
      refine ⟨[e], ?_⟩
      constructor
      · rw [h2]; simp
      · rw [h3]; simp
      · rw [h1, List.length_eraseIdx_of_lt hj]
        simp
        omega
      · intro e' he'
        rw [List.mem_singleton] at he'
        subst he'
        exact ⟨⟨e', hmem, Enemy.damagedFrom_refl e'⟩, p, List.getElem?_mem hp, hplayer, hc, hd⟩
      · intro e' he'
        rw [h1] at he'
        exact ⟨e', List.mem_of_mem_eraseIdx he', Enemy.damagedFrom_refl e'⟩
      · intro e' he'
        rw [h1] at he'
        exact Or.inr (List.mem_of_mem_eraseIdx he')
      · intro q hq
        rw [hres.projectiles] at hq
        exact List.mem_of_mem_eraseIdx hq
    · have hpos : 0 < e.health - p.damage := not_le.mp hd
      obtain ⟨h1, h2, h3⟩ := hres.survived hpos
      refine ⟨[], ?_⟩
      constructor
      · rw [h2]; simp
      · rw [h3]; simp
      · rw [h1]; simp
      · intro e' he'; simp at he'
      · intro e' he'
        rw [h1] at he'
        rcases List.mem_or_eq_of_mem_set he' with h | h
        · exact ⟨e', h, Enemy.damagedFrom_refl e'⟩
        · exact ⟨e, hmem, ⟨e.health - p.damage, h⟩⟩
      · intro e' he'
        rw [h1] at he'
        rcases List.mem_or_eq_of_mem_set he' with h | h
        · exact Or.inr h
        · left; rw [h]; exact hpos
      · intro q hq
        rw [hres.projectiles] at hq
        exact List.mem_of_mem_eraseIdx hq

theorem playerDied_score (E : Env) (g : StellarDefenderGame) :
    (playerDied E g).score = g.score := by
  unfold playerDied
  simp only [createExplosion_lives]
  split_ifs <;> simp [gameOver, createExplosion_score]

theorem playerDied_scoreTexts (E : Env) (g : StellarDefenderGame) :
    (playerDied E g).scoreTexts = g.scoreTexts := by
  unfold playerDied
  simp only [createExplosion_lives]
  split_ifs <;> simp [gameOver, createExplosion_scoreTexts]

theorem playerDied_projectiles (E : Env) (g : StellarDefenderGame) :
    (playerDied E g).projectiles = g.projectiles := by
  unfold playerDied
  simp only [createExplosion_lives]
  split_ifs <;> simp [gameOver, createExplosion_projectiles]

theorem KillTally.of_same {g s : StellarDefenderGame} (h1 : s.score = g.score)
    (h2 : s.scoreTexts = g.scoreTexts) (h3 : s.enemies = g.enemies)
    (h4 : ∀ q ∈ s.projectiles, q ∈ g.projectiles) : KillTally g s [] where
  score := by simp [h1]
  labels := by simp [h2]
  count := by simp [h3]
  cause := by intro e he; simp at he
  lineage := fun e he => ⟨e, h3 ▸ he, Enemy.damagedFrom_refl e⟩
  survivors := fun e he => Or.inr (h3 ▸ he)
  kept := h4

/-- The account of the first loop of `checkCollisions`. -/
theorem projectileLoop_tally (E : Env) (n : Nat) :
    ∀ g : StellarDefenderGame, ∃ killed, KillTally g (projectileLoop E n g) killed := by
  induction n with
  | zero => intro g; exact ⟨[], KillTally.refl g⟩
  | succ n ih =>
    intro g
    unfold projectileLoop
    cases hp : g.projectiles[n]? with
    | none => exact ih g
    | some p =>
      simp only [splice_projectile]
      split_ifs with h1 h2
      · obtain ⟨k1, t1⟩ := hitEnemies_tally E n p g hp h1
        obtain ⟨k2, t2⟩ := ih (hitEnemies E n p g.enemies.length g)
        exact ⟨k1 ++ k2, t1.trans t2⟩
      all_goals first
        | exact ih g
        | (have step : ∀ S : StellarDefenderGame, KillTally g S [] →
              ∃ killed, KillTally g (projectileLoop E n S) killed := by
            intro S t1
            obtain ⟨k2, t2⟩ := ih S
            exact ⟨[] ++ k2, t1.trans t2⟩
           apply step
           apply KillTally.of_same
           · simp [createExplosion_score, playerDied_score]
           · simp [createExplosion_scoreTexts, playerDied_scoreTexts]
           · simp [createExplosion_enemies, playerDied_enemies]
           · intro q hq
             simp only [createExplosion_projectiles, playerDied_projectiles] at hq
             exact List.mem_of_mem_eraseIdx hq)

/-- The second loop of `checkCollisions` keeps the score, the score labels and the
projectiles, and only takes enemies away. -/
theorem contactLoop_frame (E : Env) (n : Nat) :
    ∀ g : StellarDefenderGame,
      (contactLoop E n g).score = g.score ∧ (contactLoop E n g).scoreTexts = g.scoreTexts ∧
      (contactLoop E n g).projectiles = g.projectiles ∧
      ∀ e ∈ (contactLoop E n g).enemies, e ∈ g.enemies := by
  induction n with
  | zero => intro g; exact ⟨rfl, rfl, rfl, fun e he => he⟩
  | succ n ih =>
    intro g
    unfold contactLoop
    cases he : g.enemies[n]? with
    | none => exact ih g
    | some e =>
      simp only [splice_enemy]
      split_ifs with h1
      all_goals first
        | exact ih g
        | (have step : ∀ S : StellarDefenderGame, S.score = g.score →
              S.scoreTexts = g.scoreTexts → S.projectiles = g.projectiles →
              (∀ e' ∈ S.enemies, e' ∈ g.enemies) →
              (contactLoop E n S).score = g.score ∧
                (contactLoop E n S).scoreTexts = g.scoreTexts ∧
                (contactLoop E n S).projectiles = g.projectiles ∧
                ∀ e' ∈ (contactLoop E n S).enemies, e' ∈ g.enemies := by
            intro S a b c d
            obtain ⟨a', b', c', d'⟩ := ih S
            exact ⟨a'.trans a, b'.trans b, c'.trans c, fun e' he' => d e' (d' e' he')⟩
           apply step
           · simp [createExplosion_score, playerDied_score]
           · simp [createExplosion_scoreTexts, playerDied_scoreTexts]
           · simp [createExplosion_projectiles, playerDied_projectiles]
           · intro e' he'
             simp only [createExplosion_enemies, playerDied_enemies] at he'
             exact List.mem_of_mem_eraseIdx he')

/-- The third loop of `checkCollisions` keeps the score, the score labels, the
enemies and the projectiles. -/
theorem pickupLoop_frame (n : Nat) :
    ∀ g : StellarDefenderGame,
      (pickupLoop n g).score = g.score ∧ (pickupLoop n g).scoreTexts = g.scoreTexts ∧
      (pickupLoop n g).projectiles = g.projectiles ∧ (pickupLoop n g).enemies = g.enemies := by
  induction n with
  | zero => intro g; exact ⟨rfl, rfl, rfl, rfl⟩
  | succ n ih =>
    intro g
    unfold pickupLoop
    cases hp : g.powerUps[n]? with
    | none => exact ih g
    | some pu =>
      simp only []
      split_ifs with h1 h2
      · exact ih _
      · exact ih _
      · exact ih g

/-- The account of one `checkCollisions` pass: the kills of the first loop make
the whole change of the score and of the score labels. -/
theorem checkCollisions_tally (E : Env) (g : StellarDefenderGame) :
    ∃ killed, KillTally g (projectileLoop E g.projectiles.length g) killed ∧
      (checkCollisions E g).score = g.score + 3 * (killed.length : ℤ) ∧
      (checkCollisions E g).scoreTexts = g.scoreTexts ++ killed.map killLabel ∧
      (checkCollisions E g).projectiles = (projectileLoop E g.projectiles.length g).projectiles ∧
      ∀ e ∈ (checkCollisions E g).enemies,
        e ∈ (projectileLoop E g.projectiles.length g).enemies := by
  obtain ⟨killed, t⟩ := projectileLoop_tally E g.projectiles.length g
  have hc := contactLoop_frame E (projectileLoop E g.projectiles.length g).enemies.length
    (projectileLoop E g.projectiles.length g)
  have hp := pickupLoop_frame
    (contactLoop E (projectileLoop E g.projectiles.length g).enemies.length
      (projectileLoop E g.projectiles.length g)).powerUps.length
    (contactLoop E (projectileLoop E g.projectiles.length g).enemies.length
      (projectileLoop E g.projectiles.length g))
  refine ⟨killed, t, ?_, ?_, ?_, ?_⟩
  · unfold checkCollisions
    simp only []
    rw [hp.1, hc.1, t.score]
  · unfold checkCollisions
    simp only []
    rw [hp.2.1, hc.2.1, t.labels]
  · unfold checkCollisions
    simp only []
    rw [hp.2.2.1, hc.2.2.1]
  · intro e he
    unfold checkCollisions at he
    simp only [] at he
    rw [hp.2.2.2] at he
    exact hc.2.2.2 e he

theorem update_eq (E : Env) (dt : ℚ) (g : StellarDefenderGame) :
    update E dt g =
      reportScore (updateWave dt (spawnEnemies E dt
        (checkCollisions E (beforeCollisions E dt g)))) := rfl

theorem stepEnemy_score (E : Env) (dt : ℚ) (e : Enemy) (g : StellarDefenderGame) :
    (stepEnemy E dt e g).2.score = g.score := by
  unfold stepEnemy
  simp only []
  split_ifs <;> rfl

theorem stepEnemies_score (E : Env) (dt : ℚ) (es : List Enemy) :
    ∀ g : StellarDefenderGame, (stepEnemies E dt es g).2.score = g.score := by
  induction es with
  | nil => intro g; rfl
  | cons e rest ih =>
    intro g
    unfold stepEnemies
    simp only []
    rw [ih, stepEnemy_score]

theorem firePlayer_score (E : Env) (g : StellarDefenderGame) :
    (firePlayer E g).score = g.score := by
  unfold firePlayer
  split_ifs <;> rfl

/-- The part of `update` that runs before `checkCollisions` keeps the score. -/
theorem beforeCollisions_score (E : Env) (dt : ℚ) (g : StellarDefenderGame) :
    (beforeCollisions E dt g).score = g.score := by
  unfold beforeCollisions
  show (moveEnemies E dt _).score = _
  unfold moveEnemies
  simp only []
  rw [stepEnemies_score]
  show (firePlayer E _).score = _
  rw [firePlayer_score]
  rfl

theorem spawnEnemies_score (E : Env) (dt : ℚ) (g : StellarDefenderGame) :
    (spawnEnemies E dt g).score = g.score := by
  unfold spawnEnemies
  simp only []
  split_ifs <;> rfl

theorem updateWave_score (dt : ℚ) (g : StellarDefenderGame) :
    (updateWave dt g).score = g.score := by
  unfold updateWave
  simp only []
  split_ifs <;> rfl

/-- The score after an `update` step is the score after its `checkCollisions`. -/
theorem update_score (E : Env) (dt : ℚ) (g : StellarDefenderGame) :
    (update E dt g).score = (checkCollisions E (beforeCollisions E dt g)).score := by
  rw [update_eq]
  show (updateWave dt _).score = _
  rw [updateWave_score, spawnEnemies_score]

/-- After the enemies have moved in `update`, each one left has positive health. -/
theorem beforeCollisions_alive (E : Env) (dt : ℚ) (g : StellarDefenderGame) :
    ∀ e ∈ (beforeCollisions E dt g).enemies, 0 < e.health := by
  intro e he
  unfold beforeCollisions at he
  change e ∈ (moveEnemies E dt _).enemies at he
  unfold moveEnemies at he
  simp only [List.mem_filter, decide_eq_true_eq] at he
  exact he.2.2

/-- The enemies after `spawnEnemies`: those before, and at most one new enemy, of
positive health. -/
theorem spawnEnemies_alive (E : Env) (dt : ℚ) (g : StellarDefenderGame)
    (h : ∀ e ∈ g.enemies, 0 < e.health) :
    ∀ e ∈ (spawnEnemies E dt g).enemies, 0 < e.health := by
  intro e he
  unfold spawnEnemies at he
  simp only [] at he
  split_ifs at he
  · simp only [List.mem_append, List.mem_singleton] at he
    rcases he with h1 | h1
    · exact h e h1
    · rw [h1]; norm_num [Boss.new]
  · simp only [List.mem_append, List.mem_singleton] at he
    rcases he with h1 | h1
    · exact h e h1
    · rw [h1]; norm_num [AlienShip.new]
  · simp only [List.mem_append, List.mem_singleton] at he
    rcases he with h1 | h1
    · exact h e h1
    · rw [h1]; norm_num [Meteor.new]
  · exact h e he

theorem updateWave_enemies (dt : ℚ) (g : StellarDefenderGame) :
    (updateWave dt g).enemies = g.enemies := by
  unfold updateWave
  simp only []
  split_ifs <;> rfl

/-- `checkCollisions` leaves no enemy without health, provided there was none. -/
theorem checkCollisions_alive (E : Env) (g : StellarDefenderGame)
    (h : ∀ e ∈ g.enemies, 0 < e.health) :
    ∀ e ∈ (checkCollisions E g).enemies, 0 < e.health := by
  obtain ⟨killed, t, _, _, _, hsub⟩ := checkCollisions_tally E g
  intro e he
  rcases t.survivors e (hsub e he) with h1 | h1
  · exact h1
  · exact h e h1

theorem mem_eraseIdx_of_ne {α : Type} {l : List α} {n : Nat} {a b : α} (ha : a ∈ l)
    (hb : l[n]? = some b) (hne : b ≠ a) : a ∈ l.eraseIdx n := by
  obtain ⟨m, hm⟩ := List.mem_iff_getElem?.mp ha
  refine List.mem_eraseIdx_iff_getElem?.mpr ⟨m, ?_, hm⟩
  intro h
  subst h
  rw [hm] at hb
  exact hne (Option.some.inj hb).symm

/-- A player projectile that overlaps no enemy is still in the list after the first
loop of `checkCollisions`. -/
theorem projectileLoop_keeps (E : Env) (p : Projectile) (hplayer : p.isPlayerProjectile = true)
    (n : Nat) :
    ∀ g : StellarDefenderGame, p ∈ g.projectiles →
      (∀ e ∈ g.enemies, checkCollision p.circle e.circle = false) →
      p ∈ (projectileLoop E n g).projectiles := by
  induction n with
  | zero => intro g hp _; exact hp
  | succ n ih =>
    intro g hp hfree
    unfold projectileLoop
    cases hq : g.projectiles[n]? with
    | none => exact ih g hp hfree
    | some q =>
      simp only [splice_projectile]
      split_ifs with h1 h2
      · obtain ⟨killed, t⟩ := hitEnemies_tally E n q g hq h1
        apply ih
        · rcases hitEnemies_cases E n q g.enemies.length g with
            ⟨heq, _⟩ | ⟨j, e, _, he, hc, _, hres⟩
          · rw [heq]; exact hp
          · rw [hres.projectiles]
            apply mem_eraseIdx_of_ne hp hq
            intro hqp
            rw [hqp, hfree e (List.getElem?_mem he)] at hc
            exact Bool.false_ne_true hc
        · intro e he
          obtain ⟨e0, he0, hd⟩ := t.lineage e he
          rw [Enemy.damagedFrom_circle hd]
          exact hfree e0 he0
      all_goals first
        | exact ih g hp hfree
        | (apply ih
           · simp only [createExplosion_projectiles, playerDied_projectiles]
             apply mem_eraseIdx_of_ne hp hq
             intro hqp
             rw [hqp] at h1
             exact h1 hplayer
           · simpa [createExplosion_enemies, playerDied_enemies] using hfree)

end StellarDefenderGame

theorem Player.update_x (p : Player) (dt w t b : ℚ) :
    (p.update dt w t b).x = max Player.radius (min p.x (w - Player.radius)) := by
  unfold Player.update
  by_cases hi : p.isInvincible = true
  · by_cases ht : Double.sub p.invincibleTimer dt ≤ 0 <;> simp [hi, ht]
  · simp [hi]

theorem Player.update_y (p : Player) (dt w t b : ℚ) :
    (p.update dt w t b).y = max (t + Player.radius) (min p.y (b - Player.radius)) := by
  unfold Player.update
  by_cases hi : p.isInvincible = true
  · by_cases ht : Double.sub p.invincibleTimer dt ≤ 0 <;> simp [hi, ht]
  · simp [hi]

theorem Player.currentSpeed_cases (p : Player) :
    p.currentSpeed = 350 ∨ p.currentSpeed = 525 := by
  unfold Player.currentSpeed Player.speed
  split_ifs
  · right; norm_num
  · left; norm_num

namespace StellarDefenderGame

/-- The inner loop on the player projectile `p` of index `i`, when the overlapping
enemy of the highest index is `e`, of index `j`: that hit is the one resolved. -/
theorem hitEnemies_resolves (E : Env) (i : Nat) (p : Projectile) (g : StellarDefenderGame)
    (j : Nat) (e : Enemy) (he : g.enemies[j]? = some e)
    (hc : checkCollision p.circle e.circle = true)
    (hhigh : ∀ k e', j < k → g.enemies[k]? = some e' →
      checkCollision p.circle e'.circle = false) :
    HitResolved i p j e g (hitEnemies E i p g.enemies.length g) := by
  have hj : j < g.enemies.length := (List.getElem?_eq_some_iff.mp he).1
  rcases hitEnemies_cases E i p g.enemies.length g with
    ⟨_, hno⟩ | ⟨j', e', hj', he', hc', hhigh', hres⟩
  · rw [hno j hj e he] at hc
    exact absurd hc Bool.false_ne_true
  · have hjj : j' = j := by
      rcases Nat.lt_trichotomy j' j with h | h | h
      · rw [hhigh' j h hj e he] at hc
        exact absurd hc Bool.false_ne_true
      · exact h
      · rw [hhigh j' e' h he'] at hc'
        exact absurd hc' Bool.false_ne_true
    subst hjj
    rw [he] at he'
    have hee : e = e' := Option.some.inj he'
    subst hee
    exact hres

/-- The pass of `checkCollisions` when the projectile read first (the last of the
list) is a player projectile whose hit destroys the enemy `e`: the score of the pass
counts that kill, and the first label appended is the one of `e`. -/
theorem checkCollisions_first_kill (E : Env) (g : StellarDefenderGame) (i : Nat)
    (p : Projectile) (j : Nat) (e : Enemy) (hp : g.projectiles[i]? = some p)
    (hplayer : p.isPlayerProjectile = true) (hlast : i + 1 = g.projectiles.length)
    (hres : HitResolved i p j e g (hitEnemies E i p g.enemies.length g))
    (hdead : e.health - p.damage ≤ 0) :
    ∃ others : List Enemy,
      (checkCollisions E g).score = g.score + 3 * (1 + (others.length : ℤ)) ∧
      (checkCollisions E g).scoreTexts
        = g.scoreTexts ++ killLabel e :: others.map killLabel := by
  obtain ⟨killed, t, hscore, hlabels, _, _⟩ := checkCollisions_tally E g
  have hstep : projectileLoop E g.projectiles.length g
      = projectileLoop E i (hitEnemies E i p g.enemies.length g) := by
    rw [← hlast]
    conv_lhs => unfold projectileLoop
    simp only [hp, hplayer, if_true]
  obtain ⟨others, t'⟩ := projectileLoop_tally E i (hitEnemies E i p g.enemies.length g)
  obtain ⟨_, h2, h3⟩ := hres.destroyed hdead
  refine ⟨others, ?_, ?_⟩
  · have : (checkCollisions E g).score = (projectileLoop E g.projectiles.length g).score := by
      rw [hscore, t.score]
    rw [this, hstep, t'.score, h2]
    ring
  · have : (checkCollisions E g).scoreTexts
        = (projectileLoop E g.projectiles.length g).scoreTexts := by
      rw [hlabels, t.labels]
    rw [this, hstep, t'.labels, h3]
    simp

end StellarDefenderGame

/-! ## The recorded session, evaluated -/

namespace Session

/-- What the recorded session evaluates to: after frame 60, which ends 3000 ms of
simulated time; before the last frame, 396, when three meteors fall beside the
player, two of them 5.3 and 9 pixels per frame away from overlapping it; and
after that frame. -/
theorem trace_facts :
    ((run 60).lastTime = some 4000 ∧ (run 60).player.isInvincible = false ∧
      (run 60).player.invincibleTimer = 0 ∧
      (run 60).player.health = 100 ∧ (run 60).lives = 3 ∧
      checkCollision (run 60).player.circle rock.circle = true ∧
      (StellarDefenderGame.forceContact (env 60) rock (run 60)).player.health = 75) ∧
    ((run 395).isRunning = true ∧ (run 395).player.health = 25 ∧ (run 395).lives = 1 ∧
      (run 395).player.isInvincible = false ∧
      (run 395).events.count Event.gameOver = 0 ∧
      ((run 395).player.x, (run 395).player.y) = (200, 300) ∧
      truthy ((run 395).player.powerUps "shield") = false ∧
      (run 395).enemies.map (fun e => (e.x, e.y, e.radius, e.speed, e.damage))
        = [(230, 2627 / 10, 20, 106, 25), (230, 265, 20, 180, 25), (230, 49, 20, 180, 25)] ∧
      (run 395).projectiles.all (fun p => p.isPlayerProjectile) = true) ∧
    ((run 396).player.health = -25 ∧ (run 396).lives = -1 ∧
      (run 396).events.count Event.gameOver = 2 ∧
      (run 396).events.count (Event.livesUpdate (-1)) = 1 ∧
      (run 396).isRunning = false) := by
  decide!

/-- Two shots on one meteor: what `checkCollisions` evaluates to on `range`. -/
theorem range_facts :
    rock.health = 50 ∧ shot.damage = 25 ∧ range.score = 0 ∧
      (StellarDefenderGame.checkCollisions (env 1) range).score = 3 ∧
      (StellarDefenderGame.checkCollisions (env 1) range).enemies.length = 0 ∧
      (StellarDefenderGame.checkCollisions (env 1) range).projectiles.length = 0 ∧
      (StellarDefenderGame.checkCollisions (env 1) range).scoreTexts.map (fun st => (st.x, st.y, st.text))
        = [(200, 300, "+3")] := by
  decide!

/-- What the 62 steps of `lateFrames` evaluate to. -/
theorem late_facts :
    (∀ f ∈ lateFrames, 0 ≤ f.2 ∧ f.2 ≤ 50) ∧
      StellarDefenderGame.simulated lateFrames = 3000 - 1 / 2 ^ 54 ∧
      ((((StellarDefenderGame.new .mobile true).start (env 0)).updates
          lateFrames).player.invincibleTimer = 0 ∧
        (((StellarDefenderGame.new .mobile true).start (env 0)).updates
          lateFrames).player.isInvincible = false ∧
        (((StellarDefenderGame.new .mobile true).start (env 0)).updates
          lateFrames).player.health = 100 ∧
        checkCollision (((StellarDefenderGame.new .mobile true).start (env 0)).updates
          lateFrames).player.circle rock.circle = true ∧
        (StellarDefenderGame.forceContact (env 62) rock
          (((StellarDefenderGame.new .mobile true).start (env 0)).updates
            lateFrames)).player.health = 75) := by
  decide!

end Session

/-! ## The claims -/

open StellarDefenderGame

/-- C1 fails on the code in the recorded session.  Before frame 396 the player
stands at `(200, 300)` with health 25, neither invincible nor shielded, no enemy
projectile is around, and three meteors of radius 20 and damage 25 are at
`(230, 262.7)`, `(230, 265)` and `(230, 49)`, falling 5.3, 9 and 9 pixels per
frame.  In frame 396 the first two come to overlap the player: the first contact
resolved brings the health to 0 and ends the game, the second contact of the same
pass brings the health to -25, below 0. -/
theorem health_negative_in_final_frame :
    ((Session.run 395).player.health = 25 ∧ (Session.run 395).player.isInvincible = false ∧
      ((Session.run 395).player.x, (Session.run 395).player.y) = (200, 300) ∧
      truthy ((Session.run 395).player.powerUps "shield") = false ∧
      (Session.run 395).enemies.map (fun e => (e.x, e.y, e.radius, e.speed, e.damage))
        = [(230, 2627 / 10, 20, 106, 25), (230, 265, 20, 180, 25), (230, 49, 20, 180, 25)] ∧
      (Session.run 395).projectiles.all (fun p => p.isPlayerProjectile) = true) ∧
    (Session.run 396).player.health = -25 ∧ ¬ (0 ≤ (Session.run 396).player.health) :=
  ⟨⟨Session.trace_facts.2.1.2.1, Session.trace_facts.2.1.2.2.2.1, Session.trace_facts.2.1.2.2.2.2.2.1,
      Session.trace_facts.2.1.2.2.2.2.2.2.1, Session.trace_facts.2.1.2.2.2.2.2.2.2.1,
      Session.trace_facts.2.1.2.2.2.2.2.2.2.2⟩,
    Session.trace_facts.2.2.1, by rw [Session.trace_facts.2.2.1]; norm_num⟩

/-- C2 fails on the code in the recorded session: before frame 396 one life is
left; the two contacts resolved in frame 396 each take a life, so the lives
counter ends at -1, and `onLivesUpdate` is called with -1. -/
theorem lives_negative_in_final_frame :
    (Session.run 395).lives = 1 ∧ (Session.run 396).lives = -1 ∧
      (Session.run 396).events.count (Event.livesUpdate (-1)) = 1 :=
  ⟨Session.trace_facts.2.1.2.2.1, Session.trace_facts.2.2.2.1, Session.trace_facts.2.2.2.2.2.1⟩

/-- C3 fails on the code in the recorded session: before frame 396 the game is
running and `onGameOver` has not been called; after frame 396 it has been called
twice, once for each of the two contacts resolved in that frame, and `isRunning`
is `false`. -/
theorem gameOver_called_twice_in_final_frame :
    (Session.run 395).isRunning = true ∧
      (Session.run 395).events.count Event.gameOver = 0 ∧
      (Session.run 396).events.count Event.gameOver = 2 ∧
      (Session.run 396).isRunning = false :=
  ⟨Session.trace_facts.2.1.1, Session.trace_facts.2.1.2.2.2.2.1, Session.trace_facts.2.2.2.2.1,
    Session.trace_facts.2.2.2.2.2.2⟩

/-- C4, as stated, fails: after `spawn`, three `update` calls with the positive
deltas 0.3, 0.3 and 2999.3999999999996 (the doubles of these literals), whose sum
is `3000 - 3277 / 2 ^ 53`, less than 3000 ms, bring the invincibility timer to
exactly 0 and clear `isInvincible`, because each subtraction of line 832 is
rounded to a double; `takeDamage(25)` then takes the health from 100 to 75 and
`takeDamage(100)` reports the death. -/
theorem invincibility_lost_before_3000ms :
    (∀ c ∈ Session.nearMiss, 0 ≤ c.deltaTime) ∧
      elapsed Session.nearMiss = 3000 - 3277 / 2 ^ 53 ∧
      elapsed Session.nearMiss < 3000 ∧
      (((Player.new 0 0).spawn 200 300).updates Session.nearMiss).invincibleTimer = 0 ∧
      (((Player.new 0 0).spawn 200 300).updates Session.nearMiss).isInvincible = false ∧
      (((Player.new 0 0).spawn 200 300).updates Session.nearMiss).health = 100 ∧
      ((((Player.new 0 0).spawn 200 300).updates Session.nearMiss).takeDamage 25).2.health
        = 75 ∧
      ((((Player.new 0 0).spawn 200 300).updates Session.nearMiss).takeDamage 100).1
        = true := by
  refine ⟨?_, ?_, ?_, ?_, ?_, ?_, ?_, ?_⟩
  · intro c hc
    simp only [Session.nearMiss, List.mem_cons, List.mem_singleton, List.not_mem_nil,
      or_false] at hc
    rcases hc with rfl | rfl | rfl <;> norm_num [Session.threeTenths]
  · norm_num [elapsed, Session.nearMiss, Session.threeTenths]
  · norm_num [elapsed, Session.nearMiss, Session.threeTenths]
  · decide!
  · decide!
  · decide!
  · decide!
  · decide!

/-- C4, amended: after `Player.spawn`, for every sequence of `Player.update` calls
whose deltas are non-negative and either are all multiples of `2 ^ -41` ms and sum
to less than 3000 ms, or sum to less than 3000 ms by more than `2 ^ -42` ms per
call (the rounding of one subtraction), and for every damage amount, `takeDamage`
returns `false` and leaves the player, so in particular the health and the
power-up map, unchanged. -/
theorem takeDamage_within_invincibility_window (p : Player) (x y : ℚ)
    (calls : List UpdateCall) (damage : ℚ)
    (hpos : ∀ c ∈ calls, 0 ≤ c.deltaTime)
    (hsum : ((∀ c ∈ calls, ∃ m : ℕ, c.deltaTime = m / 2 ^ 41) ∧ elapsed calls < 3000) ∨
      elapsed calls + calls.length / 2 ^ 42 < 3000) :
    (((p.spawn x y).updates calls).takeDamage damage).1 = false ∧
      (((p.spawn x y).updates calls).takeDamage damage).2.health
        = ((p.spawn x y).updates calls).health ∧
      (((p.spawn x y).updates calls).takeDamage damage).2.powerUps
        = ((p.spawn x y).updates calls).powerUps ∧
      (((p.spawn x y).updates calls).takeDamage damage).2 = (p.spawn x y).updates calls := by
  have hds : ∀ d ∈ calls.map (fun c => c.deltaTime), 0 ≤ d := by
    intro d hd
    obtain ⟨c, hc, rfl⟩ := List.mem_map.mp hd
    exact hpos c hc
  have hrun : (countDown 3000 (calls.map (fun c => c.deltaTime))).isSome = true := by
    rcases hsum with ⟨hgrid, hlt⟩ | hlt
    · rw [countDown_exact 41 (by norm_num) _ 3000 (by norm_num) (by norm_num)
        ⟨3000 * 2 ^ 41, by norm_num⟩
        (by
          intro d hd
          obtain ⟨c, hc, rfl⟩ := List.mem_map.mp hd
          exact ⟨hpos c hc, hgrid c hc⟩)]
      rw [← elapsed_eq_sum, if_pos hlt]
      rfl
    · obtain ⟨w, hw, _⟩ := countDown_running 12 (by norm_num) (by norm_num) 3000
        (by rw [pow2_eq]; norm_num) (calls.map (fun c => c.deltaTime)) 3000 (by norm_num) hds
        (by
          rw [← elapsed_eq_sum, List.length_map]
          have : pow2 (12 - 54) = 1 / 2 ^ 42 := by rw [pow2_eq]; norm_num [zpow_neg]
          rw [this, mul_one_div]
          exact hlt)
      rw [hw]
      rfl
  have h := (Player.updates_invincible calls (p.spawn x y) rfl).1
  have hinv : ((p.spawn x y).updates calls).isInvincible = true := by
    rw [h]
    exact hrun
  rw [takeDamage_invincible _ _ hinv]
  exact ⟨rfl, rfl, rfl, rfl⟩

theorem takeDamage_within_invincibility_window_witness :
    elapsed [⟨Session.threeTenths, 800, 100, 600⟩, ⟨1000, 800, 100, 600⟩,
          ⟨1999, 800, 100, 600⟩]
        + ([⟨Session.threeTenths, 800, 100, 600⟩, ⟨1000, 800, 100, 600⟩,
            ⟨1999, 800, 100, 600⟩] : List UpdateCall).length / 2 ^ 42 < 3000 ∧
      ((((Player.new 0 0).spawn 400 500).updates
          [⟨Session.threeTenths, 800, 100, 600⟩, ⟨1000, 800, 100, 600⟩,
            ⟨1999, 800, 100, 600⟩]).takeDamage 1000000).1 = false :=
  have hsum : elapsed [⟨Session.threeTenths, 800, 100, 600⟩, ⟨1000, 800, 100, 600⟩,
        ⟨1999, 800, 100, 600⟩]
      + ([⟨Session.threeTenths, 800, 100, 600⟩, ⟨1000, 800, 100, 600⟩,
          ⟨1999, 800, 100, 600⟩] : List UpdateCall).length / 2 ^ 42 < 3000 := by
    norm_num [elapsed, Session.threeTenths]
  ⟨hsum,
    (takeDamage_within_invincibility_window (Player.new 0 0) 400 500
      [⟨Session.threeTenths, 800, 100, 600⟩, ⟨1000, 800, 100, 600⟩, ⟨1999, 800, 100, 600⟩]
      1000000
      (by
        intro c hc
        simp only [List.mem_cons, List.mem_singleton, List.not_mem_nil, or_false] at hc
        rcases hc with rfl | rfl | rfl <;> norm_num [Session.threeTenths])
      (Or.inr hsum)).1⟩

/-- C5 fails on the code: in the recorded session, after `start()` and 60 frames
of 50 ms each (3000 ms of simulated time, the timestamp going from 1000 to 4000)
the invincibility timer is 0 and the player is no longer invincible; a contact
collision forced at that point, with a 25-damage meteor that overlaps the player,
takes the health from 100 to 75.  Nor is a sum below 3000 ms enough: after
`start()` and the 62 update steps of `lateFrames`, whose deltas are between 0 and
50 and sum to `3000 - 2 ^ -54` ms, the timer is 0 as well, each subtraction of
line 832 being rounded to a double, and the same contact takes the health to 75. -/
theorem invincibility_lapsed_after_3000ms :
    ((Session.run 60).lastTime = some 4000 ∧
      (Session.run 60).player.invincibleTimer = 0 ∧
      (Session.run 60).player.isInvincible = false ∧
      (Session.run 60).player.health = 100 ∧
      checkCollision (Session.run 60).player.circle Session.rock.circle = true ∧
      (forceContact (Session.env 60) Session.rock (Session.run 60)).player.health = 75) ∧
    ((∀ f ∈ Session.lateFrames, 0 ≤ f.2 ∧ f.2 ≤ 50) ∧
      simulated Session.lateFrames = 3000 - 1 / 2 ^ 54 ∧
      simulated Session.lateFrames < 3000 ∧
      (((StellarDefenderGame.new .mobile true).start (Session.env 0)).updates
        Session.lateFrames).player.invincibleTimer = 0 ∧
      (((StellarDefenderGame.new .mobile true).start (Session.env 0)).updates
        Session.lateFrames).player.isInvincible = false ∧
      (((StellarDefenderGame.new .mobile true).start (Session.env 0)).updates
        Session.lateFrames).player.health = 100 ∧
      checkCollision (((StellarDefenderGame.new .mobile true).start (Session.env 0)).updates
        Session.lateFrames).player.circle Session.rock.circle = true ∧
      (forceContact (Session.env 62) Session.rock
        (((StellarDefenderGame.new .mobile true).start (Session.env 0)).updates
          Session.lateFrames)).player.health = 75) :=
  ⟨⟨Session.trace_facts.1.1, Session.trace_facts.1.2.2.1, Session.trace_facts.1.2.1,
      Session.trace_facts.1.2.2.2.1, Session.trace_facts.1.2.2.2.2.2.1,
      Session.trace_facts.1.2.2.2.2.2.2⟩,
    Session.late_facts.1, Session.late_facts.2.1,
    by rw [Session.late_facts.2.1]; norm_num,
    Session.late_facts.2.2⟩

/-- C5, amended: after `start()` followed by update steps whose deltas are
non-negative and either are all multiples of `2 ^ -41` ms and sum to less than
3000 ms, or sum to less than 3000 ms by more than `2 ^ -42` ms per step (the
rounding of one subtraction), the player is still invincible, and a contact
collision forced at that point, with any enemy, causes no health loss and no life
lost. -/
theorem forced_contact_within_invincibility_window (E0 : Env) (g0 : StellarDefenderGame)
    (frames : List (Env × ℚ)) (E : Env) (e : Enemy)
    (hpos : ∀ f ∈ frames, 0 ≤ f.2)
    (hsum : ((∀ f ∈ frames, ∃ m : ℕ, f.2 = m / 2 ^ 41) ∧ simulated frames < 3000) ∨
      simulated frames + frames.length / 2 ^ 42 < 3000) :
    ((g0.start E0).updates frames).player.isInvincible = true ∧
      (forceContact E e ((g0.start E0).updates frames)).player.health
        = ((g0.start E0).updates frames).player.health ∧
      (forceContact E e ((g0.start E0).updates frames)).lives
        = ((g0.start E0).updates frames).lives ∧
      ((g0.start E0).updates frames).player.health = 100 ∧
      ((g0.start E0).updates frames).lives = 3 := by
  have hds : ∀ d ∈ frames.map (fun f => f.2), 0 ≤ d := by
    intro d hd
    obtain ⟨f, hf, rfl⟩ := List.mem_map.mp hd
    exact hpos f hf
  have hrun : ∃ w, countDown 3000 (frames.map (fun f => f.2)) = some w := by
    rcases hsum with ⟨hgrid, hlt⟩ | hlt
    · rw [countDown_exact 41 (by norm_num) _ 3000 (by norm_num) (by norm_num)
        ⟨3000 * 2 ^ 41, by norm_num⟩
        (by
          intro d hd
          obtain ⟨f, hf, rfl⟩ := List.mem_map.mp hd
          exact ⟨hpos f hf, hgrid f hf⟩)]
      have hlt2 : (frames.map (fun f => f.2)).sum < 3000 := hlt
      rw [if_pos hlt2]
      exact ⟨_, rfl⟩
    · obtain ⟨w, hw, _⟩ := countDown_running 12 (by norm_num) (by norm_num) 3000
        (by rw [pow2_eq]; norm_num) (frames.map (fun f => f.2)) 3000 (by norm_num) hds
        (by
          rw [List.length_map]
          have : pow2 (12 - 54) = 1 / 2 ^ 42 := by rw [pow2_eq]; norm_num [zpow_neg]
          rw [this, mul_one_div]
          exact hlt)
      exact ⟨w, hw⟩
  obtain ⟨w, hw⟩ := hrun
  have h := updates_vitals frames (g0.start E0) 3000 100 3 w (start_vitals E0 g0) hw
  have hinv : ((g0.start E0).updates frames).player.isInvincible = true := by
    simpa [vitals] using congrArg Prod.fst h
  have hc := checkCollisions_vitals E
    { (g0.start E0).updates frames with enemies := [e], projectiles := [], powerUps := [] } hinv
  simp only [vitals, Prod.mk.injEq] at h hc
  refine ⟨hinv, ?_, ?_, h.2.2.1, h.2.2.2⟩
  · exact hc.2.2.1
  · exact hc.2.2.2

theorem forced_contact_within_invincibility_window_witness :
    simulated [(Session.env 1, Session.threeTenths), (Session.env 2, 50)]
        + ([(Session.env 1, Session.threeTenths), (Session.env 2, 50)] :
            List (Env × ℚ)).length / 2 ^ 42 < 3000 ∧
      (forceContact (Session.env 2) Session.rock
          (((StellarDefenderGame.new .mobile true).start (Session.env 0)).updates
            [(Session.env 1, Session.threeTenths), (Session.env 2, 50)])).player.health
        = (((StellarDefenderGame.new .mobile true).start (Session.env 0)).updates
            [(Session.env 1, Session.threeTenths), (Session.env 2, 50)]).player.health :=
  have hsum : simulated [(Session.env 1, Session.threeTenths), (Session.env 2, 50)]
      + ([(Session.env 1, Session.threeTenths), (Session.env 2, 50)] :
          List (Env × ℚ)).length / 2 ^ 42 < 3000 := by
    norm_num [simulated, Session.threeTenths]
  ⟨hsum,
    (forced_contact_within_invincibility_window (Session.env 0)
      (StellarDefenderGame.new .mobile true)
      [(Session.env 1, Session.threeTenths), (Session.env 2, 50)]
      (Session.env 2) Session.rock
      (by
        intro f hf
        simp only [List.mem_cons, List.mem_singleton, List.not_mem_nil, or_false] at hf
        rcases hf with rfl | rfl <;> norm_num [Session.threeTenths])
      (Or.inr hsum)).2.1⟩

/-- C6: for a player at full health (100) whose invincibility has lapsed, without
shield, and with at least 2 lives: the first three contact collisions with a
25-damage enemy cost no life and leave the health at 75, 50, 25; at the fourth,
`takeDamage` returns `true`, `playerDied` takes exactly one life, and the player
is respawned with health 100, `isInvincible` true and `invincibleTimer` 3000. -/
theorem four_contacts_cost_one_life (E1 E2 E3 E4 : Env) (e1 e2 e3 e4 : Enemy)
    (g : StellarDefenderGame)
    (hhealth : g.player.health = 100) (hinv : g.player.isInvincible = false)
    (hshield : truthy (g.player.powerUps "shield") = false) (hlives : 2 ≤ g.lives)
    (hd1 : e1.damage = 25) (hd2 : e2.damage = 25) (hd3 : e3.damage = 25)
    (hd4 : e4.damage = 25)
    (hc1 : checkCollision g.player.circle e1.circle = true)
    (hc2 : checkCollision g.player.circle e2.circle = true)
    (hc3 : checkCollision g.player.circle e3.circle = true)
    (hc4 : checkCollision g.player.circle e4.circle = true) :
    ((forceContact E1 e1 g).player.health = 75 ∧ (forceContact E1 e1 g).lives = g.lives) ∧
    ((forceContact E2 e2 (forceContact E1 e1 g)).player.health = 50 ∧
      (forceContact E2 e2 (forceContact E1 e1 g)).lives = g.lives) ∧
    ((forceContact E3 e3 (forceContact E2 e2 (forceContact E1 e1 g))).player.health = 25 ∧
      (forceContact E3 e3 (forceContact E2 e2 (forceContact E1 e1 g))).lives = g.lives) ∧
    ((forceContact E3 e3 (forceContact E2 e2 (forceContact E1 e1 g))).player.takeDamage
        e4.damage).1 = true ∧
    (forceContact E4 e4 (forceContact E3 e3 (forceContact E2 e2 (forceContact E1 e1 g)))).lives
      = g.lives - 1 ∧
    (forceContact E4 e4 (forceContact E3 e3
      (forceContact E2 e2 (forceContact E1 e1 g)))).player.health = 100 ∧
    (forceContact E4 e4 (forceContact E3 e3
      (forceContact E2 e2 (forceContact E1 e1 g)))).player.isInvincible = true ∧
    (forceContact E4 e4 (forceContact E3 e3
      (forceContact E2 e2 (forceContact E1 e1 g)))).player.invincibleTimer = 3000 := by
  have s1 := forceContact_survived E1 e1 g hc1 hinv hshield (by rw [hhealth, hd1]; norm_num)
  have p1 : (forceContact E1 e1 g).player.health = 75 := by
    rw [s1.1]; simp only []; rw [hhealth, hd1]; norm_num
  have s2 := forceContact_survived E2 e2 (forceContact E1 e1 g)
    (by rw [s1.1]; exact hc2) (by rw [s1.1]; exact hinv) (by rw [s1.1]; exact hshield)
    (by rw [p1, hd2]; norm_num)
  have p2 : (forceContact E2 e2 (forceContact E1 e1 g)).player.health = 50 := by
    rw [s2.1]; simp only []; rw [p1, hd2]; norm_num
  have s3 := forceContact_survived E3 e3 (forceContact E2 e2 (forceContact E1 e1 g))
    (by rw [s2.1, s1.1]; exact hc3) (by rw [s2.1, s1.1]; exact hinv)
    (by rw [s2.1, s1.1]; exact hshield) (by rw [p2, hd3]; norm_num)
  have p3 : (forceContact E3 e3 (forceContact E2 e2 (forceContact E1 e1 g))).player.health
      = 25 := by
    rw [s3.1]; simp only []; rw [p2, hd3]; norm_num
  have i3 : (forceContact E3 e3 (forceContact E2 e2 (forceContact E1 e1 g))).player.isInvincible
      = false := by rw [s3.1, s2.1, s1.1]; exact hinv
  have h3 : truthy ((forceContact E3 e3
      (forceContact E2 e2 (forceContact E1 e1 g))).player.powerUps "shield") = false := by
    rw [s3.1, s2.1, s1.1]; exact hshield
  have l3 : (forceContact E3 e3 (forceContact E2 e2 (forceContact E1 e1 g))).lives = g.lives := by
    rw [s3.2, s2.2, s1.2]
  have s4 := forceContact_died E4 e4 (forceContact E3 e3 (forceContact E2 e2 (forceContact E1 e1 g)))
    (by rw [s3.1, s2.1, s1.1]; exact hc4) i3 h3 (by rw [p3, hd4]; norm_num)
    (by rw [l3]; exact hlives)
  refine ⟨⟨p1, s1.2⟩, ⟨p2, by rw [s2.2, s1.2]⟩, ⟨p3, l3⟩, ?_, ?_, ?_, ?_, ?_⟩
  · rw [takeDamage_vulnerable _ _ i3 h3]
    simp only [decide_eq_true_eq]
    rw [p3, hd4]; norm_num
  · rw [s4.2, l3]
  · rw [s4.1]; rfl
  · rw [s4.1]; rfl
  · rw [s4.1]; rfl

theorem four_contacts_cost_one_life_witness :
    (forceContact (Session.env 4) Session.rock (forceContact (Session.env 3) Session.rock
        (forceContact (Session.env 2) Session.rock
          (forceContact (Session.env 1) Session.rock Session.arena)))).lives
        = Session.arena.lives - 1 ∧
      (forceContact (Session.env 4) Session.rock (forceContact (Session.env 3) Session.rock
        (forceContact (Session.env 2) Session.rock
          (forceContact (Session.env 1) Session.rock Session.arena)))).player.health = 100 :=
  have hc : checkCollision Session.arena.player.circle Session.rock.circle = true := by
    norm_num [checkCollision, Session.arena, Session.rock, Player.circle, Enemy.circle,
      Player.new, Meteor.new, Player.radius]
  have h := four_contacts_cost_one_life (Session.env 1) (Session.env 2) (Session.env 3)
    (Session.env 4) Session.rock Session.rock Session.rock Session.rock Session.arena
    rfl rfl rfl (by decide) rfl rfl rfl rfl hc hc hc hc
  ⟨h.2.2.2.2.1, h.2.2.2.2.2.1⟩

/-- C7: for a player that is not invincible and every damage amount `d`: after
`applyPowerUp('shield')` the first `takeDamage(d)` returns `false`, removes the
shield entry (and no other entry) and leaves the health unchanged; the second
`takeDamage(d)` subtracts exactly `d` from the health and returns `true` iff the
resulting health is `<= 0`. -/
theorem shield_absorbs_exactly_one_hit (p : Player) (d : ℚ) (h : p.isInvincible = false) :
    (((p.applyPowerUp "shield").takeDamage d).1 = false ∧
      ((p.applyPowerUp "shield").takeDamage d).2.powerUps "shield" = none ∧
      (∀ key, key ≠ "shield" →
        ((p.applyPowerUp "shield").takeDamage d).2.powerUps key = p.powerUps key) ∧
      ((p.applyPowerUp "shield").takeDamage d).2.health = p.health) ∧
    ((((p.applyPowerUp "shield").takeDamage d).2.takeDamage d).2.health = p.health - d ∧
      ((((p.applyPowerUp "shield").takeDamage d).2.takeDamage d).1 = true ↔
        p.health - d ≤ 0)) := by
  have hfirst : (p.applyPowerUp "shield").takeDamage d =
      (false, { p with powerUps := fun key =>
        if key = "shield" then none else (p.applyPowerUp "shield").powerUps key }) := by
    simp [Player.takeDamage, Player.applyPowerUp, h, truthy]
  rw [hfirst]
  refine ⟨⟨rfl, by simp, ?_, rfl⟩, ?_⟩
  · intro key hkey
    simp [hkey, Player.applyPowerUp_powerUps]
  · simp [Player.takeDamage, h, truthy]

theorem shield_absorbs_exactly_one_hit_witness :
    ((Player.vulnerable.applyPowerUp "shield").takeDamage 30).1 = false ∧
      (((Player.vulnerable.applyPowerUp "shield").takeDamage 30).2.takeDamage 30).2.health
        = Player.vulnerable.health - 30 :=
  ⟨(shield_absorbs_exactly_one_hit Player.vulnerable 30 rfl).1.1,
    (shield_absorbs_exactly_one_hit Player.vulnerable 30 rfl).2.1⟩

/-- C8, as stated, fails, because each subtraction of line 838 is rounded to a
double.  After `applyPowerUp('speedBoost')`, the five calls of `slowStart`, with
positive deltas that sum to exactly 10000 ms, leave the `speedBoost` entry in
place, with `2 ^ -39` ms to run; the three calls of `earlyEnd`, with positive
deltas that sum to `10000 - 2 ^ -54` ms, less than 10000, remove it.  After
`applyPowerUp('shield')`, the five calls of `slowShield`, with positive deltas
that sum to exactly 15000 ms, leave the `shield` entry in place. -/
theorem speedBoost_kept_after_10000ms :
    ((∀ c ∈ Session.slowStart, 0 < c.deltaTime) ∧ elapsed Session.slowStart = 10000 ∧
      ((Player.vulnerable.applyPowerUp "speedBoost").updates Session.slowStart).powerUps
        "speedBoost" = some (1 / 2 ^ 39)) ∧
    ((∀ c ∈ Session.earlyEnd, 0 < c.deltaTime) ∧
      elapsed Session.earlyEnd = 10000 - 1 / 2 ^ 54 ∧ elapsed Session.earlyEnd < 10000 ∧
      ((Player.vulnerable.applyPowerUp "speedBoost").updates Session.earlyEnd).powerUps
        "speedBoost" = none) ∧
    ((∀ c ∈ Session.slowShield, 0 < c.deltaTime) ∧ elapsed Session.slowShield = 15000 ∧
      15000 ≤ elapsed Session.slowShield ∧
      ((Player.vulnerable.applyPowerUp "shield").updates Session.slowShield).powerUps
        "shield" = some (1 / 2 ^ 39)) := by
  refine ⟨⟨?_, ?_, ?_⟩, ⟨?_, ?_, ?_, ?_⟩, ⟨?_, ?_, ?_, ?_⟩⟩
  · intro c hc
    simp only [Session.slowStart, List.mem_cons, List.mem_singleton, List.not_mem_nil,
      or_false] at hc
    rcases hc with rfl | rfl | rfl | rfl | rfl <;> norm_num
  · norm_num [elapsed, Session.slowStart]
  · decide!
  · intro c hc
    simp only [Session.earlyEnd, List.mem_cons, List.mem_singleton, List.not_mem_nil,
      or_false] at hc
    rcases hc with rfl | rfl | rfl <;> norm_num [Session.threeTenths, Session.sevenTenths]
  · norm_num [elapsed, Session.earlyEnd, Session.threeTenths, Session.sevenTenths]
  · norm_num [elapsed, Session.earlyEnd, Session.threeTenths, Session.sevenTenths]
  · decide!
  · intro c hc
    simp only [Session.slowShield, List.mem_cons, List.mem_singleton, List.not_mem_nil,
      or_false] at hc
    rcases hc with rfl | rfl | rfl | rfl | rfl <;> norm_num
  · norm_num [elapsed, Session.slowShield]
  · norm_num [elapsed, Session.slowShield]
  · decide!

/-- C8, amended: for every sequence of `Player.update` calls with positive deltas.
When every delta is a multiple of `2 ^ -39` ms: after `applyPowerUp('speedBoost')`
the `speedBoost` entry is present, with 10000 ms minus the sum left, while the
deltas sum to less than 10000 ms, and is removed once they sum to 10000 ms or
more; after `applyPowerUp('shield')`, with no damage taken, the `shield` entry is
present, with 15000 ms minus the sum left, while the deltas sum to less than
15000 ms, so with 1 ms left when they sum to 14999 ms, and is removed once they
sum to 15000 ms or more.  For deltas of any kind the same holds with a margin of
`2 ^ -40` ms per call (the rounding of one subtraction): with `n` calls, the
`speedBoost` entry is present, with 10000 ms minus the sum left up to
`n * 2 ^ -40` ms, while the sum is below `10000 - n * 2 ^ -40` ms, and is removed
once the sum is at least `10000 + n * 2 ^ -40` ms; the `shield` entry is present
while the sum is below `15000 - n * 2 ^ -40` ms, so when the deltas of fewer than
`2 ^ 40` calls sum to 14999 ms, and is removed once the sum is at least
`15000 + n * 2 ^ -40` ms. -/
theorem powerUp_durations (p : Player) (calls : List UpdateCall)
    (hpos : ∀ c ∈ calls, 0 < c.deltaTime) :
    ((∀ c ∈ calls, ∃ m : ℕ, c.deltaTime = m / 2 ^ 39) →
      (elapsed calls < 10000 →
        ((p.applyPowerUp "speedBoost").updates calls).powerUps "speedBoost"
          = some (10000 - elapsed calls)) ∧
      (10000 ≤ elapsed calls →
        ((p.applyPowerUp "speedBoost").updates calls).powerUps "speedBoost" = none) ∧
      (elapsed calls < 15000 →
        ((p.applyPowerUp "shield").updates calls).powerUps "shield"
          = some (15000 - elapsed calls)) ∧
      (elapsed calls = 14999 →
        ((p.applyPowerUp "shield").updates calls).powerUps "shield" = some 1) ∧
      (15000 ≤ elapsed calls →
        ((p.applyPowerUp "shield").updates calls).powerUps "shield" = none)) ∧
    (elapsed calls + calls.length / 2 ^ 40 < 10000 →
      ∃ w, ((p.applyPowerUp "speedBoost").updates calls).powerUps "speedBoost" = some w ∧
        0 < w ∧ 10000 - elapsed calls - calls.length / 2 ^ 40 ≤ w ∧
        w ≤ 10000 - elapsed calls + calls.length / 2 ^ 40) ∧
    (10000 + calls.length / 2 ^ 40 ≤ elapsed calls →
      ((p.applyPowerUp "speedBoost").updates calls).powerUps "speedBoost" = none) ∧
    (elapsed calls + calls.length / 2 ^ 40 < 15000 →
      ∃ w, ((p.applyPowerUp "shield").updates calls).powerUps "shield" = some w ∧
        0 < w ∧ 15000 - elapsed calls - calls.length / 2 ^ 40 ≤ w ∧
        w ≤ 15000 - elapsed calls + calls.length / 2 ^ 40) ∧
    (elapsed calls = 14999 → calls.length < 2 ^ 40 →
      ∃ w, ((p.applyPowerUp "shield").updates calls).powerUps "shield" = some w ∧ 0 < w) ∧
    (15000 + calls.length / 2 ^ 40 ≤ elapsed calls →
      ((p.applyPowerUp "shield").updates calls).powerUps "shield" = none) := by
  have hspeed : ((p.applyPowerUp "speedBoost").updates calls).powerUps "speedBoost"
      = countDown 10000 (calls.map (fun c => c.deltaTime)) :=
    Player.updates_powerUps_some calls "speedBoost" (p.applyPowerUp "speedBoost") 10000
      (by rw [Player.applyPowerUp_powerUps _ _ _ (by decide)]; simp)
  have hshield : ((p.applyPowerUp "shield").updates calls).powerUps "shield"
      = countDown 15000 (calls.map (fun c => c.deltaTime)) :=
    Player.updates_powerUps_some calls "shield" (p.applyPowerUp "shield") 15000
      (by rw [Player.applyPowerUp_powerUps _ _ _ (by decide)]; simp)
  have hds : ∀ d ∈ calls.map (fun c => c.deltaTime), 0 ≤ d := by
    intro d hd
    obtain ⟨c, hc, rfl⟩ := List.mem_map.mp hd
    exact le_of_lt (hpos c hc)
  have hlen : ((calls.map (fun c => c.deltaTime)).length : ℚ) * pow2 (14 - 54)
      = (calls.length : ℚ) / 2 ^ 40 := by
    have : pow2 (14 - 54) = 1 / 2 ^ 40 := by rw [pow2_eq]; norm_num [zpow_neg]
    rw [this, mul_one_div, List.length_map]
  have hB1 : ((10000 : ℤ) : ℚ) < pow2 14 := by rw [pow2_eq]; norm_num
  have hB2 : ((15000 : ℤ) : ℚ) < pow2 14 := by rw [pow2_eq]; norm_num
  have hsum : (calls.map (fun c => c.deltaTime)).sum = elapsed calls := rfl
  -- the margin results, for a count-down from `t`, at most `B`
  have hin : ∀ (t : ℚ) (B : ℤ), (B : ℚ) < pow2 14 → 0 < t → t ≤ B →
      elapsed calls + calls.length / 2 ^ 40 < t →
      ∃ w, countDown t (calls.map (fun c => c.deltaTime)) = some w ∧ 0 < w ∧
        t - elapsed calls - calls.length / 2 ^ 40 ≤ w ∧
        w ≤ t - elapsed calls + calls.length / 2 ^ 40 := by
    intro t B hB ht0 ht hlt
    obtain ⟨w, hw, hlow, _⟩ := countDown_running 14 (by norm_num) (by norm_num) B hB
      (calls.map (fun c => c.deltaTime)) t ht hds (by rw [hlen, hsum]; exact hlt)
    obtain ⟨_, hup, _⟩ := countDown_left 14 (by norm_num) (by norm_num) B hB
      (calls.map (fun c => c.deltaTime)) t ht0 ht hds w hw
    rw [hlen, hsum] at hlow hup
    exact ⟨w, hw, by linarith, hlow, hup⟩
  have hout : ∀ (t : ℚ) (B : ℤ), (B : ℚ) < pow2 14 → 0 < t → t ≤ B →
      t + calls.length / 2 ^ 40 ≤ elapsed calls →
      countDown t (calls.map (fun c => c.deltaTime)) = none := by
    intro t B hB ht0 ht hle
    exact countDown_over 14 (by norm_num) (by norm_num) B hB
      (calls.map (fun c => c.deltaTime)) t ht0 ht hds (by rw [hlen, hsum]; exact hle)
  refine ⟨?_, ?_, ?_, ?_, ?_, ?_⟩
  · intro hgrid
    have hgrid2 : ∀ d : ℚ, d ∈ calls.map (fun c => c.deltaTime) →
        (0 ≤ d ∧ ∃ m : ℕ, d = (m : ℚ) / 2 ^ 39) := by
      intro d hd
      obtain ⟨c, hc, rfl⟩ := List.mem_map.mp hd
      exact ⟨le_of_lt (hpos c hc), hgrid c hc⟩
    have e1 := countDown_exact 39 (by norm_num) (calls.map (fun c => c.deltaTime)) 10000
      (by norm_num) (by norm_num) ⟨10000 * 2 ^ 39, by norm_num⟩ hgrid2
    have e2 := countDown_exact 39 (by norm_num) (calls.map (fun c => c.deltaTime)) 15000
      (by norm_num) (by norm_num) ⟨15000 * 2 ^ 39, by norm_num⟩ hgrid2
    rw [hsum] at e1 e2
    rw [hspeed, hshield, e1, e2]
    refine ⟨fun h => if_pos h, fun h => if_neg (not_lt.mpr h), fun h => if_pos h, ?_,
      fun h => if_neg (not_lt.mpr h)⟩
    intro h
    rw [h]
    norm_num
  · intro h
    rw [hspeed]
    exact hin 10000 10000 hB1 (by norm_num) (by norm_num) h
  · intro h
    rw [hspeed]
    exact hout 10000 10000 hB1 (by norm_num) (by norm_num) h
  · intro h
    rw [hshield]
    exact hin 15000 15000 hB2 (by norm_num) (by norm_num) h
  · intro h hn
    rw [hshield]
    have hlt : elapsed calls + calls.length / 2 ^ 40 < 15000 := by
      rw [h]
      have h1 : (calls.length : ℚ) < 2 ^ 40 := by exact_mod_cast hn
      have h2 : (calls.length : ℚ) / 2 ^ 40 < 1 := by
        rw [div_lt_one (by norm_num)]
        exact h1
      linarith
    obtain ⟨w, hw, hw0, _⟩ := hin 15000 15000 hB2 (by norm_num) (by norm_num) hlt
    exact ⟨w, hw, hw0⟩
  · intro h
    rw [hshield]
    exact hout 15000 15000 hB2 (by norm_num) (by norm_num) h

theorem powerUp_durations_witness :
    (∀ c ∈ ([⟨4000, 800, 100, 600⟩, ⟨6000, 800, 100, 600⟩] : List UpdateCall),
        0 < c.deltaTime) ∧
      (∀ c ∈ ([⟨4000, 800, 100, 600⟩, ⟨6000, 800, 100, 600⟩] : List UpdateCall),
        ∃ m : ℕ, c.deltaTime = m / 2 ^ 39) ∧
      10000 ≤ elapsed [⟨4000, 800, 100, 600⟩, ⟨6000, 800, 100, 600⟩] ∧
      ((Player.vulnerable.applyPowerUp "speedBoost").updates
        [⟨4000, 800, 100, 600⟩, ⟨6000, 800, 100, 600⟩]).powerUps "speedBoost" = none ∧
      ((Player.vulnerable.applyPowerUp "shield").updates
        [⟨4000, 800, 100, 600⟩, ⟨6000, 800, 100, 600⟩]).powerUps "shield" = some 5000 :=
  have hpos : ∀ c ∈ ([⟨4000, 800, 100, 600⟩, ⟨6000, 800, 100, 600⟩] : List UpdateCall),
      0 < c.deltaTime := by
    intro c hc
    simp only [List.mem_cons, List.mem_singleton, List.not_mem_nil, or_false] at hc
    rcases hc with rfl | rfl <;> norm_num
  have hgrid : ∀ c ∈ ([⟨4000, 800, 100, 600⟩, ⟨6000, 800, 100, 600⟩] : List UpdateCall),
      ∃ m : ℕ, c.deltaTime = m / 2 ^ 39 := by
    intro c hc
    simp only [List.mem_cons, List.mem_singleton, List.not_mem_nil, or_false] at hc
    rcases hc with rfl | rfl
    · exact ⟨4000 * 2 ^ 39, by norm_num⟩
    · exact ⟨6000 * 2 ^ 39, by norm_num⟩
  have hsum : 10000 ≤ elapsed [⟨4000, 800, 100, 600⟩, ⟨6000, 800, 100, 600⟩] := by
    norm_num [elapsed]
  have hsum2 : elapsed [⟨4000, 800, 100, 600⟩, ⟨6000, 800, 100, 600⟩] < 15000 := by
    norm_num [elapsed]
  ⟨hpos, hgrid, hsum,
    ((powerUp_durations Player.vulnerable [⟨4000, 800, 100, 600⟩, ⟨6000, 800, 100, 600⟩]
      hpos).1 hgrid).2.1 hsum,
    by
      rw [((powerUp_durations Player.vulnerable
        [⟨4000, 800, 100, 600⟩, ⟨6000, 800, 100, 600⟩] hpos).1 hgrid).2.2.1 hsum2]
      norm_num [elapsed]⟩

/-- C9, as stated, fails: `"warp"` is none of the five kinds, the player has no
entry for it, and after `applyPowerUp("warp")` the map holds the entry
`warp: 10000`. -/
theorem applyPowerUp_unknown_kind_changes_map :
    "warp" ∉ PowerUp.kinds ∧ Player.vulnerable.powerUps "warp" = none ∧
      (Player.vulnerable.applyPowerUp "warp").powerUps "warp" = some 10000 ∧
      Player.vulnerable.applyPowerUp "warp" ≠ Player.vulnerable := by
  have hentry : (Player.vulnerable.applyPowerUp "warp").powerUps "warp" = some 10000 := by
    rw [Player.applyPowerUp_powerUps _ _ _ (by decide)]; simp
  refine ⟨by decide, rfl, hentry, ?_⟩
  intro heq
  rw [heq] at hentry
  simp [Player.vulnerable, Player.new] at hentry

/-- C9, amended: for every kind that is not one of `multiShot`, `spreadShot`,
`shield`, `speedBoost`, `damageBoost`, `applyPowerUp(kind)` does not fail.  For the
kind `__proto__`, which the assignment of line 895 hands to the inherited setter
of the plain object, it leaves the player unchanged; for every other such kind it
sets the entry of `kind` in the power-up map to 10000 ms and leaves every other
entry and every other field of the player unchanged. -/
theorem applyPowerUp_unknown_kind (p : Player) (kind : String) (h : kind ∉ PowerUp.kinds) :
    (kind = "__proto__" → p.applyPowerUp kind = p) ∧
    (kind ≠ "__proto__" →
      p.applyPowerUp kind =
        { p with powerUps := fun key => if key = kind then some 10000 else p.powerUps key } ∧
      (p.applyPowerUp kind).powerUps kind = some 10000 ∧
      (∀ key, key ≠ kind → (p.applyPowerUp kind).powerUps key = p.powerUps key)) := by
  have hs : kind ≠ "shield" := by
    intro hk
    apply h
    simp [hk, PowerUp.kinds]
  refine ⟨fun hk => by simp [Player.applyPowerUp, hk], fun hk => ⟨?_, ?_, ?_⟩⟩
  · simp [Player.applyPowerUp, hs, hk]
  · rw [Player.applyPowerUp_powerUps _ _ _ hk]; simp [hs]
  · intro key hkey
    rw [Player.applyPowerUp_powerUps _ _ _ hk]; simp [hkey]

theorem applyPowerUp_unknown_kind_witness :
    "warp" ∉ PowerUp.kinds ∧ "__proto__" ∉ PowerUp.kinds ∧
      (Player.vulnerable.applyPowerUp "warp").powerUps "warp" = some 10000 ∧
      (Player.vulnerable.applyPowerUp "warp").powerUps "shield"
        = Player.vulnerable.powerUps "shield" ∧
      Player.vulnerable.applyPowerUp "__proto__" = Player.vulnerable :=
  ⟨by decide, by decide,
    ((applyPowerUp_unknown_kind Player.vulnerable "warp" (by decide)).2 (by decide)).2.1,
    ((applyPowerUp_unknown_kind Player.vulnerable "warp" (by decide)).2 (by decide)).2.2
      "shield" (by decide),
    (applyPowerUp_unknown_kind Player.vulnerable "__proto__" (by decide)).1 rfl⟩

/-- C10: `checkCollision(A, B) = checkCollision(B, A)` for any two circular
entities, where `checkCollision(A, B)` is true iff
`(Ax-Bx)^2 + (Ay-By)^2 < (Ar+Br)^2`. -/
theorem checkCollision_symmetric (A B : Circle) :
    checkCollision A B = checkCollision B A ∧
      (checkCollision A B = true ↔
        (A.x - B.x) ^ 2 + (A.y - B.y) ^ 2 < (A.radius + B.radius) ^ 2) := by
  have key : ∀ C D : Circle, checkCollision C D = true ↔
      (C.x - D.x) ^ 2 + (C.y - D.y) ^ 2 < (C.radius + D.radius) ^ 2 := by
    intro C D
    simp only [checkCollision, decide_eq_true_eq, pow_two]
  refine ⟨?_, key A B⟩
  rw [Bool.eq_iff_iff, key A B, key B A]
  have h1 : (A.x - B.x) ^ 2 + (A.y - B.y) ^ 2 = (B.x - A.x) ^ 2 + (B.y - A.y) ^ 2 := by ring
  have h2 : (A.radius + B.radius) ^ 2 = (B.radius + A.radius) ^ 2 := by ring
  rw [h1, h2]

/-- C11: the spawn interval computed in `spawnEnemies` is
`max(1200 - 50*wave, 400)` for every wave (the spawn timer is reset exactly when
it exceeds that interval): it is 1150 at wave 1, 400 at wave 16, exactly 400 for
every wave >= 16, and never below 400. -/
theorem spawn_interval (E : Env) (dt : ℚ) (g : StellarDefenderGame) :
    (spawnEnemies E dt g).enemySpawnTimer =
        (if g.enemySpawnTimer + dt > spawnRate g.wave then 0 else g.enemySpawnTimer + dt) ∧
      (∀ wave : ℤ, spawnRate wave = max (1200 - 50 * (wave : ℚ)) 400) ∧
      spawnRate 1 = 1150 ∧ spawnRate 16 = 400 ∧
      (∀ wave : ℤ, 16 ≤ wave → spawnRate wave = 400) ∧
      (∀ wave : ℤ, 400 ≤ spawnRate wave) := by
  refine ⟨spawnEnemies_timer E dt g, ?_, ?_, ?_, ?_, ?_⟩
  · intro wave
    unfold spawnRate
    rw [mul_comm]
  · norm_num [spawnRate]
  · norm_num [spawnRate]
  · intro wave h
    unfold spawnRate
    apply max_eq_right
    have : (16 : ℚ) ≤ (wave : ℚ) := by exact_mod_cast h
    linarith
  · intro wave
    exact le_max_right _ _

theorem spawn_interval_witness :
    (16 : ℤ) ≤ 40 ∧ spawnRate 40 = 400 :=
  ⟨by decide, (spawn_interval (Session.env 1) 50 Session.arena).2.2.2.2.1 40 (by decide)⟩

/-- C12: in one `checkCollisions` pass the enemies that player projectiles bring
to a health `<= 0` are spliced out one by one (list `killed`, each enemy as it was
when the last projectile hit it); the score increases by exactly 3 for each of
them, whatever its `points`, and one label with the text `+3` is appended at its
position; nothing else changes the score.  Over one `update` step the score
therefore grows by 3 times the number of enemies destroyed by projectiles, and
never decreases.  And every such hit does score: when the player projectile `p` of
index `i` is read and the overlapping enemy of the highest index is `e`, the inner
loop leaves score and labels as they were if `e` survives the damage of `p`, and
otherwise adds exactly 3 to the score, appends the label `+3` at the position of
`e` and splices `e` out; when `p` is the projectile read first, the whole pass
counts that kill. -/
theorem score_counts_projectile_kills (E : Env) (dt : ℚ) (g : StellarDefenderGame) :
    (∃ killed : List Enemy,
      (checkCollisions E g).score = g.score + 3 * (killed.length : ℤ) ∧
      (checkCollisions E g).scoreTexts = g.scoreTexts ++ killed.map killLabel ∧
      (projectileLoop E g.projectiles.length g).enemies.length + killed.length
        = g.enemies.length ∧
      (∀ e ∈ killed, (∃ e0 ∈ g.enemies, e.damagedFrom e0) ∧
        ∃ p ∈ g.projectiles, p.isPlayerProjectile = true ∧
          checkCollision p.circle e.circle = true ∧ e.health - p.damage ≤ 0) ∧
      (∀ e ∈ (projectileLoop E g.projectiles.length g).enemies,
        0 < e.health ∨ e ∈ g.enemies)) ∧
    (∀ e : Enemy, (killLabel e).text = "+3" ∧ (killLabel e).x = e.x ∧ (killLabel e).y = e.y) ∧
    (∃ kills : Nat,
      (update E dt g).score = g.score + 3 * (kills : ℤ) ∧
      (projectileLoop E (beforeCollisions E dt g).projectiles.length
          (beforeCollisions E dt g)).enemies.length + kills
        = (beforeCollisions E dt g).enemies.length) ∧
    g.score ≤ (update E dt g).score ∧
    (∀ (i j : Nat) (p : Projectile) (e : Enemy), g.projectiles[i]? = some p →
      p.isPlayerProjectile = true → g.enemies[j]? = some e →
      checkCollision p.circle e.circle = true →
      (∀ k e', j < k → g.enemies[k]? = some e' → checkCollision p.circle e'.circle = false) →
      projectileLoop E (i + 1) g = projectileLoop E i (hitEnemies E i p g.enemies.length g) ∧
      (0 < e.health - p.damage →
        (hitEnemies E i p g.enemies.length g).score = g.score ∧
        (hitEnemies E i p g.enemies.length g).scoreTexts = g.scoreTexts) ∧
      (e.health - p.damage ≤ 0 →
        (hitEnemies E i p g.enemies.length g).score = g.score + 3 ∧
        (hitEnemies E i p g.enemies.length g).scoreTexts = g.scoreTexts ++ [killLabel e] ∧
        (hitEnemies E i p g.enemies.length g).enemies = g.enemies.eraseIdx j ∧
        (i + 1 = g.projectiles.length →
          ∃ others : List Enemy,
            (checkCollisions E g).score = g.score + 3 * (1 + (others.length : ℤ)) ∧
            (checkCollisions E g).scoreTexts
              = g.scoreTexts ++ killLabel e :: others.map killLabel))) := by
  obtain ⟨killed, t, h1, h2, _, _⟩ := checkCollisions_tally E g
  obtain ⟨killed', t', h1', _, _, _⟩ := checkCollisions_tally E (beforeCollisions E dt g)
  have hscore : (update E dt g).score = g.score + 3 * (killed'.length : ℤ) := by
    rw [update_score, h1', beforeCollisions_score]
  refine ⟨⟨killed, h1, h2, t.count, t.cause, t.survivors⟩, fun e => ⟨rfl, rfl, rfl⟩,
    ⟨killed'.length, hscore, t'.count⟩, ?_, ?_⟩
  · rw [hscore]
    have : (0 : ℤ) ≤ (killed'.length : ℤ) := Int.natCast_nonneg _
    linarith
  · intro i j p e hp hplayer he hc hhigh
    have hres := hitEnemies_resolves E i p g j e he hc hhigh
    refine ⟨?_, fun h => (hres.survived h).2, fun h => ?_⟩
    · conv_lhs => unfold projectileLoop
      simp only [hp, hplayer, if_true]
    · obtain ⟨a, b, c⟩ := hres.destroyed h
      exact ⟨b, c, a, fun hlast =>
        checkCollisions_first_kill E g i p j e hp hplayer hlast hres h⟩

theorem score_counts_projectile_kills_witness :
    Session.finisher.projectiles[0]? = some Session.crossShot ∧
      Session.finisher.enemies[0]? = some Session.crackedRock ∧
      checkCollision Session.crossShot.circle Session.crackedRock.circle = true ∧
      Session.crackedRock.health - Session.crossShot.damage ≤ 0 ∧
      (hitEnemies (Session.env 1) 0 Session.crossShot Session.finisher.enemies.length
          Session.finisher).score = Session.finisher.score + 3 ∧
      (hitEnemies (Session.env 1) 0 Session.crossShot Session.finisher.enemies.length
          Session.finisher).scoreTexts
        = Session.finisher.scoreTexts ++ [killLabel Session.crackedRock] ∧
      (checkCollisions (Session.env 1) Session.finisher).score = 3 ∧
      (checkCollisions (Session.env 1) Session.finisher).enemies.length = 0 :=
  have hc : checkCollision Session.crossShot.circle Session.crackedRock.circle = true := by
    decide!
  have hd : Session.crackedRock.health - Session.crossShot.damage ≤ 0 := by decide!
  have hhigh : ∀ k e', 0 < k → Session.finisher.enemies[k]? = some e' →
      checkCollision Session.crossShot.circle e'.circle = false := by
    intro k e' hk he'
    change ([Session.crackedRock] : List Enemy)[k]? = some e' at he'
    cases k with
    | zero => exact absurd hk (Nat.lt_irrefl 0)
    | succ k => simp at he'
  ⟨rfl, rfl, hc, hd,
    (((score_counts_projectile_kills (Session.env 1) 50 Session.finisher).2.2.2.2 0 0
      Session.crossShot Session.crackedRock rfl rfl rfl hc hhigh).2.2 hd).1,
    (((score_counts_projectile_kills (Session.env 1) 50 Session.finisher).2.2.2.2 0 0
      Session.crossShot Session.crackedRock rfl rfl rfl hc hhigh).2.2 hd).2.1,
    by decide!, by decide!⟩

/-- C13: in the `checkCollisions` pass the player-fired projectile `p` of index `i`
is handled by one run of the inner loop.  If `p` overlaps no enemy, that run
changes nothing, and `p` is still in the projectile list after the pass.  If `p`
overlaps an enemy, the run splices `p` out of the projectile list and changes the
enemy list at one index only: that enemy has its health lowered or is spliced out;
so `p` reduces the health of at most one enemy. -/
theorem player_projectile_hits_one_enemy (E : Env) (g : StellarDefenderGame) (i : Nat)
    (p : Projectile) (hp : g.projectiles[i]? = some p)
    (hplayer : p.isPlayerProjectile = true) :
    projectileLoop E (i + 1) g = projectileLoop E i (hitEnemies E i p g.enemies.length g) ∧
    ((∀ e ∈ g.enemies, checkCollision p.circle e.circle = false) →
      hitEnemies E i p g.enemies.length g = g ∧ p ∈ (checkCollisions E g).projectiles) ∧
    ((∃ e ∈ g.enemies, checkCollision p.circle e.circle = true) →
      ∃ j e, g.enemies[j]? = some e ∧ checkCollision p.circle e.circle = true ∧
        (hitEnemies E i p g.enemies.length g).projectiles = g.projectiles.eraseIdx i ∧
        (hitEnemies E i p g.enemies.length g).projectiles.length + 1
          = g.projectiles.length ∧
        ((hitEnemies E i p g.enemies.length g).enemies
            = g.enemies.set j { e with health := e.health - p.damage } ∨
          (hitEnemies E i p g.enemies.length g).enemies = g.enemies.eraseIdx j)) := by
  have hi : i < g.projectiles.length := (List.getElem?_eq_some_iff.mp hp).1
  refine ⟨?_, ?_, ?_⟩
  · conv_lhs => unfold projectileLoop
    simp only [hp, hplayer, if_true]
  · intro hfree
    constructor
    · rcases hitEnemies_cases E i p g.enemies.length g with
        ⟨heq, _⟩ | ⟨j, e, _, he, hc, _, _⟩
      · exact heq
      · rw [hfree e (List.getElem?_mem he)] at hc
        exact absurd hc Bool.false_ne_true
    · obtain ⟨_, _, _, _, hproj, _⟩ := checkCollisions_tally E g
      rw [hproj]
      exact projectileLoop_keeps E p hplayer g.projectiles.length g (List.getElem?_mem hp) hfree
  · rintro ⟨e0, he0, hc0⟩
    rcases hitEnemies_cases E i p g.enemies.length g with
      ⟨_, hno⟩ | ⟨j, e, _, he, hc, _, hres⟩
    · obtain ⟨k, hk⟩ := List.mem_iff_getElem?.mp he0
      have hlt : k < g.enemies.length := (List.getElem?_eq_some_iff.mp hk).1
      rw [hno k hlt e0 hk] at hc0
      exact absurd hc0 Bool.false_ne_true
    · refine ⟨j, e, he, hc, hres.projectiles, ?_, ?_⟩
      · rw [hres.projectiles, List.length_eraseIdx_of_lt hi]
        omega
      · by_cases hd : e.health - p.damage ≤ 0
        · exact Or.inr (hres.destroyed hd).1
        · exact Or.inl (hres.survived (not_le.mp hd)).1

/-- C14: after every `update` step (the filter of the enemies, the collision
resolution and the spawning done), the enemy collection contains no enemy with
health `<= 0`. -/
theorem no_dead_enemy_after_update (E : Env) (dt : ℚ) (g : StellarDefenderGame) :
    (∀ e ∈ (update E dt g).enemies, 0 < e.health) ∧
      (update E dt g).enemies.filter (fun e => decide (e.health ≤ 0)) = [] := by
  have h : ∀ e ∈ (update E dt g).enemies, 0 < e.health := by
    rw [update_eq]
    show ∀ e ∈ (updateWave dt _).enemies, 0 < e.health
    rw [updateWave_enemies]
    apply spawnEnemies_alive
    apply checkCollisions_alive
    exact beforeCollisions_alive E dt g
  refine ⟨h, ?_⟩
  rw [List.filter_eq_nil_iff]
  intro e he
  have := h e he
  simp only [decide_eq_true_eq, not_le]
  exact this

theorem player_projectile_hits_one_enemy_witness :
    Session.range.projectiles[1]? = some Session.shot ∧
      Session.shot.isPlayerProjectile = true ∧
      projectileLoop (Session.env 1) 2 Session.range =
        projectileLoop (Session.env 1) 1
          (hitEnemies (Session.env 1) 1 Session.shot Session.range.enemies.length
            Session.range) :=
  ⟨rfl, rfl,
    (player_projectile_hits_one_enemy (Session.env 1) Session.range 1 Session.shot rfl rfl).1⟩

/-- C15, as stated, fails: with the last shot fired at time 1000 and the current
time 1200, exactly 200 ms have elapsed and `canFire()` is false. -/
theorem canFire_false_at_200ms :
    (1200 : ℚ) - ({ Player.vulnerable with lastFire := 1000 } : Player).lastFire ≥ 200 ∧
      ({ Player.vulnerable with lastFire := 1000 } : Player).canFire 1200 = false := by
  constructor
  · norm_num
  · norm_num [Player.canFire, Player.fireRate]

/-- C15, amended: for every current time `now` and last-fire timestamp,
`canFire()` is true iff `now - lastFire > 200` (the fire interval); it is false
when exactly 200 ms have elapsed since the last shot. -/
theorem canFire_iff (p : Player) (now : ℚ) :
    (p.canFire now = true ↔ now - p.lastFire > 200) ∧ Player.fireRate = 200 ∧
      (now - p.lastFire = 200 → p.canFire now = false) := by
  refine ⟨?_, rfl, ?_⟩
  · simp [Player.canFire, Player.fireRate]
  · intro h
    simp [Player.canFire, Player.fireRate, h]

theorem canFire_iff_witness :
    (1200 : ℚ) - ({ Player.vulnerable with lastFire := 1000 } : Player).lastFire = 200 ∧
      ({ Player.vulnerable with lastFire := 1000 } : Player).canFire 1200 = false :=
  have h : (1200 : ℚ) - ({ Player.vulnerable with lastFire := 1000 } : Player).lastFire = 200 := by
    norm_num
  ⟨h, (canFire_iff { Player.vulnerable with lastFire := 1000 } 1200).2.2 h⟩

/-- C16: for a player at `(x, y)`, `fire()` returns player projectiles only, all
leaving from height `y - 20` with vertical velocity -500: with `multiShot` active
(whether or not `spreadShot` is) exactly 3, at `x - 10`, `x`, `x + 10`, with no
lateral velocity; else with `spreadShot` active exactly 3, all at `x`, with
lateral velocities -100, 0, 100; else exactly 1, at `x`, with no lateral
velocity.  Every projectile has damage 37.5 if `damageBoost` is active and 25
otherwise. -/
theorem fire_patterns (p : Player) (now : ℚ) :
    (truthy (p.powerUps "multiShot") = true →
      (p.fire now).2.map (fun q => (q.x, q.y, q.vx, q.vy)) =
        [(p.x - 10, p.y - 20, 0, -500), (p.x, p.y - 20, 0, -500),
          (p.x + 10, p.y - 20, 0, -500)]) ∧
    (truthy (p.powerUps "multiShot") = false → truthy (p.powerUps "spreadShot") = true →
      (p.fire now).2.map (fun q => (q.x, q.y, q.vx, q.vy)) =
        [(p.x, p.y - 20, -100, -500), (p.x, p.y - 20, 0, -500),
          (p.x, p.y - 20, 100, -500)]) ∧
    (truthy (p.powerUps "multiShot") = false → truthy (p.powerUps "spreadShot") = false →
      (p.fire now).2.map (fun q => (q.x, q.y, q.vx, q.vy)) = [(p.x, p.y - 20, 0, -500)]) ∧
    (∀ q ∈ (p.fire now).2, q.isPlayerProjectile = true ∧
      (truthy (p.powerUps "damageBoost") = true → q.damage = 75 / 2) ∧
      (truthy (p.powerUps "damageBoost") = false → q.damage = 25)) := by
  refine ⟨?_, ?_, ?_, ?_⟩
  · intro h
    simp [Player.fire, h, Projectile.new]
  · intro h1 h2
    simp [Player.fire, h1, h2, Projectile.new]
  · intro h1 h2
    simp [Player.fire, h1, h2, Projectile.new]
  · intro q hq
    have hd : q.isPlayerProjectile = true ∧
        q.damage = Player.damage *
          (if truthy (p.powerUps "damageBoost") = true then 1.5 else 1) := by
      by_cases h1 : truthy (p.powerUps "multiShot") = true
      · simp only [Player.fire, h1, if_true, List.mem_cons, List.mem_singleton,
          List.not_mem_nil, or_false] at hq
        rcases hq with rfl | rfl | rfl <;> exact ⟨rfl, rfl⟩
      · have h1' : truthy (p.powerUps "multiShot") = false := by simpa using h1
        by_cases h2 : truthy (p.powerUps "spreadShot") = true
        · simp only [Player.fire, h1', h2, Bool.false_eq_true, if_true, if_false,
            List.mem_cons, List.mem_singleton, List.not_mem_nil, or_false] at hq
          rcases hq with rfl | rfl | rfl <;> exact ⟨rfl, rfl⟩
        · have h2' : truthy (p.powerUps "spreadShot") = false := by simpa using h2
          simp only [Player.fire, h1', h2', Bool.false_eq_true, if_false,
            List.mem_singleton] at hq
          rw [hq]
          exact ⟨rfl, rfl⟩
    refine ⟨hd.1, ?_, ?_⟩
    · intro hb
      rw [hd.2, hb]
      norm_num [Player.damage]
    · intro hb
      rw [hd.2, hb]
      norm_num [Player.damage]

theorem fire_patterns_witness :
    truthy (((Player.vulnerable.applyPowerUp "spreadShot").applyPowerUp
        "multiShot").powerUps "multiShot") = true ∧
      ((((Player.vulnerable.applyPowerUp "spreadShot").applyPowerUp "multiShot").fire
          0).2.map (fun q => (q.x, q.y, q.vx, q.vy))) =
        [(((Player.vulnerable.applyPowerUp "spreadShot").applyPowerUp "multiShot").x - 10,
            ((Player.vulnerable.applyPowerUp "spreadShot").applyPowerUp "multiShot").y - 20,
            0, -500),
          (((Player.vulnerable.applyPowerUp "spreadShot").applyPowerUp "multiShot").x,
            ((Player.vulnerable.applyPowerUp "spreadShot").applyPowerUp "multiShot").y - 20,
            0, -500),
          (((Player.vulnerable.applyPowerUp "spreadShot").applyPowerUp "multiShot").x + 10,
            ((Player.vulnerable.applyPowerUp "spreadShot").applyPowerUp "multiShot").y - 20,
            0, -500)] :=
  have h : truthy (((Player.vulnerable.applyPowerUp "spreadShot").applyPowerUp
      "multiShot").powerUps "multiShot") = true := by decide!
  ⟨h, (fire_patterns ((Player.vulnerable.applyPowerUp "spreadShot").applyPowerUp "multiShot")
    0).1 h⟩

/-- C17, as stated, fails: the player stands at `(0, 0)` without speed boost, the
target is `(6, 0)`, at distance 6, and `dt` is 50.  `moveTowards` moves the player
by 17.5 pixels, to `(17.5, 0)`: the displacement is longer than the distance to
the target and the player ends up past the target. -/
theorem moveTowards_overshoots :
    Session.aimEnv.sqrt ((6 - Player.vulnerable.x) * (6 - Player.vulnerable.x) +
        (0 - Player.vulnerable.y) * (0 - Player.vulnerable.y)) = 6 ∧
      (Player.vulnerable.moveTowards Session.aimEnv 6 0 50).x = 35 / 2 ∧
      (Player.vulnerable.moveTowards Session.aimEnv 6 0 50).y = 0 ∧
      6 < (Player.vulnerable.moveTowards Session.aimEnv 6 0 50).x ∧
      ((Player.vulnerable.moveTowards Session.aimEnv 6 0 50).x - Player.vulnerable.x) ^ 2 +
          ((Player.vulnerable.moveTowards Session.aimEnv 6 0 50).y - Player.vulnerable.y) ^ 2
        > 6 ^ 2 := by
  decide!

/-- C17, amended: with `D` the distance to the target, as `Math.sqrt` returns it,
`moveTowards` is a no-op when `D <= 5`; otherwise it displaces the player along
the vector to the target by `speed * (1.5 if speedBoost is active, else 1) * dt /
1000` pixels, whatever the distance: the step is 350 or 525 pixels per second
times `dt`, so between 0 and 26.25 pixels for `0 <= dt <= 50`, and when `D` is the
exact distance the displacement has exactly that length. -/
theorem moveTowards_step (E : Env) (p : Player) (tx ty dt D : ℚ)
    (hD : D = E.sqrt ((tx - p.x) * (tx - p.x) + (ty - p.y) * (ty - p.y))) :
    (D ≤ 5 → p.moveTowards E tx ty dt = p) ∧
    (5 < D →
      (p.moveTowards E tx ty dt).x = p.x + (tx - p.x) / D * (p.currentSpeed * dt / 1000) ∧
      (p.moveTowards E tx ty dt).y = p.y + (ty - p.y) / D * (p.currentSpeed * dt / 1000)) ∧
    (p.currentSpeed = 350 ∨ p.currentSpeed = 525) ∧
    (0 ≤ dt → dt ≤ 50 →
      0 ≤ p.currentSpeed * dt / 1000 ∧ p.currentSpeed * dt / 1000 ≤ 105 / 4) ∧
    (5 < D → D * D = (tx - p.x) * (tx - p.x) + (ty - p.y) * (ty - p.y) →
      ((p.moveTowards E tx ty dt).x - p.x) ^ 2 + ((p.moveTowards E tx ty dt).y - p.y) ^ 2
        = (p.currentSpeed * dt / 1000) ^ 2) := by
  subst hD
  have hfar : 5 < E.sqrt ((tx - p.x) * (tx - p.x) + (ty - p.y) * (ty - p.y)) →
      (p.moveTowards E tx ty dt).x = p.x + (tx - p.x) /
          E.sqrt ((tx - p.x) * (tx - p.x) + (ty - p.y) * (ty - p.y)) *
          (p.currentSpeed * dt / 1000) ∧
      (p.moveTowards E tx ty dt).y = p.y + (ty - p.y) /
          E.sqrt ((tx - p.x) * (tx - p.x) + (ty - p.y) * (ty - p.y)) *
          (p.currentSpeed * dt / 1000) := by
    intro h
    unfold Player.moveTowards
    simp only []
    rw [if_pos h]
    exact ⟨rfl, rfl⟩
  refine ⟨?_, hfar, p.currentSpeed_cases, ?_, ?_⟩
  · intro h
    unfold Player.moveTowards
    simp only []
    rw [if_neg (not_lt.mpr h)]
  · intro h0 h50
    rcases p.currentSpeed_cases with hs | hs <;> rw [hs] <;> constructor <;> linarith
  · intro h hexact
    obtain ⟨hx, hy⟩ := hfar h
    rw [hx, hy]
    generalize E.sqrt ((tx - p.x) * (tx - p.x) + (ty - p.y) * (ty - p.y)) = D at h hexact ⊢
    have hne : D ≠ 0 := by linarith
    have : (p.x + (tx - p.x) / D * (p.currentSpeed * dt / 1000) - p.x) ^ 2 +
        (p.y + (ty - p.y) / D * (p.currentSpeed * dt / 1000) - p.y) ^ 2 =
        ((tx - p.x) * (tx - p.x) + (ty - p.y) * (ty - p.y)) / (D * D) *
          (p.currentSpeed * dt / 1000) ^ 2 := by
      field_simp
      ring
    rw [this, ← hexact, div_self (mul_ne_zero hne hne), one_mul]

theorem moveTowards_step_witness :
    (6 : ℚ) = Session.aimEnv.sqrt ((6 - Player.vulnerable.x) * (6 - Player.vulnerable.x) +
        (0 - Player.vulnerable.y) * (0 - Player.vulnerable.y)) ∧
      (Player.vulnerable.moveTowards Session.aimEnv 6 0 50).x =
        Player.vulnerable.x + (6 - Player.vulnerable.x) / 6 *
          (Player.vulnerable.currentSpeed * 50 / 1000) :=
  have h : (6 : ℚ) = Session.aimEnv.sqrt ((6 - Player.vulnerable.x) * (6 - Player.vulnerable.x) +
      (0 - Player.vulnerable.y) * (0 - Player.vulnerable.y)) := by decide!
  ⟨h, ((moveTowards_step Session.aimEnv Player.vulnerable 6 0 50 6 h).2.1 (by norm_num)).1⟩

/-- C18: for every player position and every bounds with `width >= 2 * radius` and
`bottom - top >= 2 * radius`, after `Player.update(dt, width, top, bottom)` the
position satisfies `radius <= x <= width - radius` and
`top + radius <= y <= bottom - radius`, and a coordinate that was already in its
interval is left unchanged. -/
theorem update_clamps_position (p : Player) (dt width top bottom : ℚ)
    (hw : 2 * Player.radius ≤ width) (hh : 2 * Player.radius ≤ bottom - top) :
    (Player.radius ≤ (p.update dt width top bottom).x ∧
      (p.update dt width top bottom).x ≤ width - Player.radius ∧
      top + Player.radius ≤ (p.update dt width top bottom).y ∧
      (p.update dt width top bottom).y ≤ bottom - Player.radius) ∧
    (Player.radius ≤ p.x → p.x ≤ width - Player.radius →
      (p.update dt width top bottom).x = p.x) ∧
    (top + Player.radius ≤ p.y → p.y ≤ bottom - Player.radius →
      (p.update dt width top bottom).y = p.y) := by
  rw [Player.update_x, Player.update_y]
  refine ⟨⟨le_max_left _ _, ?_, le_max_left _ _, ?_⟩, ?_, ?_⟩
  · apply max_le
    · linarith
    · exact min_le_right _ _
  · apply max_le
    · linarith
    · exact min_le_right _ _
  · intro h1 h2
    rw [min_eq_left h2, max_eq_right h1]
  · intro h1 h2
    rw [min_eq_left h2, max_eq_right h1]

theorem update_clamps_position_witness :
    2 * Player.radius ≤ (800 : ℚ) ∧ 2 * Player.radius ≤ (600 : ℚ) - 100 ∧
      ((Player.new 900 20).update 50 800 100 600).x ≤ 800 - Player.radius ∧
      100 + Player.radius ≤ ((Player.new 900 20).update 50 800 100 600).y :=
  have hw : 2 * Player.radius ≤ (800 : ℚ) := by norm_num [Player.radius]
  have hh : 2 * Player.radius ≤ (600 : ℚ) - 100 := by norm_num [Player.radius]
  ⟨hw, hh, (update_clamps_position (Player.new 900 20) 50 800 100 600 hw hh).1.2.1,
    (update_clamps_position (Player.new 900 20) 50 800 100 600 hw hh).1.2.2.1⟩

/-- C19: while the game runs, `gameLoop` passes the delta `frameDelta` to `update`.
For a frame whose timestamp is not earlier than the previous one, that delta lies
in `[0, 50]`; it is the raw timestamp difference when that is at most 50 ms, and
the nominal 16.67 ms when the raw difference exceeds 50 ms or is not a number. -/
theorem gameLoop_delta (E : Env) (t : Option ℚ) (g : StellarDefenderGame)
    (hrun : g.isRunning = true) (hpause : g.isPaused = false) :
    gameLoop E t g =
        { update E (frameDelta t g.lastTime) { g with lastTime := t } with
          frameRequests := (update E (frameDelta t g.lastTime)
            { g with lastTime := t }).frameRequests + 1 } ∧
      (∀ c l : ℚ, l ≤ c →
        0 ≤ frameDelta (some c) (some l) ∧ frameDelta (some c) (some l) ≤ 50) ∧
      (∀ c l : ℚ, c - l ≤ 50 → frameDelta (some c) (some l) = c - l) ∧
      (∀ c l : ℚ, 50 < c - l → frameDelta (some c) (some l) = 16.67) ∧
      (∀ l : Option ℚ, frameDelta none l = 16.67) ∧
      (∀ c : Option ℚ, frameDelta c none = 16.67) := by
  refine ⟨gameLoop_running E t g hrun hpause, ?_, ?_, ?_, ?_, ?_⟩
  · intro c l h
    unfold frameDelta
    simp only []
    split_ifs with h1
    · constructor <;> norm_num
    · constructor <;> linarith
  · intro c l h
    unfold frameDelta
    simp only [gt_iff_lt, not_lt.mpr h, if_false]
  · intro c l h
    unfold frameDelta
    simp only [gt_iff_lt, h, if_true]
  · intro l
    rfl
  · intro c
    cases c <;> rfl

theorem gameLoop_delta_witness :
    Session.arena.isRunning = true ∧ Session.arena.isPaused = false ∧
      frameDelta (some 1040) (some 1000) = 1040 - 1000 ∧
      frameDelta (some 9000) (some 1000) = 16.67 :=
  ⟨rfl, rfl,
    (gameLoop_delta (Session.env 1) (some 1040) Session.arena rfl rfl).2.2.1 1040 1000
      (by norm_num),
    (gameLoop_delta (Session.env 1) (some 1040) Session.arena rfl rfl).2.2.2.1 9000 1000
      (by norm_num)⟩

/-- C20: whatever the state before the call, `start()` sets the score to 0, the
lives to 3 and the wave to 1, empties the enemy, projectile, particle, power-up
and score-label collections, sets `isRunning` true and `isPaused` false, and
respawns the player with health 100, `isInvincible` true and `invincibleTimer`
3000. -/
theorem start_resets (E : Env) (g : StellarDefenderGame) :
    (g.start E).score = 0 ∧ (g.start E).lives = 3 ∧ (g.start E).wave = 1 ∧
      (g.start E).enemies = [] ∧ (g.start E).projectiles = [] ∧
      (g.start E).particles = [] ∧ (g.start E).powerUps = [] ∧
      (g.start E).scoreTexts = [] ∧
      (g.start E).isRunning = true ∧ (g.start E).isPaused = false ∧
      (g.start E).player.health = 100 ∧ (g.start E).player.isInvincible = true ∧
      (g.start E).player.invincibleTimer = 3000 := by
  simp [start, Player.spawn, Player.maxHealth]

/-- C21, as stated, fails: the player projectile `crossShot` overlaps both meteors
of `crossfire`, `leftRock` at index 0 and `rightRock` at index 1.  After
`checkCollisions` the meteor of index 0 still has its health of 50, and the one
of index 1 is the one damaged, down to 25. -/
theorem lowest_index_enemy_not_hit :
    Session.crossfire.projectiles = [Session.crossShot] ∧
      Session.crossfire.enemies = [Session.leftRock, Session.rightRock] ∧
      Session.crossShot.isPlayerProjectile = true ∧
      checkCollision Session.crossShot.circle Session.leftRock.circle = true ∧
      checkCollision Session.crossShot.circle Session.rightRock.circle = true ∧
      Session.crossfire.enemies.map (fun e => (e.x, e.y, e.health))
        = [(200, 100, 50), (210, 100, 50)] ∧
      (checkCollisions (Session.env 1) Session.crossfire).enemies.map
          (fun e => (e.x, e.y, e.health))
        = [(200, 100, 50), (210, 100, 25)] ∧
      (checkCollisions (Session.env 1) Session.crossfire).projectiles.length = 0 := by
  refine ⟨rfl, rfl, rfl, ?_, ?_, ?_, ?_, ?_⟩ <;> decide!

/-- C21, amended: when the player-fired projectile `p` of index `i` overlaps one
or more enemies, the inner loop of `checkCollisions` hits the overlapping enemy
that comes last in the storage order of the enemies (highest index `j`): no enemy
of a higher index overlaps `p`; that enemy has its health lowered by the damage of
`p` when the health stays positive and is spliced out otherwise; the enemies of a
lower index, overlapping or not, are left as they were, at their index. -/
theorem player_projectile_hits_last_overlapping_enemy (E : Env) (g : StellarDefenderGame)
    (i : Nat) (p : Projectile) (hp : g.projectiles[i]? = some p)
    (hplayer : p.isPlayerProjectile = true)
    (hover : ∃ e ∈ g.enemies, checkCollision p.circle e.circle = true) :
    projectileLoop E (i + 1) g = projectileLoop E i (hitEnemies E i p g.enemies.length g) ∧
    ∃ j e, g.enemies[j]? = some e ∧ checkCollision p.circle e.circle = true ∧
      (∀ k e', j < k → g.enemies[k]? = some e' → checkCollision p.circle e'.circle = false) ∧
      (0 < e.health - p.damage →
        (hitEnemies E i p g.enemies.length g).enemies
          = g.enemies.set j { e with health := e.health - p.damage }) ∧
      (e.health - p.damage ≤ 0 →
        (hitEnemies E i p g.enemies.length g).enemies = g.enemies.eraseIdx j) ∧
      (∀ k, k < j → (hitEnemies E i p g.enemies.length g).enemies[k]? = g.enemies[k]?) := by
  refine ⟨?_, ?_⟩
  · conv_lhs => unfold projectileLoop
    simp only [hp, hplayer, if_true]
  · obtain ⟨e0, he0, hc0⟩ := hover
    rcases hitEnemies_cases E i p g.enemies.length g with
      ⟨_, hno⟩ | ⟨j, e, _, he, hc, hlast, hres⟩
    · obtain ⟨k, hk⟩ := List.mem_iff_getElem?.mp he0
      have hlt : k < g.enemies.length := (List.getElem?_eq_some_iff.mp hk).1
      rw [hno k hlt e0 hk] at hc0
      exact absurd hc0 Bool.false_ne_true
    · refine ⟨j, e, he, hc, ?_, fun h => (hres.survived h).1, fun h => (hres.destroyed h).1, ?_⟩
      · intro k e' hjk hk
        exact hlast k hjk (List.getElem?_eq_some_iff.mp hk).1 e' hk
      · intro k hk
        by_cases hd : e.health - p.damage ≤ 0
        · rw [(hres.destroyed hd).1, List.getElem?_eraseIdx_of_lt _ _ _ hk]
        · rw [(hres.survived (not_le.mp hd)).1, List.getElem?_set_ne (Nat.ne_of_gt hk)]

theorem player_projectile_hits_last_overlapping_enemy_witness :
    Session.crossfire.projectiles[0]? = some Session.crossShot ∧
      Session.crossShot.isPlayerProjectile = true ∧
      (∃ e ∈ Session.crossfire.enemies,
        checkCollision Session.crossShot.circle e.circle = true) ∧
      projectileLoop (Session.env 1) 1 Session.crossfire =
        projectileLoop (Session.env 1) 0
          (hitEnemies (Session.env 1) 0 Session.crossShot Session.crossfire.enemies.length
            Session.crossfire) :=
  have hover : ∃ e ∈ Session.crossfire.enemies,
      checkCollision Session.crossShot.circle e.circle = true :=
    ⟨Session.rightRock, List.mem_cons_of_mem _ (List.mem_singleton.mpr rfl), by decide!⟩
  ⟨rfl, rfl, hover,
    (player_projectile_hits_last_overlapping_enemy (Session.env 1) Session.crossfire 0
      Session.crossShot rfl rfl hover).1⟩

/-- C22: in `spawnEnemies`, with the accumulated timer `t = enemySpawnTimer + dt`,
the interval `spawnRate wave` and `r` the first `Math.random()` result drawn: if
`t <= interval` the timer becomes `t` and nothing else changes; if `t > interval`
the timer is reset to 0 and exactly one enemy is appended, which is a `Boss` iff
`wave > 3` and `r > 0.95`, otherwise an `AlienShip` iff `r > 0.5`, otherwise a
`Meteor`.  Hence while `wave <= 3` the appended enemy is never a `Boss`: every
boss in the collection afterwards was there before. -/
theorem spawn_rule (E : Env) (dt : ℚ) (g : StellarDefenderGame) :
    (g.enemySpawnTimer + dt ≤ spawnRate g.wave →
      spawnEnemies E dt g = { g with enemySpawnTimer := g.enemySpawnTimer + dt }) ∧
    (g.enemySpawnTimer + dt > spawnRate g.wave →
      (spawnEnemies E dt g).enemySpawnTimer = 0 ∧
      ∃ e, (spawnEnemies E dt g).enemies = g.enemies ++ [e] ∧
        (e.isBoss = true ↔ g.wave > 3 ∧ E.random g.randomCalls > 0.95) ∧
        (e.isAlienShip = true ↔
          ¬ (g.wave > 3 ∧ E.random g.randomCalls > 0.95) ∧ E.random g.randomCalls > 0.5) ∧
        (e.isMeteor = true ↔
          ¬ (g.wave > 3 ∧ E.random g.randomCalls > 0.95) ∧
            ¬ E.random g.randomCalls > 0.5)) ∧
    (g.wave ≤ 3 →
      (∀ e, (spawnEnemies E dt g).enemies = g.enemies ++ [e] → e.isBoss = false) ∧
      ∀ e ∈ (spawnEnemies E dt g).enemies, e.isBoss = true → e ∈ g.enemies) := by
  have hspawn : g.enemySpawnTimer + dt > spawnRate g.wave →
      ∃ e, (spawnEnemies E dt g).enemies = g.enemies ++ [e] ∧
        (e.isBoss = true ↔ g.wave > 3 ∧ E.random g.randomCalls > 0.95) ∧
        (e.isAlienShip = true ↔
          ¬ (g.wave > 3 ∧ E.random g.randomCalls > 0.95) ∧ E.random g.randomCalls > 0.5) ∧
        (e.isMeteor = true ↔
          ¬ (g.wave > 3 ∧ E.random g.randomCalls > 0.95) ∧
            ¬ E.random g.randomCalls > 0.5) := by
    intro h
    have h' : g.enemySpawnTimer + dt > max (1200 - (g.wave : ℚ) * 50) 400 := h
    unfold spawnEnemies
    simp only [h', if_true]
    by_cases hb : g.wave > 3 ∧ E.random g.randomCalls > 0.95
    · rw [if_pos hb]
      exact ⟨_, rfl, by simp [Enemy.isBoss, Boss.new, hb],
        by simp [Enemy.isAlienShip, Boss.new, hb], by simp [Enemy.isMeteor, Boss.new, hb]⟩
    · rw [if_neg hb]
      by_cases ha : E.random g.randomCalls > 0.5
      · rw [if_pos ha]
        exact ⟨_, rfl, by simp [Enemy.isBoss, AlienShip.new, hb],
          by simp [Enemy.isAlienShip, AlienShip.new, hb, ha],
          by simp [Enemy.isMeteor, AlienShip.new, ha]⟩
      · rw [if_neg ha]
        exact ⟨_, rfl, by simp [Enemy.isBoss, Meteor.new, hb],
          by simp [Enemy.isAlienShip, Meteor.new, ha],
          by simp [Enemy.isMeteor, Meteor.new, hb, ha]⟩
  have hidle : g.enemySpawnTimer + dt ≤ spawnRate g.wave →
      spawnEnemies E dt g = { g with enemySpawnTimer := g.enemySpawnTimer + dt } := by
    intro h
    have h' : ¬ g.enemySpawnTimer + dt > max (1200 - (g.wave : ℚ) * 50) 400 := not_lt.mpr h
    unfold spawnEnemies
    simp only [h', if_false]
  refine ⟨hidle, fun h => ⟨?_, hspawn h⟩, fun hw => ?_⟩
  · rw [spawnEnemies_timer, if_pos h]
  · have hnb : ¬ (g.wave > 3 ∧ E.random g.randomCalls > 0.95) := fun hb => absurd hb.1 (not_lt.mpr hw)
    have hnew : ∀ e, (spawnEnemies E dt g).enemies = g.enemies ++ [e] → e.isBoss = false := by
      intro e he
      by_cases h : g.enemySpawnTimer + dt > spawnRate g.wave
      · obtain ⟨e', he', hboss, _⟩ := hspawn h
        rw [he'] at he
        have hee : e' = e := by simpa using he
        rw [← hee]
        cases hv : e'.isBoss
        · rfl
        · exact absurd (hboss.mp hv) hnb
      · rw [hidle (not_lt.mp h)] at he
        have hlen := congrArg List.length he
        simp at hlen
    refine ⟨hnew, ?_⟩
    intro e he hboss
    by_cases h : g.enemySpawnTimer + dt > spawnRate g.wave
    · obtain ⟨e', he', _⟩ := hspawn h
      rw [he', List.mem_append, List.mem_singleton] at he
      rcases he with h1 | h1
      · exact h1
      · rw [h1, hnew e' he'] at hboss
        exact absurd hboss Bool.false_ne_true
    · rw [hidle (not_lt.mp h)] at he
      exact he

theorem spawn_rule_witness :
    Session.dueSpawn.enemySpawnTimer + 50 > spawnRate Session.dueSpawn.wave ∧
      (spawnEnemies (Session.env 1) 50 Session.dueSpawn).enemySpawnTimer = 0 :=
  have h : Session.dueSpawn.enemySpawnTimer + 50 > spawnRate Session.dueSpawn.wave := by
    decide!
  ⟨h, ((spawn_rule (Session.env 1) 50 Session.dueSpawn).2.1 h).1⟩

/-- C23, as stated, fails: the boss `flagship`, in phase 0, fires five projectiles
whose velocities are `(-200, 0)`, `(-141.42, 141.42)`, `(0, 200)`,
`(141.42, 141.42)` and `(200, 0)`: the outer two leave horizontally, at 90 degrees
from straight down, and the list is not the one of the directions -45, -22.5, 0,
22.5 and 45 degrees. -/
theorem boss_fan_is_not_45_degrees_wide :
    Session.flagship.isBoss = true ∧
      (Session.flagship.fire Session.fanEnv 0 (fun _ => 0)).2.map (fun q => (q.vx, q.vy))
        = [(-200, 0), (-(7071 / 50), 7071 / 50), (0, 200), (7071 / 50, 7071 / 50), (200, 0)] ∧
      (Session.flagship.fire Session.fanEnv 0 (fun _ => 0)).2.map (fun q => (q.vx, q.vy))
        ≠ [(200 * Session.fanEnv.sin (Session.fanEnv.PI / 180 * (-45)),
              200 * Session.fanEnv.cos (Session.fanEnv.PI / 180 * (-45))),
            (200 * Session.fanEnv.sin (Session.fanEnv.PI / 180 * (-45 / 2)),
              200 * Session.fanEnv.cos (Session.fanEnv.PI / 180 * (-45 / 2))),
            (200 * Session.fanEnv.sin (Session.fanEnv.PI / 180 * 0),
              200 * Session.fanEnv.cos (Session.fanEnv.PI / 180 * 0)),
            (200 * Session.fanEnv.sin (Session.fanEnv.PI / 180 * (45 / 2)),
              200 * Session.fanEnv.cos (Session.fanEnv.PI / 180 * (45 / 2))),
            (200 * Session.fanEnv.sin (Session.fanEnv.PI / 180 * 45),
              200 * Session.fanEnv.cos (Session.fanEnv.PI / 180 * 45))] ∧
      [(200 * Session.fanEnv.sin (Session.fanEnv.PI / 180 * (-45)),
              200 * Session.fanEnv.cos (Session.fanEnv.PI / 180 * (-45))),
            (200 * Session.fanEnv.sin (Session.fanEnv.PI / 180 * (-45 / 2)),
              200 * Session.fanEnv.cos (Session.fanEnv.PI / 180 * (-45 / 2))),
            (200 * Session.fanEnv.sin (Session.fanEnv.PI / 180 * 0),
              200 * Session.fanEnv.cos (Session.fanEnv.PI / 180 * 0)),
            (200 * Session.fanEnv.sin (Session.fanEnv.PI / 180 * (45 / 2)),
              200 * Session.fanEnv.cos (Session.fanEnv.PI / 180 * (45 / 2))),
            (200 * Session.fanEnv.sin (Session.fanEnv.PI / 180 * 45),
              200 * Session.fanEnv.cos (Session.fanEnv.PI / 180 * 45))]
        = [(-(7071 / 50), 7071 / 50), (-(3827 / 50), 9239 / 50), (0, 200),
            (3827 / 50, 9239 / 50), (7071 / 50, 7071 / 50)] := by
  refine ⟨rfl, ?_, ?_, ?_⟩ <;> decide!

/-- C23, amended: when a boss whose phase is not 2 (so in phase 0 and in phase 1)
fires, it returns exactly 5 enemy projectiles, leaving from `(x, y + radius)` with
the damage of the boss, whose directions, measured from straight down, are -90,
-45, 0, 45 and 90 degrees: the velocity is `(200 * sin a, 200 * cos a)` for those
angles `a`, in steps of 45 degrees, and the speed is 200 px/s wherever `sin` and
`cos` satisfy `sin^2 + cos^2 = 1`. -/
theorem boss_fan (E : Env) (e : Enemy) (now : ℚ) (r : Nat → ℚ) (phase : ℤ) (phaseTimer : ℚ)
    (hkind : e.kind = .boss phase phaseTimer) (hphase : phase ≠ 2) :
    (e.fire E now r).2.length = 5 ∧
    (e.fire E now r).2.map (fun q => (q.vx, q.vy)) =
      [(E.sin (E.PI / 180 * (-90)) * 200, E.cos (E.PI / 180 * (-90)) * 200),
        (E.sin (E.PI / 180 * (-45)) * 200, E.cos (E.PI / 180 * (-45)) * 200),
        (E.sin (E.PI / 180 * 0) * 200, E.cos (E.PI / 180 * 0) * 200),
        (E.sin (E.PI / 180 * 45) * 200, E.cos (E.PI / 180 * 45) * 200),
        (E.sin (E.PI / 180 * 90) * 200, E.cos (E.PI / 180 * 90) * 200)] ∧
    (∀ q ∈ (e.fire E now r).2, q.isPlayerProjectile = false ∧ q.x = e.x ∧
      q.y = e.y + e.radius ∧ q.damage = e.damage ∧
      ∃ a, q.vx = E.sin a * 200 ∧ q.vy = E.cos a * 200 ∧
        (E.sin a ^ 2 + E.cos a ^ 2 = 1 → q.vx ^ 2 + q.vy ^ 2 = 200 ^ 2)) := by
  have h0 : E.PI / 4 * ((0 : ℚ) - 2) = E.PI / 180 * (-90) := by ring
  have h1 : E.PI / 4 * ((1 : ℚ) - 2) = E.PI / 180 * (-45) := by ring
  have h2 : E.PI / 4 * ((2 : ℚ) - 2) = E.PI / 180 * 0 := by ring
  have h3 : E.PI / 4 * ((3 : ℚ) - 2) = E.PI / 180 * 45 := by ring
  have h4 : E.PI / 4 * ((4 : ℚ) - 2) = E.PI / 180 * 90 := by ring
  have hrange : List.range 5 = [0, 1, 2, 3, 4] := by decide
  have hfire : (e.fire E now r).2 =
      [Projectile.new e.x (e.y + e.radius) (E.sin (E.PI / 180 * (-90)) * 200)
          (E.cos (E.PI / 180 * (-90)) * 200) e.damage false,
        Projectile.new e.x (e.y + e.radius) (E.sin (E.PI / 180 * (-45)) * 200)
          (E.cos (E.PI / 180 * (-45)) * 200) e.damage false,
        Projectile.new e.x (e.y + e.radius) (E.sin (E.PI / 180 * 0) * 200)
          (E.cos (E.PI / 180 * 0) * 200) e.damage false,
        Projectile.new e.x (e.y + e.radius) (E.sin (E.PI / 180 * 45) * 200)
          (E.cos (E.PI / 180 * 45) * 200) e.damage false,
        Projectile.new e.x (e.y + e.radius) (E.sin (E.PI / 180 * 90) * 200)
          (E.cos (E.PI / 180 * 90) * 200) e.damage false] := by
    unfold Enemy.fire
    simp only [hkind, hphase, if_false, hrange, List.map_cons, List.map_nil,
      List.bind_eq_flatMap, List.flatMap_cons, List.flatMap_nil, List.pure_def,
      List.singleton_append, List.append_nil, Nat.cast_ofNat, Nat.cast_zero, Nat.cast_one,
      h0, h1, h2, h3, h4]
  rw [hfire]
  refine ⟨rfl, rfl, ?_⟩
  intro q hq
  have hsq : ∀ a : ℚ, E.sin a ^ 2 + E.cos a ^ 2 = 1 →
      (E.sin a * 200) ^ 2 + (E.cos a * 200) ^ 2 = 200 ^ 2 := by
    intro a ha
    have : (E.sin a * 200) ^ 2 + (E.cos a * 200) ^ 2
        = (E.sin a ^ 2 + E.cos a ^ 2) * 200 ^ 2 := by ring
    rw [this, ha, one_mul]
  simp only [List.mem_cons, List.mem_singleton, List.not_mem_nil, or_false] at hq
  rcases hq with rfl | rfl | rfl | rfl | rfl
  · exact ⟨rfl, rfl, rfl, rfl, _, rfl, rfl, hsq _⟩
  · exact ⟨rfl, rfl, rfl, rfl, _, rfl, rfl, hsq _⟩
  · exact ⟨rfl, rfl, rfl, rfl, _, rfl, rfl, hsq _⟩
  · exact ⟨rfl, rfl, rfl, rfl, _, rfl, rfl, hsq _⟩
  · exact ⟨rfl, rfl, rfl, rfl, _, rfl, rfl, hsq _⟩

theorem boss_fan_witness :
    Session.flagship.kind = .boss 0 0 ∧ (0 : ℤ) ≠ 2 ∧
      (Session.flagship.fire Session.fanEnv 0 (fun _ => 0)).2.length = 5 :=
  ⟨rfl, by decide,
    (boss_fan Session.fanEnv Session.flagship 0 (fun _ => 0) 0 0 rfl (by decide)).1⟩

/-- C24: `Player.spawn(x, y)` sets the position to `(x, y)`, the health to 100,
`lastFire` to 0, `isInvincible` to true and `invincibleTimer` to 3000, and leaves
the power-up durations as they were.  Consequently `start()` and `playerDied()`
leave the power-up durations of the player unchanged, and so does a `takeDamage`
that reports the death: a power-up with `v` ms left when the player dies, or when
`start()` restarts the game, has `v` ms left and is still active afterwards.  In
particular a contact that kills a player who has lives left respawns the player at
full health and invincible with every power-up duration as before. -/
theorem spawn_keeps_powerUps (E : Env) (g : StellarDefenderGame) (p : Player) (x y d : ℚ)
    (e : Enemy) :
    p.spawn x y = { x := x, y := y, health := 100, lastFire := 0, isInvincible := true,
                    invincibleTimer := 3000, powerUps := p.powerUps } ∧
    (g.start E).player.powerUps = g.player.powerUps ∧
    (playerDied E g).player.powerUps = g.player.powerUps ∧
    ((p.takeDamage d).1 = true → (p.takeDamage d).2.powerUps = p.powerUps) ∧
    (∀ key v, g.player.powerUps key = some v →
      (g.start E).player.powerUps key = some v ∧
      (playerDied E g).player.powerUps key = some v ∧
      truthy ((g.start E).player.powerUps key) = truthy (g.player.powerUps key) ∧
      truthy ((playerDied E g).player.powerUps key) = truthy (g.player.powerUps key)) ∧
    (checkCollision g.player.circle e.circle = true →
      (g.player.takeDamage e.damage).1 = true → g.lives - 1 > 0 →
      (forceContact E e g).player.powerUps = g.player.powerUps ∧
      (forceContact E e g).player.health = 100 ∧
      (forceContact E e g).player.isInvincible = true ∧
      (forceContact E e g).player.invincibleTimer = 3000) := by
  have hstart : (g.start E).player.powerUps = g.player.powerUps := by
    simp [start, Player.spawn]
  have hdied : ∀ s : StellarDefenderGame, (playerDied E s).player.powerUps = s.player.powerUps := by
    intro s
    rw [playerDied_player]
    split_ifs <;> rfl
  have hdamage : ∀ (q : Player) (c : ℚ), (q.takeDamage c).1 = true →
      (q.takeDamage c).2.powerUps = q.powerUps := by
    intro q c h
    unfold Player.takeDamage at h ⊢
    split_ifs at h ⊢
    rfl
  refine ⟨rfl, hstart, hdied g, hdamage p d, ?_, ?_⟩
  · intro key v hv
    rw [hstart, hdied g]
    exact ⟨hv, hv, rfl, rfl⟩
  · intro hc hdead hlives
    rw [forceContact_eq E e g hc]
    simp only [hdead, if_true, createExplosion_player, playerDied_player, hlives]
    exact ⟨hdamage g.player e.damage hdead, rfl, rfl, rfl⟩

theorem spawn_keeps_powerUps_witness :
    checkCollision ({ Session.arena with player := Session.veteran } :
        StellarDefenderGame).player.circle Session.rock.circle = true ∧
      (Session.veteran.takeDamage Session.rock.damage).1 = true ∧
      ({ Session.arena with player := Session.veteran } : StellarDefenderGame).lives - 1 > 0 ∧
      Session.veteran.powerUps "multiShot" = some 7000 ∧
      (forceContact (Session.env 1) Session.rock
          { Session.arena with player := Session.veteran }).player.powerUps
        = Session.veteran.powerUps ∧
      (forceContact (Session.env 1) Session.rock
          { Session.arena with player := Session.veteran }).player.health = 100 :=
  have hc : checkCollision ({ Session.arena with player := Session.veteran } :
      StellarDefenderGame).player.circle Session.rock.circle = true := by decide!
  have hdead : (({ Session.arena with player := Session.veteran } :
      StellarDefenderGame).player.takeDamage Session.rock.damage).1 = true := by decide!
  have hlives : ({ Session.arena with player := Session.veteran } :
      StellarDefenderGame).lives - 1 > 0 := by decide
  ⟨hc, hdead, hlives, rfl,
    ((spawn_keeps_powerUps (Session.env 1) { Session.arena with player := Session.veteran }
      Session.veteran 0 0 0 Session.rock).2.2.2.2.2 hc hdead hlives).1,
    ((spawn_keeps_powerUps (Session.env 1) { Session.arena with player := Session.veteran }
      Session.veteran 0 0 0 Session.rock).2.2.2.2.2 hc hdead hlives).2.1⟩

end StellarDefender
